import Mathlib

/-!
EasyGUI: dropdown and graph widgets.

A shallow embedding of `src/widget/gui_dropdown.c` and `src/widget/gui_graph.c`.

Conventions of the embedding.

* `int16_t` / `uint16_t` values are integers; every store into such a variable
  goes through `to_int16` / `to_uint16` (two's complement wrap).
* `gui_dim_t` (pixel dimensions) and the geometry fields of the common widget
  header are declared in headers that are not part of the sources at hand; they
  are taken as mathematical integers.
* The graph widget is embedded twice.  `GUI_GRAPH_t` holds its `float` fields
  as rationals, an idealisation in exact arithmetic, used where a statement is
  about which fields a function writes, about the hard bounds or about the
  lists of attached series.  `GUI_GRAPH_f32_t` holds them as IEEE-754 single
  precision values and rounds every operation as the compiled code does
  (round to nearest, ties to even, no fused operations); the statements about
  the values a zoom or a pan leaves, and about the X positions of the `Draw`
  walk, are made there.  The one float expression of the dropdown,
  `(float)size * 1.3f`, is likewise evaluated as single precision does (see
  `item_height`).
* `size_t` is `size_bits` wide, a parameter of `gui_graph_data_create`; the
  byte count of an allocation is reduced modulo `2 ^ size_bits`.
* Functions that mutate the widget return the new widget; functions with a
  return value return a pair.  Code paths that dereference a `NULL` font
  return `none`.
* Division is the truncating division of C (`Int.tdiv`).  Division by zero (a
  font whose item height is 0) is undefined in C and gives 0 here; theorems
  that read a quotient assume a positive item height.
-/

namespace EasyGUI

/-! ## Machine integers -/

/-- Conversion of an integer to `int16_t`. -/
def to_int16 (x : Int) : Int := (x + 32768) % 65536 - 32768

/-- Conversion of an integer to `uint16_t`. -/
def to_uint16 (x : Int) : Int := x % 65536

/-- The value is representable as `int16_t`. -/
def in_int16 (x : Int) : Prop := -32768 ≤ x ∧ x ≤ 32767

instance (x : Int) : Decidable (in_int16 x) := by
  unfold in_int16; exact inferInstance

/-! ## Widget commands and parameters -/

/-- Commands of the widget callback protocol (`GUI_WC_t`), the ones the two
widgets handle or issue. -/
inductive GUI_WC_t where
  | PreInit | Draw | Remove | SetParam
  | TouchStart | TouchMove | TouchEnd
  | Click | DblClick | FocusOut | KeyPress
  | IncSelection | SelectionChanged
  deriving DecidableEq, Repr

/-- Key codes `GUI_KEY_UP` / `GUI_KEY_DOWN`: two distinct constants of the
library headers. -/
def GUI_KEY_UP : Nat := 0x01

def GUI_KEY_DOWN : Nat := 0x02

/-- Touch data handed to a widget (`guii_touch_data_t`): number of presses,
coordinates relative to the widget, and the finger distances of the two-finger
gesture. -/
structure guii_touch_data_t where
  Count : Nat
  RelX : List Int
  RelY : List Int
  distance : ℚ
  distance_old : ℚ

/-- First touch point, `ts->RelY[0]`. -/
def guii_touch_data_t.RelY0 (ts : guii_touch_data_t) : Int := ts.RelY.getD 0 0

/-- First touch point, `ts->RelX[0]`. -/
def guii_touch_data_t.RelX0 (ts : guii_touch_data_t) : Int := ts.RelX.getD 0 0

/-- The views of the callback parameter union that the callbacks read:
touch data, first key of the keyboard data, a 16-bit integer, and the
`{type, data}` pair of `SetParam`. -/
structure gui_widget_param_t where
  touch : guii_touch_data_t
  key : Nat
  i16 : Int
  ptype : Nat
  pdata : ℚ

/-! ## Fonts and the common widget header -/

/-- Font descriptor: the callbacks read its `size` only. -/
structure GUI_FONT_t where
  size : Nat
  deriving DecidableEq, Repr

/-- Common widget header (`C`): geometry, font pointer (`none` is `NULL`),
the dirty flags set by invalidation, and the list of commands sent to the
widget callback through `guii_widget_callback`. -/
structure gui_handle where
  x : Int
  y : Int
  width : Int
  height : Int
  font : Option GUI_FONT_t
  invalid : Bool
  parent_invalid : Bool
  callbacks : List GUI_WC_t
  deriving DecidableEq, Repr

/-- Modelled from the spec: `guii_widget_getheight`, the height accessor of the
widget core (not in the sources); it yields the node's height. -/
def guii_widget_getheight (c : gui_handle) : Int := c.height

/-- Modelled from the spec: `guii_widget_getwidth`, the width accessor of the
widget core (not in the sources); it yields the node's width. -/
def guii_widget_getwidth (c : gui_handle) : Int := c.width

/-- Modelled from the spec: `guii_widget_invalidate` of the widget core (not in
the sources) marks the node dirty. -/
def guii_widget_invalidate (c : gui_handle) : gui_handle := { c with invalid := true }

/-- Modelled from the spec: `guii_widget_invalidatewithparent` of the widget
core (not in the sources) marks the node and its parent dirty. -/
def guii_widget_invalidatewithparent (c : gui_handle) : gui_handle :=
  { c with invalid := true, parent_invalid := true }

/-- Modelled from the spec: `guii_widget_callback` of the widget core (not in
the sources) delivers a command to the widget callback; the default callbacks
of both widgets do not handle `SelectionChanged`, so the delivery is recorded
and nothing else changes. -/
def guii_widget_callback (c : gui_handle) (ctrl : GUI_WC_t) : gui_handle :=
  { c with callbacks := c.callbacks ++ [ctrl] }

/-! ## Single precision product `(float)size * 1.3f` -/

/-- Number of low bits of `p` that do not fit the 24-bit significand. -/
def f32_excess : Nat → Nat → Nat
  | 0, _ => 0
  | fuel + 1, p => if p < 2 ^ 24 then 0 else f32_excess fuel (p / 2) + 1

/-- Round-to-nearest, ties-to-even, of the natural number `p` to 24 significant
bits. -/
def f32_round (p : Nat) : Nat :=
  let s := f32_excess 64 p
  let q := p / 2 ^ s
  let r := p % 2 ^ s
  let q1 := if 2 ^ s < 2 * r ∨ (2 * r = 2 ^ s ∧ q % 2 = 1) then q + 1 else q
  q1 * 2 ^ s

/-- The constant `1.3f` is `10905190 / 2^23`. -/
def F32_1_3_NUM : Nat := 10905190

/-- Item height, `item_height(h, NULL)`:
`uint16_t size = (float)h->font->size * 1.3f; return size;`.
The product of the (exactly converted) size and `1.3f` is rounded once to
single precision and truncated by the conversion to an integer. -/
def item_height (f : GUI_FONT_t) : Int :=
  to_uint16 ((f32_round (f.size * F32_1_3_NUM) / 2 ^ 23 : Nat) : Int)

/-- Top offset written by `item_height` when `offset != NULL`:
`*offset = (size - h->font->size) >> 1`. -/
def item_height_offset (f : GUI_FONT_t) : Int :=
  to_uint16 ((item_height f - (f.size : Int)) / 2)

/-! ## Dropdown widget -/

/-- Flag bits of `gui_dropdown_t.Flags`; the header defining them is not in the
sources, they are four distinct single bits. -/
def GUI_FLAG_DROPDOWN_OPENED : Nat := 0x01

def GUI_FLAG_DROPDOWN_SLIDER_ON : Nat := 0x02

def GUI_FLAG_DROPDOWN_SLIDER_AUTO : Nat := 0x04

def GUI_FLAG_DROPDOWN_OPEN_UP : Nat := 0x08

/-- The C test `Flags & mask` (non-zero is true). -/
def flag_test (flags mask : Nat) : Bool := (flags &&& mask) != 0

/-- The C statement `Flags |= mask`. -/
def flag_set (flags mask : Nat) : Nat := flags ||| mask

/-- The C statement `Flags &= ~mask` on an 8-bit flag byte. -/
def flag_clear (flags mask : Nat) : Nat := flags &&& (0xFF ^^^ mask)

/-- Opening direction `gui_dropdown_opendir_t`. -/
inductive gui_dropdown_opendir_t where
  | GUI_DROPDOWN_OPENDIR_DOWN
  | GUI_DROPDOWN_OPENDIR_UP
  deriving DecidableEq, Repr

/-- Dropdown widget `gui_dropdown_t`.  `Root` is the linked list of entries,
each entry being the text pointer handed to `gui_dropdown_addstring`. -/
structure gui_dropdown_t where
  C : gui_handle
  Count : Int
  Selected : Int
  visiblestartindex : Int
  Root : List Nat
  SliderWidth : Int
  Flags : Nat
  OldY : Int
  OldHeight : Int
  deriving DecidableEq, Repr

/-- Macro `is_opened(h)`: `(__GD(h)->Flags & GUI_FLAG_DROPDOWN_OPENED)`. -/
def is_opened (h : gui_dropdown_t) : Bool := flag_test h.Flags GUI_FLAG_DROPDOWN_OPENED

/-- Macro `is_dir_up(h)`: `(__GD(h)->Flags & GUI_FLAG_DROPDOWN_OPEN_UP)`. -/
def is_dir_up (h : gui_dropdown_t) : Bool := flag_test h.Flags GUI_FLAG_DROPDOWN_OPEN_UP

/-- Macro `HEIGHT_CONST(h)`, the height increase when opened: `4`. -/
def HEIGHT_CONST : Int := 4

/-- Result of `get_opened_positions`: the in/out parameters `y`, `height` and
the out parameters `y1`, `height1`. -/
structure opened_positions where
  y : Int
  height : Int
  y1 : Int
  height1 : Int
  deriving DecidableEq, Repr

/-- Function `get_opened_positions`: position and height of the main (selected row) part
`y1`, `height1` and of the expanded list part `y`, `height`. -/
def get_opened_positions (h : gui_dropdown_t) (y height : Int) : opened_positions :=
  let height1 := Int.tdiv height HEIGHT_CONST
  if is_dir_up h then
    { y := y, height := height - height1, y1 := y + height - height1, height1 := height1 }
  else
    { y := y + height1, height := height - height1, y1 := y, height1 := height1 }

/-- Function `nr_entries_pp`: number of entries on one page. -/
def nr_entries_pp (h : gui_dropdown_t) : Int :=
  match h.C.font with
  | none => 0
  | some f =>
    let height := guii_widget_getheight h.C
    let height :=
      if !is_opened h then height * (HEIGHT_CONST - 1)
      else height - Int.tdiv height HEIGHT_CONST
    to_int16 (Int.tdiv height (item_height f))

/-- Function `open_close`: open (`state ≠ 0`) or close (`state = 0`) the dropdown;
returns the widget and the return value. -/
def open_close (h : gui_dropdown_t) (state : Nat) : gui_dropdown_t × Nat :=
  if state ≠ 0 ∧ !is_opened h then
    let h := { h with Flags := flag_set h.Flags GUI_FLAG_DROPDOWN_OPENED }
    let h := { h with OldHeight := h.C.height }
    let h := { h with OldY := h.C.y }
    let h :=
      if is_dir_up h then
        { h with C := { h.C with y := h.C.y - (HEIGHT_CONST - 1) * h.C.height } }
      else h
    let h := { h with C := { h.C with height := HEIGHT_CONST * h.C.height } }
    let h := { h with C := guii_widget_invalidate h.C }
    (h, 1)
  else if state = 0 ∧ flag_test h.Flags GUI_FLAG_DROPDOWN_OPENED then
    let h := { h with C := guii_widget_invalidatewithparent h.C }
    let h := { h with Flags := flag_clear h.Flags GUI_FLAG_DROPDOWN_OPENED }
    let h := { h with C := { h.C with height := h.OldHeight } }
    let h := { h with C := { h.C with y := h.OldY } }
    let h :=
      if h.Selected = -1 then
        { h with visiblestartindex := 0 }
      else
        let perPage := nr_entries_pp h
        let h := { h with visiblestartindex := h.Selected }
        if h.visiblestartindex + perPage ≥ h.Count then
          let h := { h with visiblestartindex := to_int16 (h.Count - perPage) }
          if h.visiblestartindex < 0 then { h with visiblestartindex := 0 } else h
        else h
    (h, 1)
  else (h, 0)

/-- Function `slide`: slide the visible entries up (`dir < 0`) or down (`dir > 0`). -/
def slide (h : gui_dropdown_t) (dir : Int) : gui_dropdown_t :=
  let mPP := nr_entries_pp h
  if dir < 0 then
    let h :=
      if h.visiblestartindex + dir < 0 then { h with visiblestartindex := 0 }
      else { h with visiblestartindex := to_int16 (h.visiblestartindex + dir) }
    { h with C := guii_widget_invalidate h.C }
  else if dir > 0 then
    let h :=
      if h.visiblestartindex + dir > h.Count - mPP - 1 then
        { h with visiblestartindex := to_int16 (h.Count - mPP) }
      else { h with visiblestartindex := to_int16 (h.visiblestartindex + dir) }
    { h with C := guii_widget_invalidate h.C }
  else h

/-- Function `set_selection`: store the selection and notify when it changed. -/
def set_selection (h : gui_dropdown_t) (selected : Int) : gui_dropdown_t :=
  if h.Selected ≠ selected then
    let h := { h with Selected := selected }
    { h with C := guii_widget_callback h.C GUI_WC_t.SelectionChanged }
  else h

/-- Function `get_item`: the list node of entry `index` (given as its position in
`Root`), or `none` for the null pointer.  Modelled from the spec: the linked
list utilities (not in the sources) give the first node for
`getnext_gen(&Root, NULL)`, the last for `getprev_gen(&Root, NULL)` and the
successor for `getnext_gen(NULL, item)`. -/
def get_item (h : gui_dropdown_t) (index : Int) : Option Nat :=
  if index ≥ h.Count then none
  else if index = 0 then
    (if h.Root.length = 0 then none else some 0)
  else if index = h.Count - 1 then
    (if h.Root.length = 0 then none else some (h.Root.length - 1))
  else
    (if index.toNat < h.Root.length then some index.toNat else none)

/-- Function `check_values`: re-validate selection, paging offset and automatic slider
visibility. -/
def check_values (h : gui_dropdown_t) : gui_dropdown_t :=
  let mPP := nr_entries_pp h
  let h :=
    if h.Selected ≥ 0 then
      (if h.Selected ≥ h.Count then set_selection h (to_int16 (h.Count - 1)) else h)
    else h
  let h :=
    if h.visiblestartindex < 0 then { h with visiblestartindex := 0 }
    else if h.visiblestartindex > 0 then
      (if h.Count > mPP then
        (if h.visiblestartindex + mPP ≥ h.Count then
          { h with visiblestartindex := to_int16 (h.Count - mPP) }
        else h)
      else h)
    else h
  if flag_test h.Flags GUI_FLAG_DROPDOWN_SLIDER_AUTO then
    (if h.Count > mPP then
      { h with Flags := flag_set h.Flags GUI_FLAG_DROPDOWN_SLIDER_ON }
    else
      { h with Flags := flag_clear h.Flags GUI_FLAG_DROPDOWN_SLIDER_ON })
  else h

/-- Function `inc_selection`: move the selection by `dir`. -/
def inc_selection (h : gui_dropdown_t) (dir : Int) : gui_dropdown_t :=
  if dir < 0 then
    let h :=
      if h.Selected + dir < 0 then set_selection h 0
      else set_selection h (to_int16 (h.Selected + dir))
    { h with C := guii_widget_invalidate h.C }
  else if dir > 0 then
    let h :=
      if h.Selected + dir > h.Count - 1 then set_selection h (to_int16 (h.Count - 1))
      else set_selection h (to_int16 (h.Selected + dir))
    { h with C := guii_widget_invalidate h.C }
  else h

/-- Function `delete_item`: delete the entry at `index` (a `uint16_t`). -/
def delete_item (h : gui_dropdown_t) (index : Int) : gui_dropdown_t × Nat :=
  match get_item h index with
  | some pos =>
    let h := { h with Root := h.Root.eraseIdx pos }
    let h := { h with Count := to_int16 (h.Count - 1) }
    let h := if h.Selected = index then set_selection h (-1) else h
    let h := check_values h
    let h := { h with C := guii_widget_invalidate h.C }
    (h, 1)
  | none => (h, 0)

/-- Function `process_click`: click on the widget.  `none` when the font pointer is
`NULL` where `item_height` dereferences it. -/
def process_click (h : gui_dropdown_t) (ts : guii_touch_data_t) : Option gui_dropdown_t :=
  if !is_opened h then
    some (open_close h 1).1
  else
    let p := get_opened_positions h 0 (guii_widget_getheight h.C)
    if ts.RelY0 ≥ p.y1 ∧ ts.RelY0 ≤ p.y1 + p.height1 then
      some (open_close h 0).1
    else
      match h.C.font with
      | none => none
      | some f =>
        let tmpSelected :=
          if is_dir_up h then to_uint16 (Int.tdiv ts.RelY0 (item_height f))
          else to_uint16 (Int.tdiv (ts.RelY0 - p.height1) (item_height f))
        let h :=
          if h.visiblestartindex + tmpSelected < h.Count then
            let h := set_selection h (to_int16 (h.visiblestartindex + tmpSelected))
            { h with C := guii_widget_invalidate h.C }
          else h
        let h := check_values h
        some (open_close h 0).1

/-- Result of a widget callback: the widget, the function-static touch
coordinate `tY`, whether the touch / key result was set to handled, the `U8`
result, and the return value (`1` when the command was processed). -/
structure dropdown_cb_t where
  h : gui_dropdown_t
  tY : Int
  touch_handled : Bool
  key_handled : Bool
  result_u8 : Nat
  ret : Nat
  deriving DecidableEq, Repr

/-- Macro `GUI_ABS`: absolute value. -/
def GUI_ABS (x : Int) : Int := if x < 0 then -x else x

/-- Function `gui_dropdown_callback`: default callback of the dropdown, with
touch and keyboard support configured in (`GUI_CFG_USE_TOUCH`,
`GUI_CFG_USE_KEYBOARD`).  The first argument is the function-static `tY`.
`Draw` only reads the widget; `Remove` frees every entry of `Root`.  The result
is `none` when a `NULL` font would be dereferenced. -/
def gui_dropdown_callback (tY : Int) (h : gui_dropdown_t) (ctrl : GUI_WC_t)
    (param : gui_widget_param_t) : Option dropdown_cb_t :=
  let done (h : gui_dropdown_t) : dropdown_cb_t :=
    { h := h, tY := tY, touch_handled := false, key_handled := false, result_u8 := 0, ret := 1 }
  match ctrl with
  | GUI_WC_t.PreInit =>
    let h := { h with Selected := -1 }
    let h := { h with SliderWidth := 30 }
    let h := { h with Flags := flag_set h.Flags GUI_FLAG_DROPDOWN_SLIDER_AUTO }
    some (done h)
  | GUI_WC_t.Draw => some (done h)
  | GUI_WC_t.Remove => some (done { h with Root := [] })
  | GUI_WC_t.TouchStart =>
    some { done h with tY := param.touch.RelY0, touch_handled := true }
  | GUI_WC_t.TouchMove =>
    match h.C.font with
    | none => some (done h)
    | some f =>
      let height := item_height f
      let diff := tY - param.touch.RelY0
      if GUI_ABS diff > height then
        let h := slide h (if diff > 0 then 1 else -1)
        some { done h with tY := param.touch.RelY0 }
      else some (done h)
  | GUI_WC_t.Click =>
    if !is_opened h then some (done (open_close h 1).1)
    else (process_click h param.touch).map done
  | GUI_WC_t.FocusOut => some (done (open_close h 0).1)
  | GUI_WC_t.KeyPress =>
    if param.key = GUI_KEY_DOWN then
      some { done (inc_selection h 1) with key_handled := true }
    else if param.key = GUI_KEY_UP then
      some { done (inc_selection h (-1)) with key_handled := true }
    else some (done h)
  | GUI_WC_t.IncSelection =>
    some { done (inc_selection h param.i16) with result_u8 := 1 }
  | _ => some { done h with ret := 0 }

/-- Function `gui_dropdown_addstring`: append an entry.  `alloc` tells whether
`GUI_MEMALLOC` supplied the entry; the linked list utility
`gui_linkedlist_add_gen` (not in the sources) links the node at the end. -/
def gui_dropdown_addstring (h : gui_dropdown_t) (text : Nat) (alloc : Bool) :
    gui_dropdown_t × Nat :=
  if alloc then
    let h := { h with Root := h.Root ++ [text] }
    let h := { h with Count := to_int16 (h.Count + 1) }
    let h := check_values h
    let h := { h with C := guii_widget_invalidate h.C }
    (h, 1)
  else (h, 0)

/-- Function `gui_dropdown_setopendirection`: set the opening direction. -/
def gui_dropdown_setopendirection (h : gui_dropdown_t) (dir : gui_dropdown_opendir_t) :
    gui_dropdown_t × Nat :=
  if !is_opened h then
    if flag_test h.Flags GUI_FLAG_DROPDOWN_OPEN_UP ∧
        dir = gui_dropdown_opendir_t.GUI_DROPDOWN_OPENDIR_DOWN then
      ({ h with Flags := h.Flags &&& GUI_FLAG_DROPDOWN_OPEN_UP }, 1)
    else if !flag_test h.Flags GUI_FLAG_DROPDOWN_OPEN_UP ∧
        dir = gui_dropdown_opendir_t.GUI_DROPDOWN_OPENDIR_UP then
      ({ h with Flags := flag_set h.Flags GUI_FLAG_DROPDOWN_OPEN_UP }, 1)
    else (h, 0)
  else (h, 0)

/-- Function `gui_dropdown_setstring`: replace the text of entry `index`
(a `uint16_t`); the return variable `ret` is never assigned after its
initialisation to `0`. -/
def gui_dropdown_setstring (h : gui_dropdown_t) (index : Int) (text : Nat) :
    gui_dropdown_t × Nat :=
  match get_item h index with
  | some pos =>
    let h := { h with Root := h.Root.set pos text }
    let h := { h with C := guii_widget_invalidate h.C }
    (h, 0)
  | none => (h, 0)

/-- Function `gui_dropdown_deletefirststring`: delete the first entry. -/
def gui_dropdown_deletefirststring (h : gui_dropdown_t) : gui_dropdown_t × Nat :=
  delete_item h 0

/-- Function `gui_dropdown_deletelaststring`: delete the last entry; the
argument `Count - 1` is converted to the `uint16_t` parameter. -/
def gui_dropdown_deletelaststring (h : gui_dropdown_t) : gui_dropdown_t × Nat :=
  delete_item h (to_uint16 (h.Count - 1))

/-- Function `gui_dropdown_deletestring`: delete the entry at `index`
(a `uint16_t`). -/
def gui_dropdown_deletestring (h : gui_dropdown_t) (index : Int) : gui_dropdown_t × Nat :=
  delete_item h index

/-- Function `gui_dropdown_setsliderauto`: switch automatic slider mode. -/
def gui_dropdown_setsliderauto (h : gui_dropdown_t) (autoMode : Nat) : gui_dropdown_t × Nat :=
  if autoMode ≠ 0 ∧ !flag_test h.Flags GUI_FLAG_DROPDOWN_SLIDER_AUTO then
    let h := { h with Flags := flag_set h.Flags GUI_FLAG_DROPDOWN_SLIDER_AUTO }
    ({ h with C := guii_widget_invalidate h.C }, 1)
  else if autoMode = 0 ∧ flag_test h.Flags GUI_FLAG_DROPDOWN_SLIDER_AUTO then
    let h := { h with Flags := flag_clear h.Flags GUI_FLAG_DROPDOWN_SLIDER_AUTO }
    ({ h with C := guii_widget_invalidate h.C }, 1)
  else (h, 1)

/-- Function `gui_dropdown_setslidervisibility`: manual slider visibility. -/
def gui_dropdown_setslidervisibility (h : gui_dropdown_t) (visible : Nat) :
    gui_dropdown_t × Nat :=
  if !flag_test h.Flags GUI_FLAG_DROPDOWN_SLIDER_AUTO then
    if visible ≠ 0 ∧ !flag_test h.Flags GUI_FLAG_DROPDOWN_SLIDER_ON then
      let h := { h with Flags := flag_set h.Flags GUI_FLAG_DROPDOWN_SLIDER_ON }
      ({ h with C := guii_widget_invalidate h.C }, 1)
    else if visible = 0 ∧ flag_test h.Flags GUI_FLAG_DROPDOWN_SLIDER_ON then
      let h := { h with Flags := flag_clear h.Flags GUI_FLAG_DROPDOWN_SLIDER_ON }
      ({ h with C := guii_widget_invalidate h.C }, 1)
    else (h, 0)
  else (h, 0)

/-- Function `gui_dropdown_scroll`: scroll the list by `step` (an `int16_t`). -/
def gui_dropdown_scroll (h : gui_dropdown_t) (step : Int) : gui_dropdown_t × Nat :=
  let start := h.visiblestartindex
  let h := { h with visiblestartindex := to_int16 (h.visiblestartindex + step) }
  let h := check_values h
  if start ≠ h.visiblestartindex then
    ({ h with C := guii_widget_invalidate h.C }, 1)
  else (h, 0)

/-- Function `gui_dropdown_setselection`: set the selection (an `int16_t`). -/
def gui_dropdown_setselection (h : gui_dropdown_t) (selection : Int) : gui_dropdown_t × Nat :=
  let h := set_selection h selection
  let h := check_values h
  ({ h with C := guii_widget_invalidate h.C }, 1)

/-- Function `gui_dropdown_getselection`: read the selection. -/
def gui_dropdown_getselection (h : gui_dropdown_t) : Int := h.Selected

/-- Function `gui_dropdown_create`: a new dropdown.  Modelled from the spec:
`guii_widget_create` (not in the sources) allocates a zeroed state block with
the given geometry and issues `PreInit`, which is applied here. -/
def gui_dropdown_create (x y width height : Int) (font : Option GUI_FONT_t) : gui_dropdown_t :=
  { C := { x := x, y := y, width := width, height := height, font := font,
           invalid := false, parent_invalid := false, callbacks := [] },
    Count := 0, Selected := -1, visiblestartindex := 0, Root := [],
    SliderWidth := 30, Flags := flag_set 0 GUI_FLAG_DROPDOWN_SLIDER_AUTO,
    OldY := 0, OldHeight := 0 }

/-- The walk of the `Draw` command to the selected entry, the block guarded by
`Selected >= 0 && h->font != NULL`: `item` starts at the first node, is
advanced `Selected` times, and `item->Text` is read.  Nodes are given by their
position in `Root`.  The outer `none` says that the block is skipped, the inner
`none` that `item` is the null pointer where `item->Text` is read.  Modelled
from the spec: the linked list utility `gui_linkedlist_getnext_gen` (not in
the sources) gives the first node, the successor of a node, and the null
pointer when there is none. -/
def draw_selected_item (h : gui_dropdown_t) : Option (Option Nat) :=
  if h.Selected ≥ 0 ∧ h.C.font ≠ none then
    let first : Option Nat := if h.Root.length = 0 then none else some 0
    let next (item : Option Nat) : Option Nat :=
      item.bind (fun p => if p + 1 < h.Root.length then some (p + 1) else none)
    let item := Nat.iterate next h.Selected.toNat first
    some (item.map (fun p => h.Root.getD p 0))
  else none

/-- Entries per page, as the specification names the value of `nr_entries_pp`. -/
def entries_per_page (h : gui_dropdown_t) : Int := nr_entries_pp h

/-- The paging offset is within its bounds:
`0 ≤ visiblestartindex ≤ max(0, Count - entries_per_page)`. -/
def visible_ok (h : gui_dropdown_t) : Prop :=
  0 ≤ h.visiblestartindex ∧ h.visiblestartindex ≤ max 0 (h.Count - entries_per_page h)

/-- The selection is none or an index below `Count`. -/
def selected_ok (h : gui_dropdown_t) : Prop := h.Selected = -1 ∨ h.Selected < h.Count

instance (h : gui_dropdown_t) : Decidable (visible_ok h) := by
  unfold visible_ok; exact inferInstance

instance (h : gui_dropdown_t) : Decidable (selected_ok h) := by
  unfold selected_ok; exact inferInstance

/-! ## Graph widget -/

/-- Series element type `GUI_GRAPH_TYPE_t`. -/
inductive GUI_GRAPH_TYPE_t where
  | GUI_GRAPH_TYPE_YT
  | GUI_GRAPH_TYPE_XY
  deriving DecidableEq, Repr

/-- Series (data object) `GUI_GRAPH_DATA_t`: element type (the field `Type`),
sample buffer `Data`, capacity `Length`, ring cursor `Ptr`, colour, and `Root`, the list of the graphs
(handles) the series is attached to. -/
structure GUI_GRAPH_DATA_t where
  Type_ : GUI_GRAPH_TYPE_t
  Length : Nat
  Ptr : Nat
  Data : List Int
  Color : Nat
  Root : List Nat
  deriving DecidableEq, Repr

/-- Border widths `Border[GUI_GRAPH_BORDER_*]`. -/
structure graph_border_t where
  TOP : Int
  RIGHT : Int
  BOTTOM : Int
  LEFT : Int
  deriving DecidableEq, Repr

/-- Graph widget `GUI_GRAPH_t`; `Root` lists the attached series (handles). -/
structure GUI_GRAPH_t where
  C : gui_handle
  MinX : ℚ
  MaxX : ℚ
  MinY : ℚ
  MaxY : ℚ
  VisibleMinX : ℚ
  VisibleMaxX : ℚ
  VisibleMinY : ℚ
  VisibleMaxY : ℚ
  Border : graph_border_t
  Rows : Nat
  Columns : Nat
  Root : List Nat
  deriving DecidableEq

/-- Parameter types of `SetParam`. -/
def CFG_MIN_X : Nat := 0x01

def CFG_MAX_X : Nat := 0x02

def CFG_MIN_Y : Nat := 0x03

def CFG_MAX_Y : Nat := 0x04

def CFG_ZOOM_RESET : Nat := 0x05

/-- Function `graph_reset`: reset the zoom. -/
def graph_reset (g : GUI_GRAPH_t) : GUI_GRAPH_t :=
  let g := { g with VisibleMaxX := g.MaxX }
  let g := { g with VisibleMinX := g.MinX }
  let g := { g with VisibleMaxY := g.MaxY }
  { g with VisibleMinY := g.MinY }

/-- Function `graph_zoom`: zoom the plot; the four statements run in order, each
reading the fields as the previous ones left them. -/
def graph_zoom (g : GUI_GRAPH_t) (zoom xpos ypos : ℚ) : GUI_GRAPH_t :=
  let xpos := if xpos < 0 ∨ xpos > 1 then 1 / 2 else xpos
  let ypos := if ypos < 0 ∨ ypos > 1 then 1 / 2 else ypos
  let g := { g with VisibleMinX :=
    g.VisibleMinX + (g.VisibleMaxX - g.VisibleMinX) * (zoom - 1) * xpos }
  let g := { g with VisibleMaxX :=
    g.VisibleMaxX - (g.VisibleMaxX - g.VisibleMinX) * (zoom - 1) * (1 - xpos) }
  let g := { g with VisibleMinY :=
    g.VisibleMinY + (g.VisibleMaxY - g.VisibleMinY) * (zoom - 1) * ypos }
  { g with VisibleMaxY :=
    g.VisibleMaxY - (g.VisibleMaxY - g.VisibleMinY) * (zoom - 1) * (1 - ypos) }

/-- Result of the graph callback: the widget, the function-static touch
coordinates `tX[]`, `tY[]`, whether the touch result was set to handled, the
`U8` result and the return value. -/
structure graph_cb_t where
  g : GUI_GRAPH_t
  tX : Nat → Int
  tY : Nat → Int
  touch_handled : Bool
  result_u8 : Nat
  ret : Nat

/-- The loop `for (i = 0; i < ts->TS.Count; i++) t[i] = Rel[i];`. -/
def store_touch (t : Nat → Int) (rel : List Int) (count : Nat) : Nat → Int :=
  fun i => if i < count then rel.getD i 0 else t i

/-- Modelled from the spec: `gui_math_centerofxy` (not in the sources) computes
the midpoint of two coordinates. -/
def gui_math_centerofxy (a b : Int) : ℚ := ((a : ℚ) + (b : ℚ)) / 2

/-- Function `gui_graph_callback`: default callback of the graph, with touch
support and two presses configured in.  `Draw` only reads the widget.  The
effect of `Remove` on the attached series is `graph_remove_links`. -/
def gui_graph_callback (tX tY : Nat → Int) (g : GUI_GRAPH_t) (ctrl : GUI_WC_t)
    (param : gui_widget_param_t) : graph_cb_t :=
  let done (g : GUI_GRAPH_t) : graph_cb_t :=
    { g := g, tX := tX, tY := tY, touch_handled := false, result_u8 := 0, ret := 1 }
  match ctrl with
  | GUI_WC_t.PreInit =>
    let g := { g with Border := { TOP := 5, RIGHT := 5, BOTTOM := 5, LEFT := 5 } }
    let g := { g with MaxX := 10 }
    let g := { g with MinX := -10 }
    let g := { g with MaxY := 10 }
    let g := { g with MinY := -10 }
    let g := graph_reset g
    let g := { g with Rows := 8 }
    let g := { g with Columns := 10 }
    done g
  | GUI_WC_t.SetParam =>
    let g :=
      if param.ptype = CFG_MIN_X then { g with MinX := param.pdata }
      else if param.ptype = CFG_MAX_X then { g with MaxX := param.pdata }
      else if param.ptype = CFG_MIN_Y then { g with MinY := param.pdata }
      else if param.ptype = CFG_MAX_Y then { g with MaxY := param.pdata }
      else if param.ptype = CFG_ZOOM_RESET then graph_reset g
      else g
    { done g with result_u8 := 1 }
  | GUI_WC_t.Draw => done g
  | GUI_WC_t.TouchStart =>
    let ts := param.touch
    { done g with tX := store_touch tX ts.RelX ts.Count,
                  tY := store_touch tY ts.RelY ts.Count, touch_handled := true }
  | GUI_WC_t.TouchMove =>
    let ts := param.touch
    let g :=
      if ts.Count = 1 then
        let x := ts.RelX0
        let y := ts.RelY0
        let step : ℚ := ((guii_widget_getwidth g.C - g.Border.LEFT - g.Border.RIGHT : Int) : ℚ)
          / (g.VisibleMaxX - g.VisibleMinX)
        let diff : ℚ := ((x - tX 0 : Int) : ℚ) / step
        let g := { g with VisibleMinX := g.VisibleMinX - diff }
        let g := { g with VisibleMaxX := g.VisibleMaxX - diff }
        let step : ℚ := ((guii_widget_getheight g.C - g.Border.TOP - g.Border.BOTTOM : Int) : ℚ)
          / (g.VisibleMaxY - g.VisibleMinY)
        let diff : ℚ := ((y - tY 0 : Int) : ℚ) / step
        let g := { g with VisibleMinY := g.VisibleMinY + diff }
        { g with VisibleMaxY := g.VisibleMaxY + diff }
      else if ts.Count = 2 then
        let centerX := gui_math_centerofxy ts.RelX0 (ts.RelX.getD 1 0)
        let centerY := gui_math_centerofxy ts.RelY0 (ts.RelY.getD 1 0)
        let zoom := ts.distance / ts.distance_old
        graph_zoom g zoom (centerX / (guii_widget_getwidth g.C : ℚ))
          (centerY / (guii_widget_getheight g.C : ℚ))
      else g
    let g := { g with C := guii_widget_invalidate g.C }
    { done g with tX := store_touch tX ts.RelX ts.Count,
                  tY := store_touch tY ts.RelY ts.Count }
  | GUI_WC_t.TouchEnd => done g
  | GUI_WC_t.DblClick =>
    let g := graph_reset g
    done { g with C := guii_widget_invalidate g.C }
  | GUI_WC_t.Remove => done g
  | _ => { done g with ret := 0 }

/-- Modelled from the spec: `guii_widget_setparam` of the widget core (not in
the sources) delivers `SetParam` with the `{type, data}` pair to the widget
callback and invalidates the widget. -/
def guii_widget_setparam (g : GUI_GRAPH_t) (cfg : Nat) (data : ℚ) : GUI_GRAPH_t × Nat :=
  let param : gui_widget_param_t :=
    { touch := { Count := 0, RelX := [], RelY := [], distance := 0, distance_old := 0 },
      key := 0, i16 := 0, ptype := cfg, pdata := data }
  let r := gui_graph_callback (fun _ => 0) (fun _ => 0) g GUI_WC_t.SetParam param
  ({ r.g with C := guii_widget_invalidate r.g.C }, 1)

/-- Function `gui_graph_setminx`: set the minimal X value. -/
def gui_graph_setminx (g : GUI_GRAPH_t) (v : ℚ) : GUI_GRAPH_t × Nat :=
  guii_widget_setparam g CFG_MIN_X v

/-- Function `gui_graph_setmaxx`: set the maximal X value. -/
def gui_graph_setmaxx (g : GUI_GRAPH_t) (v : ℚ) : GUI_GRAPH_t × Nat :=
  guii_widget_setparam g CFG_MAX_X v

/-- Function `gui_graph_setminy`: set the minimal Y value. -/
def gui_graph_setminy (g : GUI_GRAPH_t) (v : ℚ) : GUI_GRAPH_t × Nat :=
  guii_widget_setparam g CFG_MIN_Y v

/-- Function `gui_graph_setmaxy`: set the maximal Y value. -/
def gui_graph_setmaxy (g : GUI_GRAPH_t) (v : ℚ) : GUI_GRAPH_t × Nat :=
  guii_widget_setparam g CFG_MAX_Y v

/-- Function `gui_graph_zoomreset`: reset the zoom (the data pointer is `NULL`). -/
def gui_graph_zoomreset (g : GUI_GRAPH_t) : GUI_GRAPH_t × Nat :=
  guii_widget_setparam g CFG_ZOOM_RESET 0

/-- Function `gui_graph_zoom`: zoom the visible window. -/
def gui_graph_zoom (g : GUI_GRAPH_t) (zoom x y : ℚ) : GUI_GRAPH_t × Nat :=
  (graph_zoom g zoom x y, 1)

/-! ### Series and graphs together -/

/-- The graphs and series of an application, by handle. -/
structure graph_world where
  graphs : Nat → GUI_GRAPH_t
  data : Nat → GUI_GRAPH_DATA_t

/-- Modelled from the spec: `gui_linkedlist_multi_add_gen` of the linked list
utilities (not in the sources) allocates a link node and appends it to the
list; when the arena is exhausted (`alloc = false`) the list is unchanged. -/
def gui_linkedlist_multi_add_gen (root : List Nat) (element : Nat) (alloc : Bool) : List Nat :=
  if alloc then root ++ [element] else root

/-- Modelled from the spec: `gui_linkedlist_multi_find_remove` of the linked
list utilities (not in the sources) removes the links that hold `element`. -/
def gui_linkedlist_multi_find_remove (root : List Nat) (element : Nat) : List Nat :=
  root.filter (fun e => e != element)

/-- Function `graph_invalidate`: invalidate every graph in the series' list. -/
def graph_invalidate (w : graph_world) (data : Nat) : graph_world :=
  (w.data data).Root.foldl
    (fun w h =>
      let g := w.graphs h
      { w with graphs := Function.update w.graphs h { g with C := guii_widget_invalidate g.C } })
    w

/-- Function `gui_graph_attachdata`: attach series `data` to graph `h`.
`auto_invalidate` is the compile-time option
`GUI_CFG_WIDGET_GRAPH_DATA_AUTO_INVALIDATE`; `alloc1`, `alloc2` tell whether the
arena supplies the two link nodes. -/
def gui_graph_attachdata (auto_invalidate : Bool) (w : graph_world) (h data : Nat)
    (alloc1 alloc2 : Bool) : graph_world × Nat :=
  let g := w.graphs h
  let g := { g with Root := gui_linkedlist_multi_add_gen g.Root data alloc1 }
  let w := { w with graphs := Function.update w.graphs h g }
  let w :=
    if auto_invalidate then
      let d := w.data data
      let d := { d with Root := gui_linkedlist_multi_add_gen d.Root h alloc2 }
      { w with data := Function.update w.data data d }
    else w
  (w, 1)

/-- Function `gui_graph_detachdata`: detach series `data` from graph `h`. -/
def gui_graph_detachdata (auto_invalidate : Bool) (w : graph_world) (h data : Nat) :
    graph_world × Nat :=
  let g := w.graphs h
  let g := { g with Root := gui_linkedlist_multi_find_remove g.Root data }
  let w := { w with graphs := Function.update w.graphs h g }
  let w :=
    if auto_invalidate then
      let d := w.data data
      let d := { d with Root := gui_linkedlist_multi_find_remove d.Root h }
      { w with data := Function.update w.data data d }
    else w
  (w, 1)

/-- The `Remove` command of `gui_graph_callback` (compiled in with
`GUI_CFG_WIDGET_GRAPH_DATA_AUTO_INVALIDATE`): graph `h` is removed from the
list of every series attached to it. -/
def graph_remove_links (w : graph_world) (h : Nat) : graph_world :=
  (w.graphs h).Root.foldl
    (fun w d =>
      let s := w.data d
      let s := { s with Root := gui_linkedlist_multi_find_remove s.Root h }
      { w with data := Function.update w.data d s })
    w

/-- The stores and the cursor update of `gui_graph_data_addvalue`, on the
series alone. -/
def data_addvalue (d : GUI_GRAPH_DATA_t) (x y : Int) : GUI_GRAPH_DATA_t :=
  let d :=
    match d.Type_ with
    | GUI_GRAPH_TYPE_t.GUI_GRAPH_TYPE_YT => { d with Data := d.Data.set d.Ptr y }
    | GUI_GRAPH_TYPE_t.GUI_GRAPH_TYPE_XY =>
      let d := { d with Data := d.Data.set (2 * d.Ptr + 0) x }
      { d with Data := d.Data.set (2 * d.Ptr + 1) y }
  let d := { d with Ptr := d.Ptr + 1 }
  if d.Ptr ≥ d.Length then { d with Ptr := 0 } else d

/-- Function `gui_graph_data_addvalue`: append a sample to series `data` and,
with the compile-time option on, invalidate the graphs it is attached to. -/
def gui_graph_data_addvalue (auto_invalidate : Bool) (w : graph_world) (data : Nat)
    (x y : Int) : graph_world × Nat :=
  let w := { w with data := Function.update w.data data (data_addvalue (w.data data) x y) }
  let w := if auto_invalidate then graph_invalidate w data else w
  (w, 1)

/-- Function `gui_graph_data_setcolor`: set the colour of a series. -/
def gui_graph_data_setcolor (auto_invalidate : Bool) (w : graph_world) (data : Nat)
    (color : Nat) : graph_world × Nat :=
  if (w.data data).Color ≠ color then
    let d := w.data data
    let d := { d with Color := color }
    let w := { w with data := Function.update w.data data d }
    let w := if auto_invalidate then graph_invalidate w data else w
    (w, 1)
  else (w, 1)

/-- Size in bytes of one sample, `sizeof(*data->Data)`: the docstring of
`gui_graph_data_create` names the 2-byte `short int`. -/
def SIZEOF_SAMPLE : Nat := 2

/-- Function `gui_graph_data_create`: create a series.  `size_bits` is the
width of `size_t` on the target: the byte count handed to `GUI_MEMALLOC`,
`length * sizeof(*data->Data)` for `YT` and `length * 2 * sizeof(*data->Data)`
for `XY`, is computed modulo `2 ^ size_bits`.  `block` is the descriptor block
`GUI_MEMALLOC` returned (its content is whatever the arena holds) and `buffer`
the content of the sample buffer, `none` when the allocation failed; the
buffer holds as many samples as the requested bytes give.  The field `Length`
(declared in a header that is not part of the sources) is taken to hold every
`size_t` value. -/
def gui_graph_data_create (size_bits : Nat) (type : GUI_GRAPH_TYPE_t) (length : Nat)
    (block : Option GUI_GRAPH_DATA_t) (buffer : Option (Nat → Int)) : Option GUI_GRAPH_DATA_t :=
  match block with
  | none => none
  | some data =>
    let data := { data with Type_ := type }
    let data := { data with Length := length }
    let bytes :=
      if type = GUI_GRAPH_TYPE_t.GUI_GRAPH_TYPE_YT then (length * SIZEOF_SAMPLE) % 2 ^ size_bits
      else (length * 2 * SIZEOF_SAMPLE) % 2 ^ size_bits
    match buffer with
    | none => none
    | some content => some { data with Data := (List.range (bytes / SIZEOF_SAMPLE)).map content }

/-- One sample as the `Draw` command reads it at slot `read`: `Data[read]` for
`YT` (no X value is stored), the pair `Data[2*read]`, `Data[2*read+1]` for
`XY`. -/
def read_sample (d : GUI_GRAPH_DATA_t) (read : Nat) : Option Int × Int :=
  match d.Type_ with
  | GUI_GRAPH_TYPE_t.GUI_GRAPH_TYPE_YT => (none, d.Data.getD read 0)
  | GUI_GRAPH_TYPE_t.GUI_GRAPH_TYPE_XY =>
    (some (d.Data.getD (2 * read + 0) 0), d.Data.getD (2 * read + 1) 0)

/-- The increment `if (++read == data->Length) read = 0;` of the `Draw` walk. -/
def next_read (d : GUI_GRAPH_DATA_t) (read : Nat) : Nat :=
  if read + 1 = d.Length then 0 else read + 1

/-- The loop `while (read != write) { ...; if (++read == Length) read = 0; }`
of the `Draw` command, collecting the slots it reads; `none` when the loop has
not ended within `fuel` iterations. -/
def draw_loop (d : GUI_GRAPH_DATA_t) (write : Nat) : Nat → Nat → List Nat → Option (List Nat)
  | 0, _, _ => none
  | fuel + 1, read, acc =>
    if read ≠ write then draw_loop d write fuel (next_read d read) (acc ++ [read])
    else some acc

/-- The ring walk of the `Draw` command over one series: the first point is
read at `read = Ptr`, then the loop runs until `read` is back at
`write = Ptr`.  The result lists the slots in the order they are read.  This
is the loop of the `XY` branch; the loop of the `YT` branch, which also ends
once `x1` has passed `disp->X2`, is `draw_walk_yt`, and reads an initial part
of the same order. -/
def draw_walk (d : GUI_GRAPH_DATA_t) (fuel : Nat) : Option (List Nat) :=
  let read := d.Ptr
  let write := d.Ptr
  draw_loop d write fuel (next_read d read) [read]

/-- The samples the `Draw` walk reads, in order. -/
def draw_samples (d : GUI_GRAPH_DATA_t) (fuel : Nat) : Option (List (Option Int × Int)) :=
  (draw_walk d fuel).map (fun slots => slots.map (read_sample d))

/-- What one appended sample `(x, y)` is stored as: `y` alone for `YT`, the
pair for `XY`. -/
def stored_sample (t : GUI_GRAPH_TYPE_t) (v : Int × Int) : Option Int × Int :=
  match t with
  | GUI_GRAPH_TYPE_t.GUI_GRAPH_TYPE_YT => (none, v.2)
  | GUI_GRAPH_TYPE_t.GUI_GRAPH_TYPE_XY => (some v.1, v.2)

/-- Appending a list of samples `(x, y)` with `gui_graph_data_addvalue`, one
call per sample. -/
def addvalues (d : GUI_GRAPH_DATA_t) (vs : List (Int × Int)) : GUI_GRAPH_DATA_t :=
  vs.foldl (fun d v => data_addvalue d v.1 v.2) d

/-! ## Single precision arithmetic

The `float` fields of the graph widget, evaluated as the compiled code does:
IEEE-754 binary32 with round-to-nearest, ties-to-even, every operation rounded
once (`FLT_EVAL_METHOD` 0). -/

/-- A binary32 value.  The value of `finite neg m e` is `(-1)^neg * m * 2^e`;
the encodings in use have `m < 2^24`, `-149 ≤ e ≤ 104`, and `2^23 ≤ m` unless
`e = -149` (zero and the subnormal numbers). -/
inductive f32 where
  | finite (neg : Bool) (m : Nat) (e : Int)
  | inf (neg : Bool)
  | nan
  deriving DecidableEq, Repr

/-- Number of binary digits of `n`, with a recursion bound. -/
def nat_bits : Nat → Nat → Nat
  | 0, _ => 0
  | fuel + 1, n => if n = 0 then 0 else nat_bits fuel (n / 2) + 1

/-- Number of binary digits of `n` (0 for 0). -/
def nat_size (n : Nat) : Nat := nat_bits n n

/-- Signed zero. -/
def f32_zero (neg : Bool) : f32 := f32.finite neg 0 (-149)

/-- The binary32 value nearest to `(-1)^neg * (n + d) * 2^e`, where `0 ≤ d < 1`
and `d ≠ 0` exactly when `sticky` is set (`sticky` is used with `n ≥ 2^26`
only): ties go to the even significand, and magnitudes that round to `2^128`
or more give infinity. -/
def f32_nearest (neg : Bool) (n : Nat) (e : Int) (sticky : Bool) : f32 :=
  if n = 0 then f32_zero neg
  else
    let e1 : Int := max (e + (nat_size n : Int) - 24) (-149)
    let m : Nat :=
      if e1 ≤ e then n * 2 ^ (e - e1).toNat
      else
        let s := (e1 - e).toNat
        let q := n / 2 ^ s
        let r := n % 2 ^ s
        let half := 2 ^ (s - 1)
        if half < r ∨ (r = half ∧ (sticky = true ∨ q % 2 = 1)) then q + 1 else q
    let m1 : Nat := if m = 2 ^ 24 then 2 ^ 23 else m
    let e2 : Int := if m = 2 ^ 24 then e1 + 1 else e1
    if e2 > 104 then f32.inf neg else f32.finite neg m1 e2

/-- Conversion of an integer to `float`. -/
def f32_of_int (i : Int) : f32 := f32_nearest (decide (i < 0)) i.natAbs 0 false

/-- A finite value as an integer multiple of `2^-149` (0 for the others). -/
def f32_scaled : f32 → Int
  | f32.finite neg m e => (if neg then -1 else 1) * ((m * 2 ^ (e + 149).toNat : Nat) : Int)
  | _ => 0

/-- Unary minus. -/
def f32_neg : f32 → f32
  | f32.finite s m e => f32.finite (!s) m e
  | f32.inf s => f32.inf (!s)
  | f32.nan => f32.nan

/-- Sum `a + b`. -/
def f32_add (a b : f32) : f32 :=
  match a, b with
  | f32.nan, _ => f32.nan
  | _, f32.nan => f32.nan
  | f32.inf s, f32.inf t => if s = t then f32.inf s else f32.nan
  | f32.inf s, f32.finite _ _ _ => f32.inf s
  | f32.finite _ _ _, f32.inf t => f32.inf t
  | f32.finite s m e, f32.finite t n k =>
    let z := f32_scaled (f32.finite s m e) + f32_scaled (f32.finite t n k)
    if z = 0 then f32_zero (s && t)
    else f32_nearest (decide (z < 0)) z.natAbs (-149) false

/-- Difference `a - b`. -/
def f32_sub (a b : f32) : f32 := f32_add a (f32_neg b)

/-- Product `a * b`. -/
def f32_mul (a b : f32) : f32 :=
  match a, b with
  | f32.nan, _ => f32.nan
  | _, f32.nan => f32.nan
  | f32.inf s, f32.inf t => f32.inf (xor s t)
  | f32.inf s, f32.finite t n _ => if n = 0 then f32.nan else f32.inf (xor s t)
  | f32.finite s m _, f32.inf t => if m = 0 then f32.nan else f32.inf (xor s t)
  | f32.finite s m e, f32.finite t n k => f32_nearest (xor s t) (m * n) (e + k) false

/-- Quotient `a / b`. -/
def f32_div (a b : f32) : f32 :=
  match a, b with
  | f32.nan, _ => f32.nan
  | _, f32.nan => f32.nan
  | f32.inf _, f32.inf _ => f32.nan
  | f32.inf s, f32.finite t _ _ => f32.inf (xor s t)
  | f32.finite s _ _, f32.inf t => f32_zero (xor s t)
  | f32.finite s m e, f32.finite t n k =>
    if n = 0 then (if m = 0 then f32.nan else f32.inf (xor s t))
    else f32_nearest (xor s t) (m * 2 ^ 50 / n) (e - k - 50) (decide (m * 2 ^ 50 % n ≠ 0))

/-- Comparison `a < b`. -/
def f32_lt (a b : f32) : Bool :=
  match a, b with
  | f32.nan, _ => false
  | _, f32.nan => false
  | f32.inf s, f32.inf t => s && !t
  | f32.inf s, f32.finite _ _ _ => s
  | f32.finite _ _ _, f32.inf t => !t
  | f32.finite s m e, f32.finite t n k =>
    decide (f32_scaled (f32.finite s m e) < f32_scaled (f32.finite t n k))

/-- Comparison `a == b`: equal values (the two zeros are equal, `NaN` equals
nothing). -/
def f32_eq (a b : f32) : Bool :=
  match a, b with
  | f32.nan, _ => false
  | _, f32.nan => false
  | f32.inf s, f32.inf t => s == t
  | f32.inf _, f32.finite _ _ _ => false
  | f32.finite _ _ _, f32.inf _ => false
  | f32.finite s m e, f32.finite t n k =>
    decide (f32_scaled (f32.finite s m e) = f32_scaled (f32.finite t n k))

/-- The constants `1.0f` and `0.5`. -/
def F32_ONE : f32 := f32.finite false (2 ^ 23) (-23)

def F32_HALF : f32 := f32.finite false (2 ^ 23) (-24)

/-! ### Graph widget in single precision -/

/-- Graph widget `GUI_GRAPH_t` with its `float` fields in single precision. -/
structure GUI_GRAPH_f32_t where
  C : gui_handle
  MinX : f32
  MaxX : f32
  MinY : f32
  MaxY : f32
  VisibleMinX : f32
  VisibleMaxX : f32
  VisibleMinY : f32
  VisibleMaxY : f32
  Border : graph_border_t
  Rows : Nat
  Columns : Nat
  Root : List Nat
  deriving DecidableEq

/-- Function `graph_reset`, on the single precision state. -/
def graph_reset_f32 (g : GUI_GRAPH_f32_t) : GUI_GRAPH_f32_t :=
  let g := { g with VisibleMaxX := g.MaxX }
  let g := { g with VisibleMinX := g.MinX }
  let g := { g with VisibleMaxY := g.MaxY }
  { g with VisibleMinY := g.MinY }

/-- Function `graph_zoom` in single precision: each of the four compound
assignments evaluates `(max - min) * (zoom - 1.0f) * pos` from left to right
and adds it to, or subtracts it from, the bound. -/
def graph_zoom_f32 (g : GUI_GRAPH_f32_t) (zoom xpos ypos : f32) : GUI_GRAPH_f32_t :=
  let xpos := if f32_lt xpos (f32_of_int 0) || f32_lt (f32_of_int 1) xpos then F32_HALF else xpos
  let ypos := if f32_lt ypos (f32_of_int 0) || f32_lt (f32_of_int 1) ypos then F32_HALF else ypos
  let dx := f32_mul (f32_mul (f32_sub g.VisibleMaxX g.VisibleMinX) (f32_sub zoom F32_ONE)) xpos
  let g := { g with VisibleMinX := f32_add g.VisibleMinX dx }
  let dx := f32_mul (f32_mul (f32_sub g.VisibleMaxX g.VisibleMinX) (f32_sub zoom F32_ONE))
    (f32_sub F32_ONE xpos)
  let g := { g with VisibleMaxX := f32_sub g.VisibleMaxX dx }
  let dy := f32_mul (f32_mul (f32_sub g.VisibleMaxY g.VisibleMinY) (f32_sub zoom F32_ONE)) ypos
  let g := { g with VisibleMinY := f32_add g.VisibleMinY dy }
  let dy := f32_mul (f32_mul (f32_sub g.VisibleMaxY g.VisibleMinY) (f32_sub zoom F32_ONE))
    (f32_sub F32_ONE ypos)
  { g with VisibleMaxY := f32_sub g.VisibleMaxY dy }

/-- Touch data with the finger distances in single precision. -/
structure guii_touch_f32_t where
  Count : Nat
  RelX : List Int
  RelY : List Int
  distance : f32
  distance_old : f32

/-- Callback parameter of the single precision callback: touch data and the
`{type, data}` pair of `SetParam`. -/
structure graph_param_f32_t where
  touch : guii_touch_f32_t
  ptype : Nat
  pdata : f32

/-- Result of the single precision graph callback. -/
structure graph_cb_f32_t where
  g : GUI_GRAPH_f32_t
  tX : Nat → Int
  tY : Nat → Int
  touch_handled : Bool
  result_u8 : Nat
  ret : Nat

/-- Function `gui_graph_callback` in single precision (touch support and two
presses configured in).  Integer operands are converted with `(float)`;
`Draw` only reads the widget, its ring walk is `draw_walk_yt` and
`draw_walk`.  Modelled from the spec: `gui_math_centerofxy` (not in the
sources) computes the midpoint of two coordinates. -/
def gui_graph_callback_f32 (tX tY : Nat → Int) (g : GUI_GRAPH_f32_t) (ctrl : GUI_WC_t)
    (param : graph_param_f32_t) : graph_cb_f32_t :=
  let done (g : GUI_GRAPH_f32_t) : graph_cb_f32_t :=
    { g := g, tX := tX, tY := tY, touch_handled := false, result_u8 := 0, ret := 1 }
  match ctrl with
  | GUI_WC_t.PreInit =>
    let g := { g with Border := { TOP := 5, RIGHT := 5, BOTTOM := 5, LEFT := 5 } }
    let g := { g with MaxX := f32_of_int 10 }
    let g := { g with MinX := f32_of_int (-10) }
    let g := { g with MaxY := f32_of_int 10 }
    let g := { g with MinY := f32_of_int (-10) }
    let g := graph_reset_f32 g
    let g := { g with Rows := 8 }
    let g := { g with Columns := 10 }
    done g
  | GUI_WC_t.SetParam =>
    let g :=
      if param.ptype = CFG_MIN_X then { g with MinX := param.pdata }
      else if param.ptype = CFG_MAX_X then { g with MaxX := param.pdata }
      else if param.ptype = CFG_MIN_Y then { g with MinY := param.pdata }
      else if param.ptype = CFG_MAX_Y then { g with MaxY := param.pdata }
      else if param.ptype = CFG_ZOOM_RESET then graph_reset_f32 g
      else g
    { done g with result_u8 := 1 }
  | GUI_WC_t.Draw => done g
  | GUI_WC_t.TouchStart =>
    let ts := param.touch
    { done g with tX := store_touch tX ts.RelX ts.Count,
                  tY := store_touch tY ts.RelY ts.Count, touch_handled := true }
  | GUI_WC_t.TouchMove =>
    let ts := param.touch
    let g :=
      if ts.Count = 1 then
        let x := ts.RelX.getD 0 0
        let y := ts.RelY.getD 0 0
        let step := f32_div
          (f32_of_int (guii_widget_getwidth g.C - g.Border.LEFT - g.Border.RIGHT))
          (f32_sub g.VisibleMaxX g.VisibleMinX)
        let diff := f32_div (f32_of_int (x - tX 0)) step
        let g := { g with VisibleMinX := f32_sub g.VisibleMinX diff }
        let g := { g with VisibleMaxX := f32_sub g.VisibleMaxX diff }
        let step := f32_div
          (f32_of_int (guii_widget_getheight g.C - g.Border.TOP - g.Border.BOTTOM))
          (f32_sub g.VisibleMaxY g.VisibleMinY)
        let diff := f32_div (f32_of_int (y - tY 0)) step
        let g := { g with VisibleMinY := f32_add g.VisibleMinY diff }
        { g with VisibleMaxY := f32_add g.VisibleMaxY diff }
      else if ts.Count = 2 then
        let centerX := f32_div
          (f32_add (f32_of_int (ts.RelX.getD 0 0)) (f32_of_int (ts.RelX.getD 1 0))) (f32_of_int 2)
        let centerY := f32_div
          (f32_add (f32_of_int (ts.RelY.getD 0 0)) (f32_of_int (ts.RelY.getD 1 0))) (f32_of_int 2)
        let zoom := f32_div ts.distance ts.distance_old
        graph_zoom_f32 g zoom (f32_div centerX (f32_of_int (guii_widget_getwidth g.C)))
          (f32_div centerY (f32_of_int (guii_widget_getheight g.C)))
      else g
    let g := { g with C := guii_widget_invalidate g.C }
    { done g with tX := store_touch tX ts.RelX ts.Count,
                  tY := store_touch tY ts.RelY ts.Count }
  | GUI_WC_t.TouchEnd => done g
  | GUI_WC_t.DblClick =>
    let g := graph_reset_f32 g
    done { g with C := guii_widget_invalidate g.C }
  | GUI_WC_t.Remove => done g
  | _ => { done g with ret := 0 }

/-- Modelled from the spec: `guii_widget_setparam` of the widget core (not in
the sources), on the single precision state: it delivers `SetParam` with the
`{type, data}` pair to the widget callback and invalidates the widget. -/
def guii_widget_setparam_f32 (g : GUI_GRAPH_f32_t) (cfg : Nat) (data : f32) :
    GUI_GRAPH_f32_t × Nat :=
  let param : graph_param_f32_t :=
    { touch := { Count := 0, RelX := [], RelY := [], distance := f32_zero false,
                 distance_old := f32_zero false },
      ptype := cfg, pdata := data }
  let r := gui_graph_callback_f32 (fun _ => 0) (fun _ => 0) g GUI_WC_t.SetParam param
  ({ r.g with C := guii_widget_invalidate r.g.C }, 1)

/-- Function `gui_graph_setminx`, on the single precision state. -/
def gui_graph_setminx_f32 (g : GUI_GRAPH_f32_t) (v : f32) : GUI_GRAPH_f32_t × Nat :=
  guii_widget_setparam_f32 g CFG_MIN_X v

/-- Function `gui_graph_setmaxx`, on the single precision state. -/
def gui_graph_setmaxx_f32 (g : GUI_GRAPH_f32_t) (v : f32) : GUI_GRAPH_f32_t × Nat :=
  guii_widget_setparam_f32 g CFG_MAX_X v

/-- Function `gui_graph_zoomreset`, on the single precision state. -/
def gui_graph_zoomreset_f32 (g : GUI_GRAPH_f32_t) : GUI_GRAPH_f32_t × Nat :=
  guii_widget_setparam_f32 g CFG_ZOOM_RESET (f32_zero false)

/-- Function `gui_graph_zoom`, on the single precision state. -/
def gui_graph_zoom_f32 (g : GUI_GRAPH_f32_t) (zoom x y : f32) : GUI_GRAPH_f32_t × Nat :=
  (graph_zoom_f32 g zoom x y, 1)

/-- Bit `k` of a flag byte. -/
def flag_bit (f k : Nat) : Bool := f.testBit k

/-- Paging offset computed by the close branch of `open_close`, for the page
size `perPage` it reads after restoring the height. -/
def close_start (h : gui_dropdown_t) (perPage : Int) : Int :=
  if h.Selected = -1 then 0
  else if h.Selected + perPage ≥ h.Count then
    (if to_int16 (h.Count - perPage) < 0 then 0 else to_int16 (h.Count - perPage))
  else h.Selected

/-- The widget after the first four statements of the close branch of
`open_close`: invalidated, flag cleared, height and Y restored. -/
def closed_base (h : gui_dropdown_t) : gui_dropdown_t :=
  { h with
    C := { h.C with y := h.OldY, height := h.OldHeight, invalid := true, parent_invalid := true },
    Flags := flag_clear h.Flags GUI_FLAG_DROPDOWN_OPENED }

/-- The widget the close branch of `open_close` returns. -/
def closed_state (h : gui_dropdown_t) : gui_dropdown_t :=
  { closed_base h with visiblestartindex := close_start h (nr_entries_pp (closed_base h)) }

/-- Selection left by `check_values`. -/
def checked_selected (h : gui_dropdown_t) : Int :=
  if h.Selected ≥ 0 ∧ h.Selected ≥ h.Count then to_int16 (h.Count - 1) else h.Selected

/-- Paging offset left by `check_values`. -/
def checked_visible (h : gui_dropdown_t) : Int :=
  if h.visiblestartindex < 0 then 0
  else if h.visiblestartindex > 0 ∧ h.Count > nr_entries_pp h ∧
      h.visiblestartindex + nr_entries_pp h ≥ h.Count then
    to_int16 (h.Count - nr_entries_pp h)
  else h.visiblestartindex

/-- Flags left by `check_values`. -/
def checked_flags (h : gui_dropdown_t) : Nat :=
  if flag_test h.Flags GUI_FLAG_DROPDOWN_SLIDER_AUTO then
    (if h.Count > nr_entries_pp h then flag_set h.Flags GUI_FLAG_DROPDOWN_SLIDER_ON
     else flag_clear h.Flags GUI_FLAG_DROPDOWN_SLIDER_ON)
  else h.Flags

/-- Height of the selected-row strip of an opened dropdown, `height1` of
`get_opened_positions`. -/
def strip_height (h : gui_dropdown_t) : Int :=
  (get_opened_positions h 0 (guii_widget_getheight h.C)).height1

/-- The relative Y lies within the selected-row strip,
`y1 ≤ RelY ≤ y1 + height1` as computed by `get_opened_positions`. -/
def in_strip (h : gui_dropdown_t) (relY : Int) : Prop :=
  relY ≥ (get_opened_positions h 0 (guii_widget_getheight h.C)).y1 ∧
  relY ≤ (get_opened_positions h 0 (guii_widget_getheight h.C)).y1 +
    (get_opened_positions h 0 (guii_widget_getheight h.C)).height1

instance (h : gui_dropdown_t) (relY : Int) : Decidable (in_strip h relY) := by
  unfold in_strip; exact inferInstance

/-- The quotient of the click position by the item height (C integer
division): `(RelY - strip_height) / item_height` when opening down,
`RelY / item_height` when opening up. -/
def clicked_quotient (h : gui_dropdown_t) (f : GUI_FONT_t) (relY : Int) : Int :=
  if is_dir_up h then Int.tdiv relY (item_height f)
  else Int.tdiv (relY - strip_height h) (item_height f)

/-- The clicked index in the words of the specification: `visiblestartindex`
plus the quotient. -/
def clicked_index_spec (h : gui_dropdown_t) (f : GUI_FONT_t) (relY : Int) : Int :=
  h.visiblestartindex + clicked_quotient h f relY

/-- The clicked index as `process_click` computes it: the quotient is stored
in the `uint16_t tmpSelected` first. -/
def clicked_index (h : gui_dropdown_t) (f : GUI_FONT_t) (relY : Int) : Int :=
  h.visiblestartindex + to_uint16 (clicked_quotient h f relY)

/-- The series buffer has the size `gui_graph_data_create` allocates. -/
def buffer_ok (d : GUI_GRAPH_DATA_t) : Prop :=
  d.Data.length =
    (match d.Type_ with
     | GUI_GRAPH_TYPE_t.GUI_GRAPH_TYPE_YT => d.Length
     | GUI_GRAPH_TYPE_t.GUI_GRAPH_TYPE_XY => 2 * d.Length)

instance (d : GUI_GRAPH_DATA_t) : Decidable (buffer_ok d) := by
  unfold buffer_ok; exact inferInstance

/-- Ring invariant after the samples `ws` were appended: the cursor is at
`ws.length % Length` and each of the last `Length` samples is in its slot. -/
def ring_inv (d : GUI_GRAPH_DATA_t) (ws : List (Int × Int)) : Prop :=
  buffer_ok d ∧ d.Ptr = ws.length % d.Length ∧
    ∀ j (hj : j < ws.length), ws.length - j ≤ d.Length →
      read_sample d (j % d.Length) = stored_sample d.Type_ (ws.get ⟨j, hj⟩)

/-- One step of the loop of `graph_invalidate`. -/
def invalidate_step (w : graph_world) (h : Nat) : graph_world :=
  let g := w.graphs h
  { w with graphs := Function.update w.graphs h { g with C := guii_widget_invalidate g.C } }

/-- Appending samples to series `data` of a world, one call of
`gui_graph_data_addvalue` per sample. -/
def world_addvalues (auto_invalidate : Bool) (w : graph_world) (data : Nat)
    (vs : List (Int × Int)) : graph_world :=
  vs.foldl (fun w v => (gui_graph_data_addvalue auto_invalidate w data v.1 v.2).1) w

/-- The slider-on flag agrees with the paging state: it is set if and only if
`Count > entries_per_page`. -/
def slider_consistent (h : gui_dropdown_t) : Prop :=
  flag_test h.Flags GUI_FLAG_DROPDOWN_SLIDER_ON = true ↔ h.Count > entries_per_page h

instance (h : gui_dropdown_t) : Decidable (slider_consistent h) := by
  unfold slider_consistent; exact inferInstance

/-- A zoom or pan gesture on a graph: a call of `gui_graph_zoom`, or a
`TouchMove` command with its touch data. -/
inductive graph_gesture where
  | zoom (z fx fy : ℚ)
  | touch_move (param : gui_widget_param_t)

/-- One gesture applied to the graph and the stored touch coordinates. -/
def apply_gesture (s : graph_cb_t) : graph_gesture → graph_cb_t
  | graph_gesture.zoom z fx fy => { s with g := (gui_graph_zoom s.g z fx fy).1 }
  | graph_gesture.touch_move param => gui_graph_callback s.tX s.tY s.g GUI_WC_t.TouchMove param

/-- A sequence of gestures applied in order. -/
def apply_gestures (s : graph_cb_t) (l : List graph_gesture) : graph_cb_t :=
  l.foldl apply_gesture s

/-- The hard bounds `MinX`, `MaxX`, `MinY`, `MaxY` of two graphs agree. -/
def same_hard_bounds (a b : GUI_GRAPH_t) : Prop :=
  a.MinX = b.MinX ∧ a.MaxX = b.MaxX ∧ a.MinY = b.MinY ∧ a.MaxY = b.MaxY

/-- The visible window of a graph equals its hard bounds. -/
def window_reset (g : GUI_GRAPH_t) : Prop :=
  g.VisibleMinX = g.MinX ∧ g.VisibleMaxX = g.MaxX ∧
  g.VisibleMinY = g.MinY ∧ g.VisibleMaxY = g.MaxY

/-- The selection is none or the index of an entry: `Selected = -1` or
`0 ≤ Selected < Count`. -/
def selected_in_range (h : gui_dropdown_t) : Prop :=
  h.Selected = -1 ∨ (0 ≤ h.Selected ∧ h.Selected < h.Count)

instance (h : gui_dropdown_t) : Decidable (selected_in_range h) := by
  unfold selected_in_range; exact inferInstance

/-- The visible windows of two graphs agree. -/
def same_window (a b : GUI_GRAPH_t) : Prop :=
  a.VisibleMinX = b.VisibleMinX ∧ a.VisibleMaxX = b.VisibleMaxX ∧
  a.VisibleMinY = b.VisibleMinY ∧ a.VisibleMaxY = b.VisibleMaxY

/-- The encoding is one of those in use (see `f32`). -/
def f32_wf : f32 → Prop
  | f32.finite _ m e => m < 2 ^ 24 ∧ -149 ≤ e ∧ e ≤ 104 ∧ (2 ^ 23 ≤ m ∨ e = -149)
  | _ => True

instance (a : f32) : Decidable (f32_wf a) := by
  cases a <;> unfold f32_wf <;> exact inferInstance

/-- The value is a finite number in a well-formed encoding. -/
def f32_finite (a : f32) : Prop :=
  match a with
  | f32.finite _ _ _ => f32_wf a
  | _ => False

instance (a : f32) : Decidable (f32_finite a) := by
  cases a <;> unfold f32_finite <;> exact inferInstance

/-- The value is a finite number between 0 and 1. -/
def f32_unit (a : f32) : Prop :=
  match a with
  | f32.finite _ _ _ => 0 ≤ f32_scaled a ∧ f32_scaled a ≤ 2 ^ 149
  | _ => False

/-- The value is a non-zero number (infinite or finite). -/
def f32_nonzero (a : f32) : Prop :=
  match a with
  | f32.finite _ m _ => m ≠ 0
  | f32.inf _ => True
  | f32.nan => False

instance (a : f32) : Decidable (f32_nonzero a) := by
  cases a <;> unfold f32_nonzero <;> exact inferInstance

/-- The magnitude of the value is at least 1. -/
def f32_large (a : f32) : Prop :=
  match a with
  | f32.finite _ m e => m ≠ 0 ∧ 1 ≤ e + (nat_size m : Int)
  | f32.inf _ => True
  | f32.nan => False

/-- The amount by which a drag of `delta` pixels moves the window along an
axis of `plot` pixels showing `range`:
`(float)delta / ((float)plot / range)`, as the `TouchMove` case computes
`diff` from `step`. -/
def pan_delta (plot : Int) (range : f32) (delta : Int) : f32 :=
  f32_div (f32_of_int delta) (f32_div (f32_of_int plot) range)

/-! ## Concrete widgets used as inputs -/

/-- Adding the texts of a list with `gui_dropdown_addstring`, every allocation
succeeding. -/
def add_strings (h : gui_dropdown_t) (texts : List Nat) : gui_dropdown_t :=
  texts.foldl (fun h t => (gui_dropdown_addstring h t true).1) h

/-- Callback parameter of a single touch at relative position `(0, y)`. -/
def touch_at (y : Int) : gui_widget_param_t :=
  { touch := { Count := 1, RelX := [0], RelY := [y], distance := 0, distance_old := 0 },
    key := 0, i16 := 0, ptype := 0, pdata := 0 }

/-- Callback parameter of a key press. -/
def key_press (key : Nat) : gui_widget_param_t :=
  { touch := { Count := 0, RelX := [], RelY := [], distance := 0, distance_old := 0 },
    key := key, i16 := 0, ptype := 0, pdata := 0 }

/-- A new dropdown of height 14 with a font of size 16 (item height 20, two
entries per page). -/
def dropdown_small : gui_dropdown_t := gui_dropdown_create 0 0 100 14 (some { size := 16 })

/-- Three entries added to `dropdown_small`, then scrolled by one. -/
def dropdown_three_scrolled : gui_dropdown_t :=
  (gui_dropdown_scroll (add_strings dropdown_small [100, 101, 102]) 1).1

/-- A new dropdown of height 28 with a font of size 16 (item height 20, four
entries per page) and eight entries. -/
def dropdown_eight : gui_dropdown_t :=
  add_strings (gui_dropdown_create 0 0 100 28 (some { size := 16 }))
    [100, 101, 102, 103, 104, 105, 106, 107]

/-- The dropdown `dropdown_eight` with entry 6 selected, opened. -/
def dropdown_eight_opened : gui_dropdown_t :=
  (open_close (gui_dropdown_setselection dropdown_eight 6).1 1).1

/-- The empty dropdown `dropdown_small` after a `KeyPress` of `GUI_KEY_UP`
(which selects index 0 of the empty list), opened. -/
def dropdown_empty_opened : gui_dropdown_t :=
  (open_close (inc_selection dropdown_small (-1)) 1).1

/-- Five entries added to `dropdown_small`, scrolled by one, opened. -/
def dropdown_five_opened : gui_dropdown_t :=
  (open_close (gui_dropdown_scroll (add_strings dropdown_small [100, 101, 102, 103, 104]) 1).1 1).1

/-- The graph after `PreInit` on a zeroed state block of the given geometry. -/
def graph_preinit (x y width height : Int) : GUI_GRAPH_t :=
  (gui_graph_callback (fun _ => 0) (fun _ => 0)
    { C := { x := x, y := y, width := width, height := height, font := none,
             invalid := false, parent_invalid := false, callbacks := [] },
      MinX := 0, MaxX := 0, MinY := 0, MaxY := 0,
      VisibleMinX := 0, VisibleMaxX := 0, VisibleMinY := 0, VisibleMaxY := 0,
      Border := { TOP := 0, RIGHT := 0, BOTTOM := 0, LEFT := 0 },
      Rows := 0, Columns := 0, Root := [] }
    GUI_WC_t.PreInit
    { touch := { Count := 0, RelX := [], RelY := [], distance := 0, distance_old := 0 },
      key := 0, i16 := 0, ptype := 0, pdata := 0 }).g

/-- A `YT` series of capacity 4 with a zeroed buffer and the cursor at 0. -/
def series_yt4 : GUI_GRAPH_DATA_t :=
  { Type_ := GUI_GRAPH_TYPE_t.GUI_GRAPH_TYPE_YT, Length := 4, Ptr := 0,
    Data := [0, 0, 0, 0], Color := 0, Root := [] }

/-- A world in which every graph handle is a graph after `PreInit` and every
series handle the series `series_yt4`, attached to no graph. -/
def world_plain : graph_world :=
  { graphs := fun _ => graph_preinit 0 0 200 150, data := fun _ => series_yt4 }

/-- Three entries on a page of two, with the slider switched to manual mode,
hidden, and switched back to automatic mode: the slider-on flag is clear while
`Count > entries_per_page`. -/
def dropdown_slider_stale : gui_dropdown_t :=
  (gui_dropdown_setsliderauto
    (gui_dropdown_setslidervisibility
      (gui_dropdown_setsliderauto (add_strings dropdown_small [100, 101, 102]) 0).1 0).1 1).1

/-- A dropdown holding 32767 entries, the largest `int16_t` count. -/
def dropdown_full : gui_dropdown_t :=
  { dropdown_small with
    Count := 32767, Root := List.replicate 32767 100,
    Flags := flag_set dropdown_small.Flags GUI_FLAG_DROPDOWN_SLIDER_ON }

/-- Callback parameter of a single touch at relative position `(x, y)`. -/
def touch_xy (x y : Int) : gui_widget_param_t :=
  { touch := { Count := 1, RelX := [x], RelY := [y], distance := 0, distance_old := 0 },
    key := 0, i16 := 0, ptype := 0, pdata := 0 }

/-- The dropdown `dropdown_small` after `TouchStart` at `RelY = 50` and
`TouchMove` to `RelY = 0`. -/
def dropdown_small_dragged : Option dropdown_cb_t :=
  (gui_dropdown_callback 0 dropdown_small GUI_WC_t.TouchStart (touch_at 50)).bind
    (fun r => gui_dropdown_callback r.tY r.h GUI_WC_t.TouchMove (touch_at 0))

/-- Three entries added to `dropdown_small`, with the open direction set to
up. -/
def dropdown_three_up : gui_dropdown_t :=
  (gui_dropdown_setopendirection (add_strings dropdown_small [100, 101, 102])
    gui_dropdown_opendir_t.GUI_DROPDOWN_OPENDIR_UP).1

/-- Callback parameter of the `IncSelection` command with step `dir`. -/
def inc_param (dir : Int) : gui_widget_param_t :=
  { touch := { Count := 0, RelX := [], RelY := [], distance := 0, distance_old := 0 },
    key := 0, i16 := dir, ptype := 0, pdata := 0 }

/-- The closed dropdown `dropdown_eight` after `TouchStart` at `RelY = 50` and
`TouchMove` to `RelY = 0`. -/
def dropdown_eight_dragged : Option dropdown_cb_t :=
  (gui_dropdown_callback 0 dropdown_eight GUI_WC_t.TouchStart (touch_at 50)).bind
    (fun r => gui_dropdown_callback r.tY r.h GUI_WC_t.TouchMove (touch_at 0))

/-- A new dropdown of height 10923 with a font of size 1 (item height 1). -/
def dropdown_tall : gui_dropdown_t := gui_dropdown_create 0 0 100 10923 (some { size := 1 })

/-- Three entries on a page of two, with `Selected = 5` and
`visiblestartindex = 7` stored and not yet validated by `check_values`. -/
def dropdown_three_stale : gui_dropdown_t :=
  { add_strings dropdown_small [100, 101, 102] with Selected := 5, visiblestartindex := 7 }

/-- The single precision graph after `PreInit` on a zeroed state block of the
given geometry. -/
def graph_preinit_f32 (x y width height : Int) : GUI_GRAPH_f32_t :=
  (gui_graph_callback_f32 (fun _ => 0) (fun _ => 0)
    { C := { x := x, y := y, width := width, height := height, font := none,
             invalid := false, parent_invalid := false, callbacks := [] },
      MinX := f32_zero false, MaxX := f32_zero false, MinY := f32_zero false,
      MaxY := f32_zero false, VisibleMinX := f32_zero false, VisibleMaxX := f32_zero false,
      VisibleMinY := f32_zero false, VisibleMaxY := f32_zero false,
      Border := { TOP := 0, RIGHT := 0, BOTTOM := 0, LEFT := 0 },
      Rows := 0, Columns := 0, Root := [] }
    GUI_WC_t.PreInit
    { touch := { Count := 0, RelX := [], RelY := [], distance := f32_zero false,
                 distance_old := f32_zero false },
      ptype := 0, pdata := f32_zero false }).g

/-- Callback parameter of a single touch at relative position `(x, y)`, for the
single precision callback. -/
def touch_f32 (x y : Int) : graph_param_f32_t :=
  { touch := { Count := 1, RelX := [x], RelY := [y], distance := f32_zero false,
               distance_old := f32_zero false },
    ptype := 0, pdata := f32_zero false }

/-- The constant `3e38f`, the single precision value nearest to `3 * 10^38`. -/
def F32_3E38 : f32 := f32_of_int (3 * 10 ^ 38)

/-- A new graph of 200 by 150 pixels after `gui_graph_setminx(h, -3e38f)`,
`gui_graph_setmaxx(h, 3e38f)` and `gui_graph_zoomreset(h)`. -/
def graph_wide_f32 : GUI_GRAPH_f32_t :=
  (gui_graph_zoomreset_f32
    (gui_graph_setmaxx_f32
      (gui_graph_setminx_f32 (graph_preinit_f32 0 0 200 150) (f32_neg F32_3E38)).1
      F32_3E38).1).1

/-! ## Lemmas -/
theorem and_two_pow_ne_zero (f k : Nat) : ((f &&& 2 ^ k) != 0) = f.testBit k := by
  cases h : f.testBit k
  · have : f &&& 2 ^ k = 0 := by
      apply Nat.eq_of_testBit_eq
      intro i
      by_cases hk : k = i
      · subst hk; simp [Nat.testBit_and, h]
      · simp [Nat.testBit_and, Nat.testBit_two_pow, hk]
    simp [this]
  · have : f &&& 2 ^ k ≠ 0 := by
      intro h0
      have h1 := congrArg (fun x => Nat.testBit x k) h0
      simp [Nat.testBit_and, h, Nat.testBit_two_pow_self] at h1
    simpa using this

theorem flag_test_two_pow (f k : Nat) : flag_test f (2 ^ k) = flag_bit f k :=
  and_two_pow_ne_zero f k

theorem flag_bit_set_two_pow (f k i : Nat) :
    flag_bit (flag_set f (2 ^ k)) i = (flag_bit f i || decide (i = k)) := by
  simp only [flag_bit, flag_set, Nat.testBit_or, Nat.testBit_two_pow]
  by_cases h : k = i
  · simp [h]
  · have h2 : ¬ i = k := fun e => h e.symm
    simp [h, h2]

theorem flag_bit_clear_two_pow (f k i : Nat) (hk : k < 8) :
    flag_bit (flag_clear f (2 ^ k)) i = (flag_bit f i && (decide (i < 8) && !decide (i = k))) := by
  have h : (0xFF : Nat) = 2 ^ 8 - 1 := by norm_num
  simp only [flag_bit, flag_clear, Nat.testBit_and, Nat.testBit_xor, h,
    Nat.testBit_two_pow_sub_one, Nat.testBit_two_pow]
  by_cases h2 : k = i
  · subst h2; simp [hk]
  · have h3 : ¬ i = k := fun e => h2 e.symm
    simp [h2, h3]

theorem flag_bit_and_two_pow (f k i : Nat) :
    flag_bit (f &&& 2 ^ k) i = (flag_bit f i && decide (i = k)) := by
  simp only [flag_bit, Nat.testBit_and, Nat.testBit_two_pow]
  by_cases h : k = i
  · simp [h]
  · have h2 : ¬ i = k := fun e => h e.symm
    simp [h, h2]

@[simp] theorem flag_test_opened (f : Nat) :
    flag_test f GUI_FLAG_DROPDOWN_OPENED = flag_bit f 0 := flag_test_two_pow f 0

@[simp] theorem flag_test_slider_on (f : Nat) :
    flag_test f GUI_FLAG_DROPDOWN_SLIDER_ON = flag_bit f 1 := flag_test_two_pow f 1

@[simp] theorem flag_test_slider_auto (f : Nat) :
    flag_test f GUI_FLAG_DROPDOWN_SLIDER_AUTO = flag_bit f 2 := flag_test_two_pow f 2

@[simp] theorem flag_test_open_up (f : Nat) :
    flag_test f GUI_FLAG_DROPDOWN_OPEN_UP = flag_bit f 3 := flag_test_two_pow f 3

@[simp] theorem flag_bit_set_opened (f i : Nat) :
    flag_bit (flag_set f GUI_FLAG_DROPDOWN_OPENED) i = (flag_bit f i || decide (i = 0)) :=
  flag_bit_set_two_pow f 0 i

@[simp] theorem flag_bit_set_slider_on (f i : Nat) :
    flag_bit (flag_set f GUI_FLAG_DROPDOWN_SLIDER_ON) i = (flag_bit f i || decide (i = 1)) :=
  flag_bit_set_two_pow f 1 i

@[simp] theorem flag_bit_set_slider_auto (f i : Nat) :
    flag_bit (flag_set f GUI_FLAG_DROPDOWN_SLIDER_AUTO) i = (flag_bit f i || decide (i = 2)) :=
  flag_bit_set_two_pow f 2 i

@[simp] theorem flag_bit_set_open_up (f i : Nat) :
    flag_bit (flag_set f GUI_FLAG_DROPDOWN_OPEN_UP) i = (flag_bit f i || decide (i = 3)) :=
  flag_bit_set_two_pow f 3 i

@[simp] theorem flag_bit_clear_opened (f i : Nat) :
    flag_bit (flag_clear f GUI_FLAG_DROPDOWN_OPENED) i
      = (flag_bit f i && (decide (i < 8) && !decide (i = 0))) :=
  flag_bit_clear_two_pow f 0 i (by decide)

@[simp] theorem flag_bit_clear_slider_on (f i : Nat) :
    flag_bit (flag_clear f GUI_FLAG_DROPDOWN_SLIDER_ON) i
      = (flag_bit f i && (decide (i < 8) && !decide (i = 1))) :=
  flag_bit_clear_two_pow f 1 i (by decide)

@[simp] theorem flag_bit_clear_slider_auto (f i : Nat) :
    flag_bit (flag_clear f GUI_FLAG_DROPDOWN_SLIDER_AUTO) i
      = (flag_bit f i && (decide (i < 8) && !decide (i = 2))) :=
  flag_bit_clear_two_pow f 2 i (by decide)

@[simp] theorem flag_bit_and_open_up (f i : Nat) :
    flag_bit (f &&& GUI_FLAG_DROPDOWN_OPEN_UP) i = (flag_bit f i && decide (i = 3)) :=
  flag_bit_and_two_pow f 3 i

theorem open_close_open_eq (h : gui_dropdown_t) (hc : is_opened h = false) :
    open_close h 1 =
      ({ h with
          C := { h.C with
            y := if is_dir_up h then h.C.y - 3 * h.C.height else h.C.y,
            height := 4 * h.C.height,
            invalid := true },
          Flags := flag_set h.Flags GUI_FLAG_DROPDOWN_OPENED,
          OldY := h.C.y,
          OldHeight := h.C.height }, 1) := by
  simp only [is_opened, flag_test_opened] at hc
  by_cases hu : flag_bit h.Flags 3 = true <;>
  simp [open_close, is_opened, is_dir_up, hc, hu, guii_widget_invalidate, HEIGHT_CONST]

theorem open_close_close_eq (h : gui_dropdown_t) (ho : is_opened h = true) :
    open_close h 0 = (closed_state h, 1) := by
  simp only [is_opened, flag_test_opened] at ho
  simp only [open_close, closed_state, closed_base, close_start, flag_test_opened, ho,
    guii_widget_invalidatewithparent]
  by_cases hs : h.Selected = -1
  · simp [hs]
  · simp [hs]
    split_ifs <;> simp_all

theorem nr_entries_pp_closed_state (h : gui_dropdown_t) :
    nr_entries_pp (closed_state h) = nr_entries_pp (closed_base h) := rfl

theorem in_int16_to_int16 (x : Int) : in_int16 (to_int16 x) := by
  unfold in_int16 to_int16; omega

theorem to_int16_of_in (x : Int) (h : in_int16 x) : to_int16 x = x := by
  unfold in_int16 at h; unfold to_int16; omega

theorem in_int16_nr_entries_pp (h : gui_dropdown_t) : in_int16 (nr_entries_pp h) := by
  unfold nr_entries_pp
  split
  · unfold in_int16; omega
  · exact in_int16_to_int16 _

@[simp] theorem nr_entries_pp_set_visible (h : gui_dropdown_t) (v : Int) :
    nr_entries_pp { h with visiblestartindex := v } = nr_entries_pp h := rfl

@[simp] theorem nr_entries_pp_set_selected (h : gui_dropdown_t) (v : Int) :
    nr_entries_pp { h with Selected := v } = nr_entries_pp h := rfl

@[simp] theorem nr_entries_pp_set_selection (h : gui_dropdown_t) (v : Int) :
    nr_entries_pp (set_selection h v) = nr_entries_pp h := by
  unfold set_selection; split <;> rfl

@[simp] theorem set_selection_visible (h : gui_dropdown_t) (v : Int) :
    (set_selection h v).visiblestartindex = h.visiblestartindex := by
  unfold set_selection; split <;> rfl

@[simp] theorem set_selection_count (h : gui_dropdown_t) (v : Int) :
    (set_selection h v).Count = h.Count := by
  unfold set_selection; split <;> rfl

@[simp] theorem set_selection_flags (h : gui_dropdown_t) (v : Int) :
    (set_selection h v).Flags = h.Flags := by
  unfold set_selection; split <;> rfl

@[simp] theorem set_selection_selected (h : gui_dropdown_t) (v : Int) :
    (set_selection h v).Selected = v := by
  unfold set_selection; split
  · rfl
  · rename_i hn; simpa using hn

theorem set_selection_eq (h : gui_dropdown_t) (v : Int) :
    set_selection h v =
      { h with Selected := v,
               C := if h.Selected ≠ v then guii_widget_callback h.C GUI_WC_t.SelectionChanged
                    else h.C } := by
  unfold set_selection
  by_cases c : h.Selected = v
  · simp [c]; rw [← c]
  · simp [c]

theorem check_values_eq (h : gui_dropdown_t) :
    check_values h =
      { h with Selected := checked_selected h,
               visiblestartindex := checked_visible h,
               Flags := checked_flags h,
               C := if h.Selected ≠ checked_selected h then
                      guii_widget_callback h.C GUI_WC_t.SelectionChanged
                    else h.C } := by
  unfold check_values checked_selected checked_visible checked_flags
  generalize nr_entries_pp h = mPP
  simp only [set_selection_eq]
  by_cases s1 : h.Selected ≥ 0 <;> by_cases s2 : h.Selected ≥ h.Count <;>
  by_cases c1 : h.visiblestartindex < 0 <;> by_cases c2 : h.visiblestartindex > 0 <;>
  by_cases c3 : h.Count > mPP <;> by_cases c4 : h.visiblestartindex + mPP ≥ h.Count <;>
  by_cases a : flag_test h.Flags GUI_FLAG_DROPDOWN_SLIDER_AUTO = true <;>
  simp [s1, s2, c1, c2, c3, c4, a]

theorem set_selection_callbacks (h : gui_dropdown_t) (v : Int) :
    (set_selection h v).C.callbacks =
      h.C.callbacks ++ (if v ≠ h.Selected then [GUI_WC_t.SelectionChanged] else []) := by
  unfold set_selection
  by_cases c : h.Selected = v
  · simp [c]
  · have c2 : ¬ v = h.Selected := fun e => c e.symm
    simp [c, c2, guii_widget_callback]

theorem inc_selection_selected (h : gui_dropdown_t) (dir : Int) :
    (inc_selection h dir).Selected =
      if dir < 0 then (if h.Selected + dir < 0 then 0 else to_int16 (h.Selected + dir))
      else if dir > 0 then
        (if h.Selected + dir > h.Count - 1 then to_int16 (h.Count - 1)
         else to_int16 (h.Selected + dir))
      else h.Selected := by
  unfold inc_selection
  split_ifs <;> simp

theorem inc_selection_callbacks (h : gui_dropdown_t) (dir : Int) :
    (inc_selection h dir).C.callbacks =
      h.C.callbacks ++
        (if (inc_selection h dir).Selected ≠ h.Selected then [GUI_WC_t.SelectionChanged]
         else []) := by
  rw [inc_selection_selected]
  unfold inc_selection
  by_cases c1 : dir < 0
  · by_cases c2 : h.Selected + dir < 0 <;>
      simp [c1, c2, set_selection_callbacks, guii_widget_invalidate]
  · by_cases c3 : dir > 0
    · by_cases c4 : h.Selected + dir > h.Count - 1 <;>
        simp [c1, c3, c4, set_selection_callbacks, guii_widget_invalidate]
    · simp [c1, c3]

theorem callback_key_down (h : gui_dropdown_t) (tY : Int) (param : gui_widget_param_t)
    (hk : param.key = GUI_KEY_DOWN) :
    gui_dropdown_callback tY h GUI_WC_t.KeyPress param =
      some { h := inc_selection h 1, tY := tY, touch_handled := false, key_handled := true,
             result_u8 := 0, ret := 1 } := by
  simp [gui_dropdown_callback, hk]

theorem callback_key_up (h : gui_dropdown_t) (tY : Int) (param : gui_widget_param_t)
    (hk : param.key = GUI_KEY_UP) :
    gui_dropdown_callback tY h GUI_WC_t.KeyPress param =
      some { h := inc_selection h (-1), tY := tY, touch_handled := false, key_handled := true,
             result_u8 := 0, ret := 1 } := by
  have hk2 : ¬ GUI_KEY_UP = GUI_KEY_DOWN := by decide
  simp [gui_dropdown_callback, hk, hk2]

theorem is_opened_check_values (h : gui_dropdown_t) :
    is_opened (check_values h) = is_opened h := by
  rw [check_values_eq]
  unfold is_opened checked_flags
  split_ifs <;> simp

theorem check_values_selected (h : gui_dropdown_t) :
    (check_values h).Selected = checked_selected h := by
  rw [check_values_eq]

theorem open_close_close_fields (h : gui_dropdown_t) (ho : is_opened h = true) :
    (open_close h 0).2 = 1 ∧ is_opened (open_close h 0).1 = false ∧
    (open_close h 0).1.Selected = h.Selected ∧ (open_close h 0).1.Count = h.Count ∧
    (open_close h 0).1.C.callbacks = h.C.callbacks ∧ (open_close h 0).1.Root = h.Root := by
  rw [open_close_close_eq h ho]
  simp [is_opened, closed_state, closed_base]

theorem process_click_outside (h : gui_dropdown_t) (ts : guii_touch_data_t) (f : GUI_FONT_t)
    (ho : is_opened h = true) (hf : h.C.font = some f) (hout : ¬ in_strip h ts.RelY0) :
    process_click h ts =
      some (open_close (check_values
        (if clicked_index h f ts.RelY0 < h.Count then
          { (set_selection h (to_int16 (clicked_index h f ts.RelY0))) with
            C := guii_widget_invalidate
              (set_selection h (to_int16 (clicked_index h f ts.RelY0))).C }
         else h)) 0).1 := by
  unfold in_strip at hout
  unfold process_click
  simp only [ho, Bool.not_true, Bool.false_eq_true, if_false, hout, hf]
  unfold clicked_index clicked_quotient strip_height
  by_cases hu : is_dir_up h = true
  · simp only [hu, if_true]
  · simp only [hu, if_false]; simp

theorem nr_entries_pp_opened_eq (h : gui_dropdown_t) (ho : is_opened h = true)
    (hh : h.C.height = 4 * h.OldHeight) :
    nr_entries_pp (closed_base h) = nr_entries_pp h := by
  unfold nr_entries_pp closed_base
  cases hf : h.C.font with
  | none => simp [hf]
  | some f =>
    have e : Int.tdiv (4 * h.OldHeight) 4 = h.OldHeight :=
      Int.mul_tdiv_cancel_left _ (by decide)
    simp only [hf, is_opened, flag_test_opened, flag_bit_clear_opened, guii_widget_getheight,
      HEIGHT_CONST] at ho ⊢
    simp only [ho, hh, e]
    norm_num
    congr 2
    ring

theorem next_read_mod (d : GUI_GRAPH_DATA_t) (r : Nat) (hr : r < d.Length) :
    next_read d r = (r + 1) % d.Length := by
  unfold next_read
  by_cases h : r + 1 = d.Length
  · simp [h]
  · have : r + 1 < d.Length := by omega
    simp [h, Nat.mod_eq_of_lt this]

theorem draw_loop_spec (d : GUI_GRAPH_DATA_t) (hp : d.Ptr < d.Length) :
    ∀ (m t fuel : Nat) (acc : List Nat), t + m = d.Length → 1 ≤ t → m + 1 ≤ fuel →
      draw_loop d d.Ptr fuel ((d.Ptr + t) % d.Length) acc
        = some (acc ++ (List.range' t m).map (fun s => (d.Ptr + s) % d.Length)) := by
  intro m
  induction m with
  | zero =>
    intro t fuel acc ht _ hf
    obtain ⟨f, rfl⟩ : ∃ f, fuel = f + 1 := ⟨fuel - 1, by omega⟩
    have h1 : (d.Ptr + t) % d.Length = d.Ptr := by
      have : t = d.Length := by omega
      rw [this, Nat.add_mod_right, Nat.mod_eq_of_lt hp]
    simp [draw_loop, h1]
  | succ m ih =>
    intro t fuel acc ht h1 hf
    obtain ⟨f, rfl⟩ : ∃ f, fuel = f + 1 := ⟨fuel - 1, by omega⟩
    have hlt : (d.Ptr + t) % d.Length < d.Length := Nat.mod_lt _ (by omega)
    have hne : (d.Ptr + t) % d.Length ≠ d.Ptr := by
      intro e
      by_cases c : d.Ptr + t < d.Length
      · rw [Nat.mod_eq_of_lt c] at e; omega
      · have h2 : d.Ptr + t = (d.Ptr + t - d.Length) + d.Length := by omega
        rw [h2, Nat.add_mod_right, Nat.mod_eq_of_lt (by omega)] at e
        omega
    have hnext : next_read d ((d.Ptr + t) % d.Length) = (d.Ptr + (t + 1)) % d.Length := by
      rw [next_read_mod d _ hlt, Nat.mod_add_mod, Nat.add_assoc]
    rw [draw_loop]
    simp only [hne, ne_eq, not_false_eq_true, if_true, hnext]
    rw [ih (t + 1) f (acc ++ [(d.Ptr + t) % d.Length]) (by omega) (by omega) (by omega)]
    simp [List.range'_succ]

theorem draw_walk_spec (d : GUI_GRAPH_DATA_t) (hp : d.Ptr < d.Length) (fuel : Nat)
    (hf : d.Length ≤ fuel) :
    draw_walk d fuel = some ((List.range d.Length).map (fun s => (d.Ptr + s) % d.Length)) := by
  unfold draw_walk
  simp only []
  have h1 : next_read d d.Ptr = (d.Ptr + 1) % d.Length := next_read_mod d _ hp
  rw [h1, draw_loop_spec d hp (d.Length - 1) 1 fuel [d.Ptr] (by omega) (by omega) (by omega)]
  congr 1
  have h2 : List.range d.Length = 0 :: List.range' 1 (d.Length - 1) := by
    rw [List.range_eq_range']
    have h3 : d.Length = (d.Length - 1) + 1 := by omega
    conv_lhs => rw [h3]
    rw [List.range'_succ]
  rw [h2]
  simp [Nat.mod_eq_of_lt hp]

@[simp] theorem data_addvalue_length (d : GUI_GRAPH_DATA_t) (x y : Int) :
    (data_addvalue d x y).Length = d.Length := by
  unfold data_addvalue; cases d.Type_ <;> simp only [] <;> split_ifs <;> rfl

@[simp] theorem data_addvalue_type (d : GUI_GRAPH_DATA_t) (x y : Int) :
    (data_addvalue d x y).Type_ = d.Type_ := by
  unfold data_addvalue; cases d.Type_ <;> simp only [] <;> split_ifs <;> rfl

theorem data_addvalue_ptr (d : GUI_GRAPH_DATA_t) (x y : Int) :
    (data_addvalue d x y).Ptr = if d.Ptr + 1 ≥ d.Length then 0 else d.Ptr + 1 := by
  unfold data_addvalue; cases d.Type_ <;> simp only [] <;> split_ifs <;> rfl

theorem data_addvalue_data (d : GUI_GRAPH_DATA_t) (x y : Int) :
    (data_addvalue d x y).Data =
      (match d.Type_ with
       | GUI_GRAPH_TYPE_t.GUI_GRAPH_TYPE_YT => d.Data.set d.Ptr y
       | GUI_GRAPH_TYPE_t.GUI_GRAPH_TYPE_XY => (d.Data.set (2 * d.Ptr) x).set (2 * d.Ptr + 1) y) := by
  unfold data_addvalue; cases d.Type_ <;> simp only [] <;> split_ifs <;> rfl

theorem getD_set_ne (l : List Int) (i j : Nat) (a : Int) (h : i ≠ j) :
    (l.set i a).getD j 0 = l.getD j 0 := by
  simp [List.getD_eq_getElem?_getD, List.getElem?_set, h]

theorem getD_set_eq (l : List Int) (i : Nat) (a : Int) (h : i < l.length) :
    (l.set i a).getD i 0 = a := by
  simp [List.getD_eq_getElem?_getD, List.getElem?_set, h]

theorem succ_mod_step (n L : Nat) (hL : 1 ≤ L) :
    (if n % L + 1 ≥ L then 0 else n % L + 1) = (n + 1) % L := by
  have h1 : n % L < L := Nat.mod_lt _ (by omega)
  rw [← Nat.mod_add_mod]
  by_cases c : n % L + 1 ≥ L
  · have : n % L + 1 = L := by omega
    simp [c, this]
  · simp [c, Nat.mod_eq_of_lt (by omega : n % L + 1 < L)]

theorem mod_ne_of_close (j n L : Nat) (h1 : j < n) (h2 : n - j < L) : j % L ≠ n % L := by
  intro e
  have h3 : (n - j) % L = 0 := by
    have := Nat.sub_mod_eq_zero_of_mod_eq e.symm
    exact this
  rw [Nat.mod_eq_of_lt h2] at h3
  omega

theorem read_sample_addvalue_other (d : GUI_GRAPH_DATA_t) (x y : Int) (i : Nat)
    (hi : i ≠ d.Ptr) : read_sample (data_addvalue d x y) i = read_sample d i := by
  unfold read_sample
  rw [data_addvalue_type, data_addvalue_data]
  cases d.Type_
  · simp only []
    rw [getD_set_ne _ _ _ _ (Ne.symm hi)]
  · simp only []
    rw [getD_set_ne _ _ _ _ (by omega), getD_set_ne _ _ _ _ (by omega),
      getD_set_ne _ _ _ _ (by omega), getD_set_ne _ _ _ _ (by omega)]

theorem read_sample_addvalue_self (d : GUI_GRAPH_DATA_t) (x y : Int)
    (hb : buffer_ok d) (hp : d.Ptr < d.Length) :
    read_sample (data_addvalue d x y) d.Ptr = stored_sample d.Type_ (x, y) := by
  unfold read_sample stored_sample
  unfold buffer_ok at hb
  rw [data_addvalue_type, data_addvalue_data]
  revert hb
  cases d.Type_
  · intro hb
    simp only [] at hb ⊢
    rw [getD_set_eq _ _ _ (by omega)]
  · intro hb
    simp only [Nat.add_zero] at hb ⊢
    have e1 : ((d.Data.set (2 * d.Ptr) x).set (2 * d.Ptr + 1) y).getD (2 * d.Ptr) 0 = x := by
      rw [getD_set_ne _ _ _ _ (by omega), getD_set_eq _ _ _ (by omega)]
    have e2 : ((d.Data.set (2 * d.Ptr) x).set (2 * d.Ptr + 1) y).getD (2 * d.Ptr + 1) 0 = y := by
      rw [getD_set_eq _ _ _ (by rw [List.length_set]; omega)]
    rw [e1, e2]

theorem buffer_ok_addvalue (d : GUI_GRAPH_DATA_t) (x y : Int) (hb : buffer_ok d) :
    buffer_ok (data_addvalue d x y) := by
  unfold buffer_ok at *
  rw [data_addvalue_type, data_addvalue_data, data_addvalue_length]
  revert hb
  cases d.Type_ <;> simp

theorem ring_inv_step (d : GUI_GRAPH_DATA_t) (ws : List (Int × Int)) (x y : Int)
    (hL : 1 ≤ d.Length) (hi : ring_inv d ws) :
    ring_inv (data_addvalue d x y) (ws ++ [(x, y)]) := by
  obtain ⟨hb, hp, hs⟩ := hi
  have hlt : d.Ptr < d.Length := by rw [hp]; exact Nat.mod_lt _ (by omega)
  refine ⟨buffer_ok_addvalue d x y hb, ?_, ?_⟩
  · rw [data_addvalue_ptr, data_addvalue_length, hp, List.length_append, List.length_singleton]
    exact succ_mod_step _ _ hL
  · intro j hj hclose
    rw [data_addvalue_length, data_addvalue_type]
    simp only [List.length_append, List.length_singleton, data_addvalue_length] at hj hclose
    by_cases c : j = ws.length
    · subst c
      rw [← hp, read_sample_addvalue_self d x y hb hlt]
      simp
    · have hj2 : j < ws.length := by omega
      have hne : j % d.Length ≠ d.Ptr := by
        rw [hp]; exact mod_ne_of_close j ws.length d.Length hj2 (by omega)
      rw [read_sample_addvalue_other d x y _ hne, hs j hj2 (by omega)]
      congr 1
      simp [List.getElem_append_left, hj2]

theorem ring_inv_addvalues (vs : List (Int × Int)) :
    ∀ (d : GUI_GRAPH_DATA_t) (ws : List (Int × Int)), 1 ≤ d.Length → ring_inv d ws →
      ring_inv (addvalues d vs) (ws ++ vs) ∧ (addvalues d vs).Length = d.Length
        ∧ (addvalues d vs).Type_ = d.Type_ := by
  induction vs with
  | nil => intro d ws _ h; simpa [addvalues] using h
  | cons v vs ih =>
    intro d ws hL h
    have h1 := ring_inv_step d ws v.1 v.2 hL h
    have h2 := ih (data_addvalue d v.1 v.2) (ws ++ [(v.1, v.2)]) (by simpa using hL) h1
    simpa [addvalues] using h2

theorem ring_last_samples (d : GUI_GRAPH_DATA_t) (vs : List (Int × Int)) (k fuel : Nat)
    (hL : 1 ≤ d.Length) (hp : d.Ptr = 0) (hb : buffer_ok d)
    (hn : vs.length = d.Length + k) (hf : d.Length ≤ fuel) :
    draw_samples (addvalues d vs) fuel = some ((vs.drop k).map (stored_sample d.Type_)) := by
  have h0 : ring_inv d [] := by
    refine ⟨hb, by simp [hp], ?_⟩
    intro j hj; simp at hj
  obtain ⟨⟨_, hptr, hs⟩, hlen, htype⟩ := ring_inv_addvalues vs d [] hL h0
  simp only [List.nil_append] at hptr hs
  rw [hlen] at hptr
  have hlt : (addvalues d vs).Ptr < (addvalues d vs).Length := by
    rw [hptr, hlen]; exact Nat.mod_lt _ (by omega)
  unfold draw_samples
  rw [draw_walk_spec _ hlt fuel (by rw [hlen]; exact hf)]
  simp only [Option.map_some', List.map_map, hlen]
  congr 1
  apply List.ext_getElem
  · simp [hn]
  · intro i h1 h2
    simp only [List.length_map, List.length_range] at h1
    simp only [List.getElem_map, List.getElem_range, Function.comp, List.getElem_drop]
    have hj : k + i < vs.length := by omega
    have hslot : ((addvalues d vs).Ptr + i) % d.Length = (k + i) % d.Length := by
      rw [hptr, Nat.mod_add_mod, hn]
      have : d.Length + k + i = (k + i) + d.Length := by omega
      rw [this, Nat.add_mod_right]
    rw [hslot]
    have := hs (k + i) hj (by rw [hlen]; omega)
    rw [hlen, htype] at this
    rw [this]
    rfl

theorem invalidate_fold_data (l : List Nat) :
    ∀ w : graph_world, (l.foldl invalidate_step w).data = w.data := by
  induction l with
  | nil => intro w; rfl
  | cons a l ih => intro w; rw [List.foldl_cons, ih]; rfl

theorem invalidate_fold_graphs (l : List Nat) :
    ∀ (w : graph_world) (h : Nat), (l.foldl invalidate_step w).graphs h =
      if h ∈ l then { (w.graphs h) with C := guii_widget_invalidate (w.graphs h).C }
      else w.graphs h := by
  induction l with
  | nil => intro w h; simp
  | cons a l ih =>
    intro w h
    rw [List.foldl_cons, ih]
    by_cases c1 : h = a
    · subst c1
      by_cases c2 : h ∈ l <;> simp [c2, invalidate_step, guii_widget_invalidate]
    · by_cases c2 : h ∈ l <;> simp [c1, c2, invalidate_step, Function.update_noteq c1]

theorem graph_invalidate_data (w : graph_world) (s : Nat) :
    (graph_invalidate w s).data = w.data :=
  invalidate_fold_data _ w

theorem graph_invalidate_graphs (w : graph_world) (s h : Nat) :
    (graph_invalidate w s).graphs h =
      if h ∈ (w.data s).Root then
        { (w.graphs h) with C := guii_widget_invalidate (w.graphs h).C }
      else w.graphs h :=
  invalidate_fold_graphs _ w h

theorem addvalue_data (a : Bool) (w : graph_world) (s : Nat) (x y : Int) :
    (gui_graph_data_addvalue a w s x y).1.data s = data_addvalue (w.data s) x y := by
  unfold gui_graph_data_addvalue
  cases a <;> simp [graph_invalidate_data]

theorem addvalue_graphs (w : graph_world) (s h : Nat) (x y : Int) :
    (gui_graph_data_addvalue true w s x y).1.graphs h =
      if h ∈ (w.data s).Root then
        { (w.graphs h) with C := guii_widget_invalidate (w.graphs h).C }
      else w.graphs h := by
  unfold gui_graph_data_addvalue
  simp only [if_true]
  rw [graph_invalidate_graphs]
  have : (Function.update w.data s (data_addvalue (w.data s) x y) s).Root = (w.data s).Root := by
    simp [data_addvalue]
    cases (w.data s).Type_ <;> simp only [] <;> split_ifs <;> rfl
  simp only [this]

theorem world_addvalues_data (a : Bool) (s : Nat) (vs : List (Int × Int)) :
    ∀ w : graph_world, (world_addvalues a w s vs).data s = addvalues (w.data s) vs := by
  induction vs with
  | nil => intro w; rfl
  | cons v vs ih =>
    intro w
    have := ih (gui_graph_data_addvalue a w s v.1 v.2).1
    rw [addvalue_data] at this
    simpa [world_addvalues, addvalues] using this

theorem attach_detach_roots (w : graph_world) (s A B : Nat) (hAB : A ≠ B) :
    let w1 := (gui_graph_attachdata true w A s true true).1
    let w2 := (gui_graph_attachdata true w1 B s true true).1
    let w4 := (gui_graph_detachdata true w2 A s).1
    (w2.data s).Root = (w.data s).Root ++ [A, B] ∧
    (w4.data s).Root = ((w.data s).Root.filter (fun e => e != A)) ++ [B] := by
  simp [gui_graph_attachdata, gui_graph_detachdata, gui_linkedlist_multi_add_gen,
    gui_linkedlist_multi_find_remove, List.filter_append, hAB, Ne.symm hAB]

theorem check_values_count (h : gui_dropdown_t) : (check_values h).Count = h.Count := by
  rw [check_values_eq]

theorem check_values_root (h : gui_dropdown_t) : (check_values h).Root = h.Root := by
  rw [check_values_eq]

theorem check_values_visible (h : gui_dropdown_t) :
    (check_values h).visiblestartindex = checked_visible h := by
  rw [check_values_eq]

theorem check_values_flags (h : gui_dropdown_t) : (check_values h).Flags = checked_flags h := by
  rw [check_values_eq]

theorem check_values_callbacks (h : gui_dropdown_t) :
    (check_values h).C.callbacks =
      h.C.callbacks ++
        (if checked_selected h ≠ h.Selected then [GUI_WC_t.SelectionChanged] else []) := by
  rw [check_values_eq]
  by_cases c : h.Selected = checked_selected h
  · have c2 : checked_selected h = h.Selected := c.symm
    simp [c2]
  · have c2 : ¬ checked_selected h = h.Selected := fun e => c e.symm
    simp [c, c2, guii_widget_callback]

theorem nr_entries_pp_congr (a b : gui_dropdown_t) (hf : a.C.font = b.C.font)
    (hh : a.C.height = b.C.height) (ho : is_opened a = is_opened b) :
    nr_entries_pp a = nr_entries_pp b := by
  unfold nr_entries_pp guii_widget_getheight
  rw [hf, hh, ho]

theorem check_values_font (h : gui_dropdown_t) : (check_values h).C.font = h.C.font := by
  rw [check_values_eq]
  simp only []
  split_ifs <;> rfl

theorem check_values_height (h : gui_dropdown_t) : (check_values h).C.height = h.C.height := by
  rw [check_values_eq]
  simp only []
  split_ifs <;> rfl

theorem nr_entries_pp_check_values (h : gui_dropdown_t) :
    nr_entries_pp (check_values h) = nr_entries_pp h :=
  nr_entries_pp_congr _ _ (check_values_font h) (check_values_height h)
    (is_opened_check_values h)

theorem get_item_of_lt (h : gui_dropdown_t) (index : Int) (hl : h.Count = h.Root.length)
    (h0 : 0 ≤ index) (h1 : index < h.Count) : get_item h index = some index.toNat := by
  unfold get_item
  have hn : ¬ index ≥ h.Count := by omega
  have hlen : ¬ h.Root.length = 0 := by omega
  simp only [hn, if_false, hlen]
  by_cases c0 : index = 0
  · simp [c0]
  · simp only [c0, if_false]
    by_cases c1 : index = h.Count - 1
    · simp only [c1, if_true]
      congr 1
      omega
    · simp only [c1, if_false]
      have : index.toNat < h.Root.length := by omega
      simp [this]

theorem get_item_of_ge (h : gui_dropdown_t) (index : Int) (h1 : index ≥ h.Count) :
    get_item h index = none := by
  unfold get_item
  simp [h1]

theorem delete_item_some (h : gui_dropdown_t) (index : Int) (pos : Nat)
    (hg : get_item h index = some pos) :
    delete_item h index =
      ({ (check_values
            (if h.Selected = index then
              set_selection
                { h with Root := h.Root.eraseIdx pos, Count := to_int16 (h.Count - 1) } (-1)
             else { h with Root := h.Root.eraseIdx pos, Count := to_int16 (h.Count - 1) })) with
          C := guii_widget_invalidate
            (check_values
              (if h.Selected = index then
                set_selection
                  { h with Root := h.Root.eraseIdx pos, Count := to_int16 (h.Count - 1) } (-1)
               else { h with Root := h.Root.eraseIdx pos, Count := to_int16 (h.Count - 1) })).C },
        1) := by
  unfold delete_item
  simp only [hg]

theorem delete_item_none (h : gui_dropdown_t) (index : Int) (hg : get_item h index = none) :
    delete_item h index = (h, 0) := by
  unfold delete_item
  simp only [hg]

theorem slider_consistent_check_values (h : gui_dropdown_t)
    (ha : flag_test h.Flags GUI_FLAG_DROPDOWN_SLIDER_AUTO = true) :
    slider_consistent (check_values h) ∧
    flag_test (check_values h).Flags GUI_FLAG_DROPDOWN_SLIDER_AUTO = true := by
  unfold slider_consistent entries_per_page
  rw [nr_entries_pp_check_values, check_values_count, check_values_flags]
  unfold checked_flags
  simp only [ha, if_true]
  simp only [flag_test_slider_auto] at ha
  by_cases c : h.Count > nr_entries_pp h
  · simp [c, ha]
  · simp [c, ha]

theorem slider_consistent_invalidate (a : gui_dropdown_t) :
    slider_consistent { a with C := guii_widget_invalidate a.C } ↔ slider_consistent a := by
  unfold slider_consistent entries_per_page
  have : nr_entries_pp { a with C := guii_widget_invalidate a.C } = nr_entries_pp a :=
    nr_entries_pp_congr _ _ rfl rfl rfl
  rw [this]

theorem addstring_ok_eq (h : gui_dropdown_t) (text : Nat) :
    gui_dropdown_addstring h text true =
      ({ (check_values { h with Root := h.Root ++ [text], Count := to_int16 (h.Count + 1) }) with
          C := guii_widget_invalidate
            (check_values
              { h with Root := h.Root ++ [text], Count := to_int16 (h.Count + 1) }).C }, 1) := by
  unfold gui_dropdown_addstring
  simp

theorem delete_item_result (h : gui_dropdown_t) (index : Int)
    (hr : (delete_item h index).2 = 1) :
    ∃ x : gui_dropdown_t, x.Flags = h.Flags ∧
      (delete_item h index).1 = { (check_values x) with
        C := guii_widget_invalidate (check_values x).C } := by
  cases hg : get_item h index with
  | none => rw [delete_item_none h index hg] at hr; simp at hr
  | some pos =>
    rw [delete_item_some h index pos hg]
    refine ⟨_, ?_, rfl⟩
    split_ifs <;> simp

theorem scroll_result (h : gui_dropdown_t) (step : Int) :
    (gui_dropdown_scroll h step).1
        = check_values { h with visiblestartindex := to_int16 (h.visiblestartindex + step) } ∨
    (gui_dropdown_scroll h step).1
        = { (check_values
              { h with visiblestartindex := to_int16 (h.visiblestartindex + step) }) with
            C := guii_widget_invalidate (check_values
              { h with visiblestartindex := to_int16 (h.visiblestartindex + step) }).C } := by
  unfold gui_dropdown_scroll
  simp only []
  split_ifs
  · right; rfl
  · left; rfl

theorem graph_reset_window (g : GUI_GRAPH_t) :
    window_reset (graph_reset g) ∧ same_hard_bounds (graph_reset g) g :=
  ⟨⟨rfl, rfl, rfl, rfl⟩, ⟨rfl, rfl, rfl, rfl⟩⟩

theorem graph_zoom_hard_bounds (g : GUI_GRAPH_t) (z fx fy : ℚ) :
    same_hard_bounds (graph_zoom g z fx fy) g :=
  ⟨rfl, rfl, rfl, rfl⟩

theorem touch_move_hard_bounds (tX tY : Nat → Int) (g : GUI_GRAPH_t)
    (param : gui_widget_param_t) :
    same_hard_bounds (gui_graph_callback tX tY g GUI_WC_t.TouchMove param).g g := by
  unfold gui_graph_callback
  simp only []
  split_ifs <;> exact ⟨rfl, rfl, rfl, rfl⟩

theorem same_hard_bounds_trans {a b c : GUI_GRAPH_t} (h1 : same_hard_bounds a b)
    (h2 : same_hard_bounds b c) : same_hard_bounds a c :=
  ⟨h1.1.trans h2.1, h1.2.1.trans h2.2.1, h1.2.2.1.trans h2.2.2.1, h1.2.2.2.trans h2.2.2.2⟩

theorem apply_gesture_hard_bounds (s : graph_cb_t) (e : graph_gesture) :
    same_hard_bounds (apply_gesture s e).g s.g := by
  cases e with
  | zoom z fx fy => exact graph_zoom_hard_bounds s.g z fx fy
  | touch_move param => exact touch_move_hard_bounds s.tX s.tY s.g param

theorem apply_gestures_hard_bounds (l : List graph_gesture) :
    ∀ s : graph_cb_t, same_hard_bounds (apply_gestures s l).g s.g := by
  induction l with
  | nil => intro s; exact ⟨rfl, rfl, rfl, rfl⟩
  | cons e l ih =>
    intro s
    exact same_hard_bounds_trans (ih (apply_gesture s e)) (apply_gesture_hard_bounds s e)

theorem zoomreset_eq (g : GUI_GRAPH_t) :
    gui_graph_zoomreset g =
      ({ (graph_reset g) with C := guii_widget_invalidate (graph_reset g).C }, 1) := by
  simp [gui_graph_zoomreset, guii_widget_setparam, gui_graph_callback, CFG_ZOOM_RESET,
    CFG_MIN_X, CFG_MAX_X, CFG_MIN_Y, CFG_MAX_Y]

theorem dblclick_eq (tX tY : Nat → Int) (g : GUI_GRAPH_t) (param : gui_widget_param_t) :
    (gui_graph_callback tX tY g GUI_WC_t.DblClick param).g =
      { (graph_reset g) with C := guii_widget_invalidate (graph_reset g).C } := rfl

/-- The X range `graph_zoom` leaves, for a focus within `[0, 1]`. -/
theorem graph_zoom_range_x (g : GUI_GRAPH_t) (z fx fy : ℚ) (h0 : 0 ≤ fx) (h1 : fx ≤ 1) :
    (graph_zoom g z fx fy).VisibleMaxX - (graph_zoom g z fx fy).VisibleMinX
      = (g.VisibleMaxX - g.VisibleMinX) * (1 - (z - 1) * fx) * (1 - (z - 1) * (1 - fx)) := by
  have hc : ¬ (fx < 0 ∨ fx > 1) := by
    intro h; rcases h with h | h
    · exact absurd h0 (not_le.mpr h)
    · exact absurd h1 (not_le.mpr h)
  unfold graph_zoom
  simp only [hc, if_false]
  ring

theorem iterate_next_item (L : Nat) : ∀ n : Nat,
    Nat.iterate
      (fun (item : Option Nat) => item.bind (fun p => if p + 1 < L then some (p + 1) else none))
      n (if L = 0 then none else some 0)
      = if n < L then some n else none := by
  intro n
  induction n with
  | zero =>
    by_cases c : L = 0
    · simp [c]
    · have : 0 < L := Nat.pos_of_ne_zero c
      simp [c, this]
  | succ n ih =>
    rw [Function.iterate_succ_apply', ih]
    by_cases c : n < L
    · by_cases c2 : n + 1 < L
      · simp [c, c2]
      · simp [c, c2]
    · have c2 : ¬ n + 1 < L := by omega
      simp [c, c2]

/-- With a font, and a selection that is the index of an entry, the `Draw`
walk reaches that entry. -/
theorem draw_selected_item_in_range (h : gui_dropdown_t) (f : GUI_FONT_t)
    (hf : h.C.font = some f) (hl : h.Count = h.Root.length)
    (h0 : 0 ≤ h.Selected) (h1 : h.Selected < h.Count) :
    draw_selected_item h = some (some (h.Root.getD h.Selected.toNat 0)) := by
  unfold draw_selected_item
  have hlt : h.Selected.toNat < h.Root.length := by omega
  simp only [ge_iff_le, h0, hf, ne_eq, reduceCtorEq, not_false_eq_true, and_self, if_true]
  rw [iterate_next_item]
  simp [hlt]

/-- The result of the `TouchMove` command on a dropdown with a font. -/
theorem touch_move_eq (h : gui_dropdown_t) (tY : Int) (param : gui_widget_param_t)
    (f : GUI_FONT_t) (hf : h.C.font = some f) :
    gui_dropdown_callback tY h GUI_WC_t.TouchMove param =
      some (if GUI_ABS (tY - param.touch.RelY0) > item_height f then
              { h := slide h (if tY - param.touch.RelY0 > 0 then 1 else -1),
                tY := param.touch.RelY0, touch_handled := false, key_handled := false,
                result_u8 := 0, ret := 1 }
            else
              { h := h, tY := tY, touch_handled := false, key_handled := false,
                result_u8 := 0, ret := 1 }) := by
  unfold gui_dropdown_callback
  simp only [hf]
  split_ifs <;> rfl

/-- The result of the `TouchMove` command on a dropdown without a font. -/
theorem touch_move_no_font (h : gui_dropdown_t) (tY : Int) (param : gui_widget_param_t)
    (hf : h.C.font = none) :
    gui_dropdown_callback tY h GUI_WC_t.TouchMove param =
      some { h := h, tY := tY, touch_handled := false, key_handled := false,
             result_u8 := 0, ret := 1 } := by
  unfold gui_dropdown_callback
  simp only [hf]

/-- The paging offset `slide` leaves for the steps `1` and `-1`, from an offset
within `[0, Count - entries_per_page]`. -/
theorem slide_one_visible (h : gui_dropdown_t)
    (hlo : 0 ≤ h.visiblestartindex)
    (hhi : h.visiblestartindex ≤ h.Count - nr_entries_pp h)
    (hpage : in_int16 (h.Count - nr_entries_pp h)) :
    (slide h 1).visiblestartindex = min (h.visiblestartindex + 1) (h.Count - nr_entries_pp h) ∧
    (slide h (-1)).visiblestartindex = max (h.visiblestartindex - 1) 0 := by
  unfold in_int16 at hpage
  constructor
  · unfold slide
    simp only [show ¬ ((1 : Int) < 0) by decide, show (1 : Int) > 0 by decide, if_true, if_false]
    split_ifs with c
    · show to_int16 _ = _
      rw [to_int16_of_in _ (by unfold in_int16; omega)]
      omega
    · show to_int16 _ = _
      rw [to_int16_of_in _ (by unfold in_int16; omega)]
      omega
  · unfold slide
    simp only [show ((-1 : Int) < 0) by decide, if_true]
    split_ifs with c
    · show (0 : Int) = _
      omega
    · show to_int16 _ = _
      rw [to_int16_of_in _ (by unfold in_int16; omega)]
      omega

/-- Fields `slide` leaves alone. -/
theorem slide_frame (h : gui_dropdown_t) (dir : Int) :
    (slide h dir).Selected = h.Selected ∧ (slide h dir).Count = h.Count ∧
    (slide h dir).Root = h.Root ∧ (slide h dir).Flags = h.Flags ∧
    (slide h dir).C.callbacks = h.C.callbacks := by
  unfold slide
  simp only [guii_widget_invalidate]
  split_ifs <;> exact ⟨rfl, rfl, rfl, rfl, rfl⟩

theorem is_dir_up_open (h : gui_dropdown_t) (hc : is_opened h = false) :
    is_dir_up (open_close h 1).1 = is_dir_up h := by
  rw [open_close_open_eq h hc]
  simp [is_dir_up]

/-- The two parts `get_opened_positions` computes for the box of a dropdown
that was just opened. -/
theorem opened_positions_eq (h : gui_dropdown_t) (hc : is_opened h = false) :
    get_opened_positions (open_close h 1).1 (open_close h 1).1.C.y (open_close h 1).1.C.height
      = if is_dir_up h then
          { y := h.C.y - 3 * h.C.height, height := 3 * h.C.height,
            y1 := h.C.y, height1 := h.C.height }
        else
          { y := h.C.y + h.C.height, height := 3 * h.C.height,
            y1 := h.C.y, height1 := h.C.height } := by
  have hu := is_dir_up_open h hc
  have e : Int.tdiv (4 * h.C.height) 4 = h.C.height :=
    Int.mul_tdiv_cancel_left _ (by decide)
  unfold get_opened_positions
  rw [hu]
  rw [open_close_open_eq h hc]
  simp only [HEIGHT_CONST, e]
  cases c : is_dir_up h
  · simp only [Bool.false_eq_true, if_false, opened_positions.mk.injEq, true_and, and_true]
    ring
  · simp only [if_true, opened_positions.mk.injEq, true_and, and_true]
    constructor <;> ring

theorem setparam_eq (g : GUI_GRAPH_t) (cfg : Nat) (v : ℚ) :
    guii_widget_setparam g cfg v =
      ({ (if cfg = CFG_MIN_X then { g with MinX := v }
          else if cfg = CFG_MAX_X then { g with MaxX := v }
          else if cfg = CFG_MIN_Y then { g with MinY := v }
          else if cfg = CFG_MAX_Y then { g with MaxY := v }
          else if cfg = CFG_ZOOM_RESET then graph_reset g
          else g) with
         C := guii_widget_invalidate g.C }, 1) := by
  unfold guii_widget_setparam gui_graph_callback
  simp only [Prod.mk.injEq, and_true]
  split_ifs <;> rfl

theorem flag_set_idem (f m : Nat) : flag_set (flag_set f m) m = flag_set f m := by
  unfold flag_set
  rw [Nat.lor_assoc, Nat.or_self]

theorem flag_clear_idem (f m : Nat) : flag_clear (flag_clear f m) m = flag_clear f m := by
  unfold flag_clear
  rw [Nat.land_assoc, Nat.and_self]

theorem checked_selected_idem (h : gui_dropdown_t) (v : Int) (fl : Nat) (c : gui_handle) :
    checked_selected { h with Selected := checked_selected h, visiblestartindex := v,
                              Flags := fl, C := c } = checked_selected h := by
  unfold checked_selected
  simp only []
  split_ifs <;> rfl

theorem checked_flags_idem (h : gui_dropdown_t) (a : gui_dropdown_t)
    (hc : a.Count = h.Count) (hn : nr_entries_pp a = nr_entries_pp h)
    (hf : a.Flags = checked_flags h) : checked_flags a = checked_flags h := by
  unfold checked_flags at *
  rw [hc, hn, hf]
  by_cases au : flag_test h.Flags GUI_FLAG_DROPDOWN_SLIDER_AUTO = true
  · by_cases cm : h.Count > nr_entries_pp h
    · simp only [au, cm, if_true]
      have : flag_test (flag_set h.Flags GUI_FLAG_DROPDOWN_SLIDER_ON)
          GUI_FLAG_DROPDOWN_SLIDER_AUTO = true := by
        simp only [flag_test_slider_auto] at au ⊢
        simp [au]
      simp only [this, if_true, flag_set_idem]
    · simp only [au, cm, if_true, if_false]
      have : flag_test (flag_clear h.Flags GUI_FLAG_DROPDOWN_SLIDER_ON)
          GUI_FLAG_DROPDOWN_SLIDER_AUTO = true := by
        simp only [flag_test_slider_auto] at au ⊢
        simp [au]
      simp only [this, if_true, flag_clear_idem]
  · simp [au]

theorem checked_visible_idem (h : gui_dropdown_t) (a : gui_dropdown_t)
    (hv : in_int16 h.visiblestartindex)
    (hc : a.Count = h.Count) (hn : nr_entries_pp a = nr_entries_pp h)
    (hs : a.visiblestartindex = checked_visible h) : checked_visible a = checked_visible h := by
  unfold in_int16 at hv
  unfold checked_visible at *
  rw [hc, hn, hs]
  by_cases c1 : h.visiblestartindex < 0
  · simp [c1]
  · by_cases c2 : h.visiblestartindex > 0 ∧ h.Count > nr_entries_pp h ∧
        h.visiblestartindex + nr_entries_pp h ≥ h.Count
    · have e : to_int16 (h.Count - nr_entries_pp h) = h.Count - nr_entries_pp h :=
        to_int16_of_in _ (by unfold in_int16; omega)
      simp only [c1, c2, and_self, if_true, if_false, e]
      have d1 : ¬ h.Count - nr_entries_pp h < 0 := by omega
      have d2 : h.Count - nr_entries_pp h > 0 ∧ h.Count > nr_entries_pp h ∧
          h.Count - nr_entries_pp h + nr_entries_pp h ≥ h.Count := by omega
      simp only [d1, d2, and_self, if_true, if_false]
    · simp only [c1, c2, if_false]

set_option maxRecDepth 100000

/-! ### Rounding and the single precision operations -/

theorem nat_bits_spec : ∀ (fuel n : Nat), n < 2 ^ fuel → n ≠ 0 →
    2 ^ (nat_bits fuel n - 1) ≤ n ∧ n < 2 ^ (nat_bits fuel n) := by
  intro fuel
  induction fuel with
  | zero => intro n h hn; simp at h; exact absurd h hn
  | succ fuel ih =>
    intro n h hn
    simp only [nat_bits, hn, if_false]
    by_cases c : n / 2 = 0
    · have h1 : n = 1 := by omega
      have h0 : nat_bits fuel (n / 2) = 0 := by
        rw [c]; cases fuel <;> simp [nat_bits]
      rw [h0, h1]; simp
    · have hlt : n / 2 < 2 ^ fuel := by
        rw [Nat.pow_succ] at h; omega
      obtain ⟨i1, i2⟩ := ih (n / 2) hlt c
      have hb : 1 ≤ nat_bits fuel (n / 2) := by
        cases fuel with
        | zero => simp at hlt; exact absurd hlt c
        | succ f => simp [nat_bits, c]
      have e1 : 2 ^ (nat_bits fuel (n / 2) + 1 - 1) = 2 * 2 ^ (nat_bits fuel (n / 2) - 1) := by
        have : nat_bits fuel (n / 2) + 1 - 1 = (nat_bits fuel (n / 2) - 1) + 1 := by omega
        rw [this, Nat.pow_succ]; ring
      have e2 : 2 ^ (nat_bits fuel (n / 2) + 1) = 2 * 2 ^ (nat_bits fuel (n / 2)) := by
        rw [Nat.pow_succ]; ring
      rw [e1, e2]
      omega

theorem nat_size_spec (n : Nat) (hn : n ≠ 0) :
    2 ^ (nat_size n - 1) ≤ n ∧ n < 2 ^ (nat_size n) :=
  nat_bits_spec n n (Nat.lt_two_pow n) hn

theorem nat_size_pos (n : Nat) (hn : n ≠ 0) : 1 ≤ nat_size n := by
  have h := (nat_size_spec n hn).2
  by_contra c
  have : nat_size n = 0 := by omega
  rw [this] at h
  simp at h
  exact hn h

theorem nat_size_unique (n k : Nat) (hk : 1 ≤ k) (h1 : 2 ^ (k - 1) ≤ n) (h2 : n < 2 ^ k) :
    nat_size n = k := by
  have hn : n ≠ 0 := by
    have : 0 < 2 ^ (k - 1) := Nat.two_pow_pos _
    omega
  obtain ⟨s1, s2⟩ := nat_size_spec n hn
  have hp := nat_size_pos n hn
  have a1 : 2 ^ (k - 1) < 2 ^ (nat_size n) := lt_of_le_of_lt h1 s2
  have a2 : 2 ^ (nat_size n - 1) < 2 ^ k := lt_of_le_of_lt s1 h2
  have b1 : k - 1 < nat_size n := (Nat.pow_lt_pow_iff_right (by decide)).mp a1
  have b2 : nat_size n - 1 < k := (Nat.pow_lt_pow_iff_right (by decide)).mp a2
  omega

theorem nat_size_mul_pow (n k : Nat) (hn : n ≠ 0) : nat_size (n * 2 ^ k) = nat_size n + k := by
  obtain ⟨s1, s2⟩ := nat_size_spec n hn
  have hp := nat_size_pos n hn
  apply nat_size_unique
  · omega
  · have : nat_size n + k - 1 = (nat_size n - 1) + k := by omega
    rw [this, Nat.pow_add]
    exact Nat.mul_le_mul_right _ s1
  · rw [Nat.pow_add]
    exact Nat.mul_lt_mul_of_lt_of_le s2 (le_refl _) (Nat.two_pow_pos _)

theorem nat_size_le (n k : Nat) (h : n < 2 ^ k) : nat_size n ≤ k := by
  by_cases hn : n = 0
  · subst hn; simp [nat_size, nat_bits]
  · obtain ⟨s1, _⟩ := nat_size_spec n hn
    have a : 2 ^ (nat_size n - 1) < 2 ^ k := lt_of_le_of_lt s1 h
    have b : nat_size n - 1 < k := (Nat.pow_lt_pow_iff_right (by decide)).mp a
    omega

theorem f32_nearest_scaled (s : Bool) (m : Nat) (e : Int)
    (hw : f32_wf (f32.finite s m e)) (hm : m ≠ 0) :
    f32_nearest s (m * 2 ^ (e + 149).toNat) (-149) false = f32.finite s m e := by
  obtain ⟨h24, hlo, hhi, hn⟩ := hw
  have hk : ((e + 149).toNat : Int) = e + 149 := Int.toNat_of_nonneg (by omega)
  generalize hkk : (e + 149).toNat = k at hk
  have hpos : 0 < 2 ^ k := Nat.two_pow_pos _
  have hne : m * 2 ^ k ≠ 0 := Nat.mul_ne_zero hm (by omega)
  have hsz : nat_size (m * 2 ^ k) = nat_size m + k := nat_size_mul_pow m k hm
  have hle : nat_size m ≤ 24 := nat_size_le m 24 h24
  unfold f32_nearest
  rw [if_neg hne, hsz]
  by_cases c : e = -149
  · have k0 : k = 0 := by omega
    subst k0
    have he1 : max ((-149 : Int) + ((nat_size m + 0 : Nat) : Int) - 24) (-149) = -149 := by
      rw [max_eq_right]; push_cast; omega
    simp only [he1, le_refl, if_true, sub_self, Int.toNat_zero, pow_zero, mul_one]
    have h2 : ¬ m = 2 ^ 24 := by omega
    simp only [h2, if_false]
    rw [c]
    simp
  · have hnorm : 2 ^ 23 ≤ m := by
      rcases hn with h | h
      · exact h
      · exact absurd h c
    have hs24 : nat_size m = 24 := nat_size_unique m 24 (by decide) hnorm h24
    have he1 : max ((-149 : Int) + ((nat_size m + k : Nat) : Int) - 24) (-149) = e := by
      rw [hs24, max_eq_left]
      · push_cast; omega
      · push_cast; omega
    have hnle : ¬ e ≤ -149 := by omega
    have hs : (e - -149).toNat = k := by omega
    have hq : m * 2 ^ k / 2 ^ k = m := Nat.mul_div_cancel _ hpos
    have hr : m * 2 ^ k % 2 ^ k = 0 := Nat.mul_mod_left _ _
    have hhalf : 0 < 2 ^ (k - 1) := Nat.two_pow_pos _
    have h2 : ¬ m = 2 ^ 24 := by omega
    have hc1 : ¬ (2 ^ (k - 1) < 0 ∨ (0 = 2 ^ (k - 1) ∧ (false = true ∨ m % 2 = 1))) := by
      intro h
      rcases h with h | ⟨h, _⟩
      · omega
      · omega
    simp only [he1, hnle, if_false, hs, hq, hr, hc1, h2]
    have : ¬ e > 104 := by omega
    simp only [this, if_false]

theorem ite_inf_finite (c : Prop) [Decidable c] (neg : Bool) (m : Nat) (e : Int) :
    (if c then f32.inf neg else f32.finite neg m e) = f32.inf neg ∨
    ∃ m2 e2, (if c then f32.inf neg else f32.finite neg m e) = f32.finite neg m2 e2 := by
  by_cases h : c
  · simp [h]
  · simp [h]

theorem f32_nearest_cases (neg : Bool) (n : Nat) (e : Int) (sticky : Bool) :
    f32_nearest neg n e sticky = f32.inf neg ∨
    ∃ m e2, f32_nearest neg n e sticky = f32.finite neg m e2 := by
  by_cases hn : n = 0
  · right; exact ⟨0, -149, by simp [f32_nearest, hn, f32_zero]⟩
  · unfold f32_nearest
    rw [if_neg hn]
    exact ite_inf_finite _ _ _ _

theorem nat_div_pow_lt (n S s : Nat) (h : n < 2 ^ S) (hs : s ≤ S) : n / 2 ^ s < 2 ^ (S - s) := by
  apply Nat.div_lt_of_lt_mul
  rw [← Nat.pow_add]
  have : s + (S - s) = S := by omega
  rw [this]; exact h

theorem nat_div_pow_ge (n S s : Nat) (h : 2 ^ S ≤ n) (hs : s ≤ S) : 2 ^ (S - s) ≤ n / 2 ^ s := by
  rw [Nat.le_div_iff_mul_le (Nat.two_pow_pos _), ← Nat.pow_add]
  have : S - s + s = S := by omega
  rw [this]; exact h

theorem f32_nearest_wf (neg : Bool) (n : Nat) (e : Int) (sticky : Bool) :
    f32_wf (f32_nearest neg n e sticky) := by
  unfold f32_nearest
  by_cases hn : n = 0
  · simp [hn, f32_zero, f32_wf]
  rw [if_neg hn]
  obtain ⟨s1, s2⟩ := nat_size_spec n hn
  have hp := nat_size_pos n hn
  generalize hS : nat_size n = S at s1 s2 hp
  simp only []
  generalize he1 : max (e + (S : Int) - 24) (-149) = e1
  have hge : -149 ≤ e1 := by rw [← he1]; exact le_max_right _ _
  have hge2 : e + (S : Int) - 24 ≤ e1 := by rw [← he1]; exact le_max_left _ _
  have hor : e1 = e + (S : Int) - 24 ∨ e1 = -149 := by
    rw [← he1]; rcases max_choice (e + (S : Int) - 24) (-149) with h | h <;> simp [h]
  by_cases c : e1 ≤ e
  · simp only [c, if_true]
    generalize hk : (e - e1).toNat = k
    have hkk : (k : Int) = e - e1 := by rw [← hk]; exact Int.toNat_of_nonneg (by omega)
    have hsz : nat_size (n * 2 ^ k) = S + k := by rw [nat_size_mul_pow n k hn, hS]
    have hlt : n * 2 ^ k < 2 ^ 24 := by
      have h1 : n * 2 ^ k < 2 ^ (S + k) := by
        rw [Nat.pow_add]; exact Nat.mul_lt_mul_of_lt_of_le s2 (le_refl _) (Nat.two_pow_pos _)
      have h2 : S + k ≤ 24 := by omega
      exact lt_of_lt_of_le h1 (Nat.pow_le_pow_right (by decide) h2)
    have h24 : ¬ n * 2 ^ k = 2 ^ 24 := by omega
    simp only [h24, if_false]
    split_ifs with c2
    · trivial
    · refine ⟨hlt, hge, by omega, ?_⟩
      rcases hor with h | h
      · left
        have h3 : S + k = 24 := by omega
        have h4 : 2 ^ (S + k - 1) ≤ n * 2 ^ k := by
          have : S + k - 1 = (S - 1) + k := by omega
          rw [this, Nat.pow_add]; exact Nat.mul_le_mul_right _ s1
        rw [h3] at h4
        exact h4
      · right; exact h
  · simp only [c, if_false]
    generalize hk : (e1 - e).toNat = k
    have hkk : (k : Int) = e1 - e := by rw [← hk]; exact Int.toNat_of_nonneg (by omega)
    have hk1 : 1 ≤ k := by omega
    generalize hm : (if 2 ^ (k - 1) < n % 2 ^ k ∨
        n % 2 ^ k = 2 ^ (k - 1) ∧ (sticky = true ∨ n / 2 ^ k % 2 = 1) then n / 2 ^ k + 1
        else n / 2 ^ k) = m
    have hmq : m = n / 2 ^ k ∨ m = n / 2 ^ k + 1 := by
      rw [← hm]; split_ifs <;> simp
    have hSk : S ≤ k + 24 := by omega
    have q1 : n / 2 ^ k < 2 ^ 24 := by
      by_cases cs : k ≤ S
      · have := nat_div_pow_lt n S k s2 cs
        exact lt_of_lt_of_le this (Nat.pow_le_pow_right (by decide) (by omega))
      · have : n < 2 ^ k := lt_of_lt_of_le s2 (Nat.pow_le_pow_right (by decide) (by omega))
        rw [Nat.div_eq_of_lt this]
        exact Nat.two_pow_pos _
    by_cases c24 : m = 2 ^ 24
    · simp only [c24, if_true]
      split_ifs
      · trivial
      · exact ⟨by decide, by omega, by omega, Or.inl (le_refl _)⟩
    · simp only [c24, if_false]
      split_ifs
      · trivial
      · refine ⟨by omega, hge, by omega, ?_⟩
        rcases hor with h | h
        · left
          have q2 : 2 ^ 23 ≤ n / 2 ^ k := by
            have := nat_div_pow_ge n (S - 1) k s1 (by omega)
            rwa [show S - 1 - k = 23 by omega] at this
          omega
        · right; exact h

theorem f32_scaled_zero (t : Bool) : f32_scaled (f32_zero t) = 0 := by
  cases t <;> simp [f32_scaled, f32_zero]

theorem f32_neg_zero (t : Bool) : f32_neg (f32_zero t) = f32_zero (!t) := rfl

theorem f32_zero_wf (t : Bool) : f32_wf (f32_zero t) := by
  simp [f32_zero, f32_wf]

theorem f32_finite_zero (t : Bool) : f32_finite (f32_zero t) := by
  simp [f32_zero, f32_finite, f32_wf]

theorem f32_add_wf (a b : f32) : f32_wf (f32_add a b) := by
  cases a <;> cases b <;> simp only [f32_add] <;> try trivial
  · split_ifs
    · exact f32_zero_wf _
    · exact f32_nearest_wf _ _ _ _
  · split_ifs <;> trivial

theorem f32_sub_wf (a b : f32) : f32_wf (f32_sub a b) := f32_add_wf _ _

/-- A wf finite value whose significand is 0 is a zero. -/
theorem f32_wf_zero (s : Bool) (e : Int) (hw : f32_wf (f32.finite s 0 e)) :
    f32.finite s 0 e = f32_zero s := by
  obtain ⟨_, _, _, h⟩ := hw
  rcases h with h | h
  · simp at h
  · rw [h]; rfl

theorem f32_scaled_ne_zero (s : Bool) (m : Nat) (e : Int) (hm : m ≠ 0) :
    f32_scaled (f32.finite s m e) ≠ 0 := by
  have hp : m * 2 ^ (e + 149).toNat ≠ 0 := Nat.mul_ne_zero hm (by positivity)
  cases s <;> simp [f32_scaled] <;> omega

/-- Adding a zero to a finite value gives the value back, or a zero when the
value is a zero. -/
theorem f32_add_zero (a : f32) (t : Bool) (ha : f32_finite a) :
    f32_add a (f32_zero t) = a ∨
    ∃ s u, a = f32_zero s ∧ f32_add a (f32_zero t) = f32_zero u := by
  cases a with
  | inf s => exact absurd ha (by simp [f32_finite])
  | nan => exact absurd ha (by simp [f32_finite])
  | finite s m e =>
    have hw : f32_wf (f32.finite s m e) := ha
    by_cases hm : m = 0
    · subst hm
      right
      refine ⟨s, s && t, f32_wf_zero s e hw, ?_⟩
      have hz : f32_scaled (f32.finite s 0 e) + f32_scaled (f32.finite t 0 (-149)) = 0 := by
        cases s <;> cases t <;> simp [f32_scaled]
      simp only [f32_add, f32_zero, hz, if_true]
    · left
      have h0 : f32_scaled (f32.finite t 0 (-149)) = 0 := f32_scaled_zero t
      have hne := f32_scaled_ne_zero s m e hm
      simp only [f32_add, f32_zero, h0, add_zero, hne, if_false]
      have hsign : decide (f32_scaled (f32.finite s m e) < 0) = s := by
        have hp : 0 < m * 2 ^ (e + 149).toNat := Nat.pos_of_ne_zero
          (Nat.mul_ne_zero hm (by positivity))
        cases s <;> simp [f32_scaled]
        omega
      have habs : (f32_scaled (f32.finite s m e)).natAbs = m * 2 ^ (e + 149).toNat := by
        cases s <;> simp [f32_scaled, Int.natAbs_mul, Int.natAbs_pow]
      rw [hsign, habs]
      exact f32_nearest_scaled s m e hw hm

theorem f32_eq_self (a : f32) (ha : f32_finite a) : f32_eq a a = true := by
  cases a with
  | inf s => exact absurd ha (by simp [f32_finite])
  | nan => exact absurd ha (by simp [f32_finite])
  | finite s m e => simp [f32_eq]

theorem f32_eq_zero_zero (s u : Bool) : f32_eq (f32_zero u) (f32_zero s) = true := by
  simp [f32_eq, f32_zero, f32_scaled]

/-- Adding a zero leaves a finite value equal to itself (`==`) and finite. -/
theorem f32_add_zero_eq (a : f32) (t : Bool) (ha : f32_finite a) :
    f32_eq (f32_add a (f32_zero t)) a = true ∧ f32_finite (f32_add a (f32_zero t)) := by
  rcases f32_add_zero a t ha with h | ⟨s, u, h1, h2⟩
  · rw [h]; exact ⟨f32_eq_self a ha, ha⟩
  · rw [h2, h1]; exact ⟨f32_eq_zero_zero s u, f32_finite_zero u⟩

theorem f32_sub_zero_eq (a : f32) (t : Bool) (ha : f32_finite a) :
    f32_eq (f32_sub a (f32_zero t)) a = true ∧ f32_finite (f32_sub a (f32_zero t)) := by
  unfold f32_sub
  rw [f32_neg_zero]
  exact f32_add_zero_eq a _ ha

theorem f32_mul_zero_right (s : Bool) (m : Nat) (e : Int) (t : Bool) :
    f32_mul (f32.finite s m e) (f32_zero t) = f32_zero (xor s t) := by
  simp [f32_mul, f32_zero, f32_nearest]

theorem f32_mul_zero_left (s t : Bool) (n : Nat) (k : Int) :
    f32_mul (f32_zero s) (f32.finite t n k) = f32_zero (xor s t) := by
  simp [f32_mul, f32_zero, f32_nearest]

theorem f32_sub_one_one : f32_sub F32_ONE F32_ONE = f32_zero false := by decide

theorem f32_of_int_zero : f32_of_int 0 = f32_zero false := by decide

theorem f32_of_int_one : f32_of_int 1 = F32_ONE := by decide

/-- A result of `f32_nearest` below `2^128` in magnitude is finite. -/
theorem f32_nearest_finite (neg : Bool) (n : Nat) (e : Int) (sticky : Bool) (K : Nat)
    (hn : n < 2 ^ K) (hK : e + (K : Int) ≤ 127) :
    f32_finite (f32_nearest neg n e sticky) := by
  have hw := f32_nearest_wf neg n e sticky
  by_cases h0 : n = 0
  · simp [f32_nearest, h0, f32_finite_zero]
  have hS : nat_size n ≤ K := nat_size_le n K hn
  revert hw
  unfold f32_nearest
  rw [if_neg h0]
  simp only []
  have hb : max (e + (nat_size n : Int) - 24) (-149) ≤ 103 := by
    apply max_le <;> omega
  intro hw
  have hne : ¬ (if (if max (e + (nat_size n : Int) - 24) (-149) ≤ e then
          n * 2 ^ (e - max (e + (nat_size n : Int) - 24) (-149)).toNat
        else
          if 2 ^ ((max (e + (nat_size n : Int) - 24) (-149) - e).toNat - 1)
                < n % 2 ^ (max (e + (nat_size n : Int) - 24) (-149) - e).toNat ∨
              n % 2 ^ (max (e + (nat_size n : Int) - 24) (-149) - e).toNat
                = 2 ^ ((max (e + (nat_size n : Int) - 24) (-149) - e).toNat - 1) ∧
              (sticky = true ∨
                n / 2 ^ (max (e + (nat_size n : Int) - 24) (-149) - e).toNat % 2 = 1) then
            n / 2 ^ (max (e + (nat_size n : Int) - 24) (-149) - e).toNat + 1
          else n / 2 ^ (max (e + (nat_size n : Int) - 24) (-149) - e).toNat) = 2 ^ 24
        then max (e + (nat_size n : Int) - 24) (-149) + 1
        else max (e + (nat_size n : Int) - 24) (-149)) > 104 := by
    split_ifs <;> omega
  rw [if_neg hne] at hw ⊢
  exact hw

theorem f32_scaled_one : f32_scaled F32_ONE = 2 ^ 149 := by decide

theorem f32_scaled_half : f32_scaled F32_HALF = 2 ^ 148 := by decide

/-- The focus coordinate after the range test of `graph_zoom` is a number
between 0 and 1, unless it is `NaN`. -/
theorem zoom_focus_unit (x : f32) (hx : x ≠ f32.nan) :
    f32_unit (if f32_lt x (f32_of_int 0) || f32_lt (f32_of_int 1) x then F32_HALF else x) := by
  rw [f32_of_int_zero, f32_of_int_one]
  cases x with
  | nan => exact absurd rfl hx
  | inf s =>
    cases s
    · simp [f32_lt, F32_ONE, f32_zero, f32_unit, F32_HALF, f32_scaled]
    · simp [f32_lt, F32_ONE, f32_zero, f32_unit, F32_HALF, f32_scaled]
  | finite s m e =>
    by_cases c : (f32_lt (f32.finite s m e) (f32_zero false)
        || f32_lt F32_ONE (f32.finite s m e)) = true
    · rw [if_pos c]
      simp [f32_unit, F32_HALF, f32_scaled]
    · rw [if_neg c]
      have h1 := f32_scaled_one
      simp only [f32_lt, f32_zero, F32_ONE, Bool.or_eq_true, decide_eq_true_eq, not_or,
        not_lt] at c h1
      have h0 : f32_scaled (f32.finite false 0 (-149)) = 0 := f32_scaled_zero false
      rw [h0] at c
      rw [h1] at c
      exact ⟨c.1, c.2⟩

/-- For a number `pos` between 0 and 1, `1.0f - pos` is finite. -/
theorem f32_one_sub_unit (pos : f32) (hp : f32_unit pos) :
    f32_finite (f32_sub F32_ONE pos) := by
  cases pos with
  | nan => exact absurd hp (by simp [f32_unit])
  | inf s => exact absurd hp (by simp [f32_unit])
  | finite t n k =>
    obtain ⟨h0, h1⟩ := hp
    have hneg : f32_scaled (f32.finite (!t) n k) = - f32_scaled (f32.finite t n k) := by
      cases t <;> simp [f32_scaled]
    have hone : f32_scaled (f32.finite false (2 ^ 23) (-23)) = 2 ^ 149 := f32_scaled_one
    simp only [f32_sub, f32_neg, F32_ONE, f32_add, hneg, hone]
    split_ifs with hz
    · exact f32_finite_zero _
    · apply f32_nearest_finite _ _ _ _ 150
      · have : ((2 : Int) ^ 149 + -f32_scaled (f32.finite t n k)).natAbs ≤ 2 ^ 149 := by
          omega
        omega
      · decide

theorem f32_finite_cases (a : f32) (ha : f32_finite a) : ∃ s m e, a = f32.finite s m e := by
  cases a with
  | nan => exact absurd ha (by simp [f32_finite])
  | inf s => exact absurd ha (by simp [f32_finite])
  | finite s m e => exact ⟨s, m, e, rfl⟩

/-- The zoom term `range * (1.0f - 1.0f) * pos` is a zero when the range and
`pos` are finite. -/
theorem zoom_term_zero (r pos : f32) (hr : f32_finite r) (hp : ∃ t n k, pos = f32.finite t n k) :
    ∃ u, f32_mul (f32_mul r (f32_sub F32_ONE F32_ONE)) pos = f32_zero u := by
  obtain ⟨s, m, e, rfl⟩ := f32_finite_cases r hr
  obtain ⟨t, n, k, rfl⟩ := hp
  rw [f32_sub_one_one, f32_mul_zero_right, f32_mul_zero_left]
  exact ⟨_, rfl⟩

/-- One axis of `graph_zoom` with factor `1.0f`: both bounds keep their
values. -/
theorem zoom_one_axis (mn mx pos : f32) (hmn : f32_finite mn) (hmx : f32_finite mx)
    (hr : f32_finite (f32_sub mx mn)) (hp : f32_unit pos) :
    f32_eq (f32_add mn (f32_mul (f32_mul (f32_sub mx mn) (f32_sub F32_ONE F32_ONE)) pos)) mn
      = true ∧
    f32_eq (f32_sub mx (f32_mul (f32_mul
        (f32_sub mx (f32_add mn (f32_mul (f32_mul (f32_sub mx mn) (f32_sub F32_ONE F32_ONE)) pos)))
        (f32_sub F32_ONE F32_ONE)) (f32_sub F32_ONE pos))) mx = true := by
  have hpf : ∃ t n k, pos = f32.finite t n k := by
    cases pos with
    | nan => exact absurd hp (by simp [f32_unit])
    | inf s => exact absurd hp (by simp [f32_unit])
    | finite t n k => exact ⟨t, n, k, rfl⟩
  obtain ⟨u, hu⟩ := zoom_term_zero (f32_sub mx mn) pos hr hpf
  rw [hu]
  refine ⟨(f32_add_zero_eq mn u hmn).1, ?_⟩
  have hr2 : f32_finite (f32_sub mx (f32_add mn (f32_zero u))) := by
    rcases f32_add_zero mn u hmn with h | ⟨s, v, h1, h2⟩
    · rw [h]; exact hr
    · rw [h2]; exact (f32_sub_zero_eq mx v hmx).2
  obtain ⟨v, hv⟩ := zoom_term_zero (f32_sub mx (f32_add mn (f32_zero u))) (f32_sub F32_ONE pos)
    hr2 (f32_finite_cases _ (f32_one_sub_unit pos hp))
  rw [hv]
  exact (f32_sub_zero_eq mx v hmx).1

theorem nat_size_ge (m j : Nat) (h : 2 ^ j ≤ m) : j + 1 ≤ nat_size m := by
  have hm : m ≠ 0 := by
    have : 0 < 2 ^ j := Nat.two_pow_pos _
    omega
  have h2 := (nat_size_spec m hm).2
  have a : 2 ^ j < 2 ^ nat_size m := lt_of_le_of_lt h h2
  have b : j < nat_size m := (Nat.pow_lt_pow_iff_right (by decide)).mp a
  omega

/-- A value that is not below the smallest positive number does not round to
zero, and rounding does not lower its binary order of magnitude. -/
theorem f32_nearest_nonzero (neg : Bool) (n : Nat) (e : Int) (sticky : Bool)
    (hn : n ≠ 0) (hbig : -149 < e + (nat_size n : Int)) :
    f32_nearest neg n e sticky = f32.inf neg ∨
    ∃ m e2, f32_nearest neg n e sticky = f32.finite neg m e2 ∧ m ≠ 0 ∧
      e + (nat_size n : Int) ≤ e2 + (nat_size m : Int) := by
  unfold f32_nearest
  rw [if_neg hn]
  obtain ⟨s1, s2⟩ := nat_size_spec n hn
  have hp := nat_size_pos n hn
  generalize hS : nat_size n = S at s1 s2 hp hbig
  simp only []
  generalize he1 : max (e + (S : Int) - 24) (-149) = e1
  have hge : -149 ≤ e1 := by rw [← he1]; exact le_max_right _ _
  have hge2 : e + (S : Int) - 24 ≤ e1 := by rw [← he1]; exact le_max_left _ _
  have hor : e1 = e + (S : Int) - 24 ∨ e1 = -149 := by
    rw [← he1]; rcases max_choice (e + (S : Int) - 24) (-149) with h | h <;> simp [h]
  by_cases c : e1 ≤ e
  · simp only [c, if_true]
    generalize hk : (e - e1).toNat = k
    have hkk : (k : Int) = e - e1 := by rw [← hk]; exact Int.toNat_of_nonneg (by omega)
    have hsz : nat_size (n * 2 ^ k) = S + k := by rw [nat_size_mul_pow n k hn, hS]
    have hlt : n * 2 ^ k < 2 ^ 24 := by
      have h1 : n * 2 ^ k < 2 ^ (S + k) := by
        rw [Nat.pow_add]; exact Nat.mul_lt_mul_of_lt_of_le s2 (le_refl _) (Nat.two_pow_pos _)
      have h2 : S + k ≤ 24 := by omega
      exact lt_of_lt_of_le h1 (Nat.pow_le_pow_right (by decide) h2)
    have h24 : ¬ n * 2 ^ k = 2 ^ 24 := by omega
    have hne : n * 2 ^ k ≠ 0 := Nat.mul_ne_zero hn (by positivity)
    simp only [h24, if_false]
    split_ifs with c2
    · exact Or.inl rfl
    · exact Or.inr ⟨_, _, rfl, hne, by rw [hsz]; push_cast; omega⟩
  · simp only [c, if_false]
    generalize hk : (e1 - e).toNat = k
    have hkk : (k : Int) = e1 - e := by rw [← hk]; exact Int.toNat_of_nonneg (by omega)
    have hkS : k + 1 ≤ S := by omega
    generalize hm : (if 2 ^ (k - 1) < n % 2 ^ k ∨
        n % 2 ^ k = 2 ^ (k - 1) ∧ (sticky = true ∨ n / 2 ^ k % 2 = 1) then n / 2 ^ k + 1
        else n / 2 ^ k) = m
    have hmq : n / 2 ^ k ≤ m := by
      rw [← hm]; split_ifs <;> omega
    have q2 : 2 ^ (S - 1 - k) ≤ n / 2 ^ k := nat_div_pow_ge n (S - 1) k s1 (by omega)
    have hsm : S - 1 - k + 1 ≤ nat_size m := nat_size_ge m _ (le_trans q2 hmq)
    have hm0 : m ≠ 0 := by
      have : 0 < 2 ^ (S - 1 - k) := Nat.two_pow_pos _
      omega
    by_cases c24 : m = 2 ^ 24
    · simp only [c24, if_true]
      split_ifs
      · exact Or.inl rfl
      · refine Or.inr ⟨_, _, rfl, by decide, ?_⟩
        have : nat_size (2 ^ 23) = 24 := nat_size_unique _ 24 (by decide) (by decide) (by decide)
        rw [this]
        omega
    · simp only [c24, if_false]
      split_ifs
      · exact Or.inl rfl
      · exact Or.inr ⟨_, _, rfl, hm0, by omega⟩

theorem f32_of_int_large (w : Int) (hw : w ≠ 0) : f32_large (f32_of_int w) := by
  unfold f32_of_int
  have hn : w.natAbs ≠ 0 := Int.natAbs_ne_zero.mpr hw
  have hp := nat_size_pos _ hn
  rcases f32_nearest_nonzero (decide (w < 0)) w.natAbs 0 false hn (by omega) with h | ⟨m, e2, h, h1, h2⟩
  · rw [h]; trivial
  · rw [h]; exact ⟨h1, by omega⟩

/-- The quotient of a number of magnitude at least 1 by a finite non-zero
number is not zero and not `NaN`. -/
theorem f32_div_nonzero (a b : f32) (ha : f32_large a) (hb : f32_finite b)
    (hbn : f32_nonzero b) : f32_nonzero (f32_div a b) := by
  obtain ⟨t, n, k, rfl⟩ := f32_finite_cases b hb
  have hn : n ≠ 0 := hbn
  obtain ⟨h24, _, hhi, _⟩ : f32_wf (f32.finite t n k) := hb
  cases a with
  | nan => exact absurd ha (by simp [f32_large])
  | inf s => simp [f32_div, f32_nonzero]
  | finite s m e =>
    obtain ⟨hm, hmag⟩ := ha
    simp only [f32_div, hn, if_false]
    obtain ⟨s1, _⟩ := nat_size_spec m hm
    have hsn : nat_size n ≤ 24 := nat_size_le n 24 h24
    have hpm := nat_size_pos m hm
    have hq : 2 ^ (nat_size m - 1 + 50 - 24) ≤ m * 2 ^ 50 / n := by
      rw [Nat.le_div_iff_mul_le (Nat.pos_of_ne_zero hn)]
      have a1 : 2 ^ (nat_size m - 1 + 50 - 24) * n ≤ 2 ^ (nat_size m - 1 + 50 - 24) * 2 ^ 24 :=
        Nat.mul_le_mul_left _ (le_of_lt h24)
      have a2 : 2 ^ (nat_size m - 1 + 50 - 24) * 2 ^ 24 = 2 ^ (nat_size m - 1) * 2 ^ 50 := by
        have a4 : nat_size m - 1 + 50 - 24 + 24 = nat_size m - 1 + 50 := by omega
        rw [← Nat.pow_add, ← Nat.pow_add, a4]
      have a3 : 2 ^ (nat_size m - 1) * 2 ^ 50 ≤ m * 2 ^ 50 := Nat.mul_le_mul_right _ s1
      omega
    have hq0 : m * 2 ^ 50 / n ≠ 0 := by
      have : 0 < 2 ^ (nat_size m - 1 + 50 - 24) := Nat.two_pow_pos _
      omega
    have hsq := nat_size_ge _ _ hq
    rcases f32_nearest_nonzero (xor s t) (m * 2 ^ 50 / n) (e - k - 50)
        (decide (m * 2 ^ 50 % n ≠ 0)) hq0 (by omega) with h | ⟨m2, e2, h, h1, _⟩
    · rw [h]; trivial
    · rw [h]; exact h1

/-- Zero divided by a non-zero number is a zero. -/
theorem f32_zero_div (s : Bool) (b : f32) (hb : f32_nonzero b) :
    ∃ u, f32_div (f32_zero s) b = f32_zero u := by
  cases b with
  | nan => exact absurd hb (by simp [f32_nonzero])
  | inf t => exact ⟨_, rfl⟩
  | finite t n k =>
    have hn : n ≠ 0 := hb
    refine ⟨xor s t, ?_⟩
    simp [f32_div, f32_zero, hn, f32_nearest]

/-- A drag of zero pixels moves the window by a zero. -/
theorem pan_delta_zero (plot : Int) (range : f32) (hp : plot ≠ 0) (hr : f32_finite range)
    (hn : f32_nonzero range) : ∃ u, pan_delta plot range 0 = f32_zero u := by
  unfold pan_delta
  rw [f32_of_int_zero]
  exact f32_zero_div false _ (f32_div_nonzero _ _ (f32_of_int_large plot hp) hr hn)

/-- C1 (the code departs from it): insert and delete are to keep
`0 ≤ visiblestartindex ≤ max(0, Count - entries_per_page)`.  The dropdown
`dropdown_three_scrolled` (three entries, two per page, scrolled to index 1)
satisfies both bounds; `gui_dropdown_deletelaststring` succeeds on it, leaves
two entries on a page of two and keeps `visiblestartindex = 1`, above the
bound `max(0, 2 - 2) = 0`. -/
theorem delete_leaves_stale_start :
    visible_ok dropdown_three_scrolled ∧ selected_ok dropdown_three_scrolled ∧
    (gui_dropdown_deletelaststring dropdown_three_scrolled).2 = 1 ∧
    (gui_dropdown_deletelaststring dropdown_three_scrolled).1.Count = 2 ∧
    entries_per_page (gui_dropdown_deletelaststring dropdown_three_scrolled).1 = 2 ∧
    (gui_dropdown_deletelaststring dropdown_three_scrolled).1.visiblestartindex = 1 ∧
    ¬ visible_ok (gui_dropdown_deletelaststring dropdown_three_scrolled).1 := by
  decide

/-- C2: for a series of capacity `Length ≥ 1` whose cursor starts at 0, after
`Length + k` calls of `gui_graph_data_addvalue` the `Draw` walk (from slot
`Ptr` round to slot `Ptr - 1`) ends within `Length` loop tests and reads
exactly the last `Length` appended samples, oldest first. -/
theorem appended_samples_read_oldest_first (auto_invalidate : Bool) (w : graph_world)
    (s : Nat) (vs : List (Int × Int)) (k fuel : Nat)
    (hL : 1 ≤ (w.data s).Length) (hp : (w.data s).Ptr = 0) (hb : buffer_ok (w.data s))
    (hn : vs.length = (w.data s).Length + k) (hf : (w.data s).Length ≤ fuel) :
    draw_samples ((world_addvalues auto_invalidate w s vs).data s) fuel
      = some ((vs.drop k).map (stored_sample (w.data s).Type_)) := by
  rw [world_addvalues_data]
  exact ring_last_samples (w.data s) vs k fuel hL hp hb hn hf

/-- Witness of C2: a `YT` series of capacity 4 fed 1, 2, 3, 4, 5 reads
2, 3, 4, 5. -/
theorem appended_samples_read_oldest_first_witness :
    (1 ≤ (world_plain.data 0).Length ∧ (world_plain.data 0).Ptr = 0 ∧
      buffer_ok (world_plain.data 0)) ∧
    draw_samples ((world_addvalues true world_plain 0
        [(0, 1), (0, 2), (0, 3), (0, 4), (0, 5)]).data 0) 4
      = some [(none, 2), (none, 3), (none, 4), (none, 5)] :=
  ⟨by decide,
   appended_samples_read_oldest_first true world_plain 0
     [(0, 1), (0, 2), (0, 3), (0, 4), (0, 5)] 1 4
     (by decide) (by decide) (by decide) (by decide) (by decide)⟩

/-- C3: opening a closed dropdown (`open_close(h, 1)`, the `Click` command) and
closing it again (`open_close(h, 0)`, the `FocusOut` command) restores the
prior `x`, `y` and `height`, in either open direction. -/
theorem open_then_close_restores (h : gui_dropdown_t) (tY : Int)
    (p1 p2 : gui_widget_param_t) (hc : is_opened h = false) :
    is_opened (open_close h 1).1 = true ∧
    is_opened (open_close (open_close h 1).1 0).1 = false ∧
    (open_close (open_close h 1).1 0).1.C.x = h.C.x ∧
    (open_close (open_close h 1).1 0).1.C.y = h.C.y ∧
    (open_close (open_close h 1).1 0).1.C.height = h.C.height ∧
    ∃ r1 r2, gui_dropdown_callback tY h GUI_WC_t.Click p1 = some r1 ∧
      gui_dropdown_callback r1.tY r1.h GUI_WC_t.FocusOut p2 = some r2 ∧
      r1.h = (open_close h 1).1 ∧ r2.h = (open_close (open_close h 1).1 0).1 := by
  have ho : is_opened (open_close h 1).1 = true := by
    simp [open_close_open_eq h hc, is_opened]
  refine ⟨ho, ?_, ?_, ?_, ?_, ?_⟩
  · exact (open_close_close_fields _ ho).2.1
  · rw [open_close_close_eq _ ho]
    simp [open_close_open_eq h hc, closed_state, closed_base]
  · rw [open_close_close_eq _ ho]
    simp [open_close_open_eq h hc, closed_state, closed_base]
  · rw [open_close_close_eq _ ho]
    simp [open_close_open_eq h hc, closed_state, closed_base]
  · refine ⟨⟨(open_close h 1).1, tY, false, false, 0, 1⟩,
      ⟨(open_close (open_close h 1).1 0).1, tY, false, false, 0, 1⟩, ?_, ?_, rfl, rfl⟩
    · simp [gui_dropdown_callback, hc]
    · simp [gui_dropdown_callback]

/-- Witness of C3 on the closed dropdown `dropdown_eight`. -/
theorem open_then_close_restores_witness :
    is_opened dropdown_eight = false ∧
    (open_close (open_close dropdown_eight 1).1 0).1.C.y = dropdown_eight.C.y ∧
    (open_close (open_close dropdown_eight 1).1 0).1.C.height = dropdown_eight.C.height :=
  ⟨by decide,
   (open_then_close_restores dropdown_eight 0 (touch_at 5) (touch_at 5) (by decide)).2.2.2.1,
   (open_then_close_restores dropdown_eight 0 (touch_at 5) (touch_at 5) (by decide)).2.2.2.2.1⟩

/-- C4: with `Count > entries_per_page` and no `int16_t` overflow,
`gui_dropdown_scroll(h, step)` leaves
`visiblestartindex = min(max(old + step, 0), Count - entries_per_page)`
(whatever the sign of the old start index). -/
theorem scroll_clamps (h : gui_dropdown_t) (step : Int)
    (hcount : h.Count > entries_per_page h)
    (hsum : in_int16 (h.visiblestartindex + step))
    (hpage : in_int16 (h.Count - entries_per_page h)) :
    (gui_dropdown_scroll h step).1.visiblestartindex
      = min (max (h.visiblestartindex + step) 0) (h.Count - entries_per_page h) := by
  unfold entries_per_page at *
  have hv : (gui_dropdown_scroll h step).1.visiblestartindex
      = (check_values
          { h with visiblestartindex := to_int16 (h.visiblestartindex + step) }).visiblestartindex := by
    unfold gui_dropdown_scroll
    simp only []
    split_ifs <;> rfl
  rw [hv, check_values_eq]
  simp only [checked_visible, nr_entries_pp_set_visible, to_int16_of_in _ hsum,
    to_int16_of_in _ hpage]
  split_ifs <;> omega

/-- Witness of C4: eight entries, page size 4, start 0; `scroll(+10)` gives 4. -/
theorem scroll_clamps_witness :
    (dropdown_eight.Count = 8 ∧ entries_per_page dropdown_eight = 4 ∧
      dropdown_eight.visiblestartindex = 0) ∧
    (gui_dropdown_scroll dropdown_eight 10).1.visiblestartindex = 4 :=
  ⟨by decide,
   (scroll_clamps dropdown_eight 10 (by decide) (by decide) (by decide)).trans (by decide)⟩

/-- C5 (the code departs from it): `gui_graph_zoom(h, z, fx, fy)` followed by
`gui_graph_zoom(h, 1/z, fx, fy)` is to return the visible window to its
original values.  In exact arithmetic, on the window `[-10, 10]` of a new
graph, zoom 2 at the centre gives the X window `[0, 5]` and the following zoom
1/2 at the centre gives `[-5/4, 105/16]`, not `[-10, 10]`. -/
theorem zoom_round_trip_fails :
    (graph_preinit 0 0 200 150).VisibleMinX = -10 ∧
    (graph_preinit 0 0 200 150).VisibleMaxX = 10 ∧
    (gui_graph_zoom (graph_preinit 0 0 200 150) 2 (1 / 2) (1 / 2)).1.VisibleMinX = 0 ∧
    (gui_graph_zoom (graph_preinit 0 0 200 150) 2 (1 / 2) (1 / 2)).1.VisibleMaxX = 5 ∧
    (gui_graph_zoom (gui_graph_zoom (graph_preinit 0 0 200 150) 2 (1 / 2) (1 / 2)).1
      (1 / 2) (1 / 2) (1 / 2)).1.VisibleMinX = -5 / 4 ∧
    (gui_graph_zoom (gui_graph_zoom (graph_preinit 0 0 200 150) 2 (1 / 2) (1 / 2)).1
      (1 / 2) (1 / 2) (1 / 2)).1.VisibleMaxX = 105 / 16 := by
  simp [gui_graph_zoom, graph_zoom, graph_preinit, gui_graph_callback, graph_reset]
  norm_num

/-- C6 as stated fails on the code: on a new graph after
`gui_graph_setminx(h, -3e38f)`, `gui_graph_setmaxx(h, 3e38f)` and
`gui_graph_zoomreset(h)` the visible bounds are the finite values `-3e38f` and
`3e38f`, the difference `VisibleMaxX - VisibleMinX` overflows to `+inf`,
`inf * (1.0f - 1.0f)` is `NaN`, and `gui_graph_zoom(h, 1.0f, 0.5, 0.5)` leaves
`VisibleMinX = VisibleMaxX = NaN`. -/
theorem zoom_one_overflow_counterexample :
    graph_wide_f32.VisibleMinX = f32.finite true 14791142 104 ∧
    graph_wide_f32.VisibleMaxX = f32.finite false 14791142 104 ∧
    f32_finite graph_wide_f32.VisibleMinX ∧ f32_finite graph_wide_f32.VisibleMaxX ∧
    f32_finite graph_wide_f32.VisibleMinY ∧ f32_finite graph_wide_f32.VisibleMaxY ∧
    f32_sub graph_wide_f32.VisibleMaxX graph_wide_f32.VisibleMinX = f32.inf false ∧
    (gui_graph_zoom_f32 graph_wide_f32 F32_ONE F32_HALF F32_HALF).1.VisibleMinX = f32.nan ∧
    (gui_graph_zoom_f32 graph_wide_f32 F32_ONE F32_HALF F32_HALF).1.VisibleMaxX = f32.nan := by
  decide

/-- C6, amended: on a graph whose four visible bounds are finite and whose
ranges `VisibleMaxX - VisibleMinX` and `VisibleMaxY - VisibleMinY` are finite
as computed in single precision (no overflow), `gui_graph_zoom` with factor
`1.0f` and any focus point other than `NaN` (in or out of `[0, 1]`, infinite
included) returns 1, leaves each of the four visible bounds equal (`==`) to
its old value, and leaves every other field as it was.  (A bound `-0.0` may
become `+0.0`, which is why the bounds are compared with `==`.) -/
theorem zoom_one_keeps_window (g : GUI_GRAPH_f32_t) (x y : f32)
    (hminx : f32_finite g.VisibleMinX) (hmaxx : f32_finite g.VisibleMaxX)
    (hminy : f32_finite g.VisibleMinY) (hmaxy : f32_finite g.VisibleMaxY)
    (hrx : f32_finite (f32_sub g.VisibleMaxX g.VisibleMinX))
    (hry : f32_finite (f32_sub g.VisibleMaxY g.VisibleMinY))
    (hx : x ≠ f32.nan) (hy : y ≠ f32.nan) :
    (gui_graph_zoom_f32 g F32_ONE x y).2 = 1 ∧
    f32_eq (gui_graph_zoom_f32 g F32_ONE x y).1.VisibleMinX g.VisibleMinX = true ∧
    f32_eq (gui_graph_zoom_f32 g F32_ONE x y).1.VisibleMaxX g.VisibleMaxX = true ∧
    f32_eq (gui_graph_zoom_f32 g F32_ONE x y).1.VisibleMinY g.VisibleMinY = true ∧
    f32_eq (gui_graph_zoom_f32 g F32_ONE x y).1.VisibleMaxY g.VisibleMaxY = true ∧
    { (gui_graph_zoom_f32 g F32_ONE x y).1 with
        VisibleMinX := g.VisibleMinX, VisibleMaxX := g.VisibleMaxX,
        VisibleMinY := g.VisibleMinY, VisibleMaxY := g.VisibleMaxY } = g := by
  have ax := zoom_one_axis g.VisibleMinX g.VisibleMaxX _ hminx hmaxx hrx (zoom_focus_unit x hx)
  have ay := zoom_one_axis g.VisibleMinY g.VisibleMaxY _ hminy hmaxy hry (zoom_focus_unit y hy)
  exact ⟨rfl, ax.1, ax.2, ay.1, ay.2, rfl⟩

/-- Witness of C6: a new graph of 200 by 150 pixels (window `[-10, 10]` on both
axes), zoomed by `1.0f` at the focus point `(3, 0.5)`, whose X coordinate is
outside `[0, 1]`. -/
theorem zoom_one_keeps_window_witness :
    (f32_finite (graph_preinit_f32 0 0 200 150).VisibleMinX ∧
      f32_finite (f32_sub (graph_preinit_f32 0 0 200 150).VisibleMaxX
        (graph_preinit_f32 0 0 200 150).VisibleMinX) ∧
      f32_of_int 3 ≠ f32.nan) ∧
    f32_eq (gui_graph_zoom_f32 (graph_preinit_f32 0 0 200 150) F32_ONE
        (f32_of_int 3) F32_HALF).1.VisibleMinX
      (f32_of_int (-10)) = true :=
  ⟨by decide,
   (zoom_one_keeps_window (graph_preinit_f32 0 0 200 150) (f32_of_int 3) F32_HALF
      (by decide) (by decide) (by decide) (by decide) (by decide) (by decide)
      (by decide) (by decide)).2.1⟩

/-- C7: with auto-invalidate enabled, after a series (attached to no graph
before) is attached to two graphs `A ≠ B`, an append invalidates `A` and `B`
and changes no other graph; after `gui_graph_detachdata(A, series)`, a further
append (in any world with the series' list as the detach left it) invalidates
`B` and leaves every other graph, `A` included, as it was. -/
theorem append_invalidates_attached (w : graph_world) (s A B : Nat) (x y : Int)
    (hAB : A ≠ B) (hfresh : (w.data s).Root = []) :
    let w1 := (gui_graph_attachdata true w A s true true).1
    let w2 := (gui_graph_attachdata true w1 B s true true).1
    let w3 := (gui_graph_data_addvalue true w2 s x y).1
    let w4 := (gui_graph_detachdata true w3 A s).1
    (w3.graphs A).C.invalid = true ∧ (w3.graphs B).C.invalid = true ∧
    (∀ h, h ≠ A → h ≠ B → w3.graphs h = w2.graphs h) ∧
    (∀ (v : graph_world) (x2 y2 : Int), v.data s = w4.data s →
      ((gui_graph_data_addvalue true v s x2 y2).1.graphs B).C.invalid = true ∧
      (gui_graph_data_addvalue true v s x2 y2).1.graphs A = v.graphs A ∧
      (∀ h, h ≠ B → (gui_graph_data_addvalue true v s x2 y2).1.graphs h = v.graphs h)) := by
  intro w1 w2 w3 w4
  have hr := attach_detach_roots w s A B hAB
  simp only [hfresh, List.nil_append, List.filter_nil] at hr
  obtain ⟨hr2, hr4⟩ := hr
  have hr4b : (w4.data s).Root = [B] := by
    have : (w3.data s).Root = (w2.data s).Root := by
      simp only [w3, addvalue_data]
      unfold data_addvalue
      cases (w2.data s).Type_ <;> simp only [] <;> split_ifs <;> rfl
    simp only [w4, gui_graph_detachdata, if_true, Function.update_same, this]
    simp only [w2, w1] at hr2 ⊢
    rw [hr2]
    simp [gui_linkedlist_multi_find_remove, hAB, Ne.symm hAB]
  refine ⟨?_, ?_, ?_, ?_⟩
  · simp only [w3, addvalue_graphs]
    simp only [w2, w1] at hr2 ⊢
    simp [hr2, guii_widget_invalidate]
  · simp only [w3, addvalue_graphs]
    simp only [w2, w1] at hr2 ⊢
    simp [hr2, guii_widget_invalidate]
  · intro h hA hB
    simp only [w3, addvalue_graphs]
    simp only [w2, w1] at hr2 ⊢
    simp [hr2, hA, hB]
  · intro v x2 y2 hv
    refine ⟨?_, ?_, ?_⟩
    · rw [addvalue_graphs, hv, hr4b]
      simp [guii_widget_invalidate]
    · rw [addvalue_graphs, hv, hr4b]
      simp [hAB]
    · intro h hB
      rw [addvalue_graphs, hv, hr4b]
      simp [hB]

/-- Witness of C7 in the world `world_plain`, series 0, graphs 1 and 2. -/
theorem append_invalidates_attached_witness :
    ((1 : Nat) ≠ 2 ∧ (world_plain.data 0).Root = []) ∧
    ((gui_graph_data_addvalue true
        (gui_graph_attachdata true (gui_graph_attachdata true world_plain 1 0 true true).1
          2 0 true true).1 0 0 7).1.graphs 1).C.invalid = true :=
  ⟨by decide, (append_invalidates_attached world_plain 0 1 2 0 7 (by decide) (by decide)).1⟩

/-- C8: on a dropdown with at least one entry and `-1 ≤ Selected < Count`, a
`KeyPress` of `GUI_KEY_DOWN` sets `Selected` to `min(Selected + 1, Count - 1)`
and one of `GUI_KEY_UP` to `max(Selected - 1, 0)`; the result lies in
`[0, Count - 1]`, and a `SelectionChanged` notification is issued exactly when
`Selected` changed. -/
theorem keypress_moves_selection (h : gui_dropdown_t) (tY : Int) (param : gui_widget_param_t)
    (hcount : 1 ≤ h.Count) (hrange : in_int16 h.Count)
    (hlo : -1 ≤ h.Selected) (hhi : h.Selected < h.Count) :
    (param.key = GUI_KEY_DOWN →
      ∃ r, gui_dropdown_callback tY h GUI_WC_t.KeyPress param = some r ∧
        r.h.Selected = min (h.Selected + 1) (h.Count - 1) ∧
        0 ≤ r.h.Selected ∧ r.h.Selected ≤ h.Count - 1 ∧
        r.h.C.callbacks = h.C.callbacks ++
          (if r.h.Selected ≠ h.Selected then [GUI_WC_t.SelectionChanged] else [])) ∧
    (param.key = GUI_KEY_UP →
      ∃ r, gui_dropdown_callback tY h GUI_WC_t.KeyPress param = some r ∧
        r.h.Selected = max (h.Selected - 1) 0 ∧
        0 ≤ r.h.Selected ∧ r.h.Selected ≤ h.Count - 1 ∧
        r.h.C.callbacks = h.C.callbacks ++
          (if r.h.Selected ≠ h.Selected then [GUI_WC_t.SelectionChanged] else [])) := by
  unfold in_int16 at hrange
  constructor
  · intro hk
    refine ⟨_, callback_key_down h tY param hk, ?_⟩
    have hs : (inc_selection h 1).Selected = min (h.Selected + 1) (h.Count - 1) := by
      rw [inc_selection_selected]
      by_cases c : h.Selected + 1 > h.Count - 1
      · have e : to_int16 (h.Count - 1) = h.Count - 1 :=
          to_int16_of_in _ (by unfold in_int16; omega)
        simp only [c, e, if_true]; norm_num; omega
      · have e : to_int16 (h.Selected + 1) = h.Selected + 1 :=
          to_int16_of_in _ (by unfold in_int16; omega)
        simp only [c, e, if_false]; norm_num; omega
    refine ⟨hs, ?_, ?_, inc_selection_callbacks h 1⟩
    · simp only [hs]; omega
    · simp only [hs]; omega
  · intro hk
    refine ⟨_, callback_key_up h tY param hk, ?_⟩
    have hs : (inc_selection h (-1)).Selected = max (h.Selected - 1) 0 := by
      rw [inc_selection_selected]
      by_cases c : h.Selected + -1 < 0
      · simp only [c, if_true]; norm_num; omega
      · have e : to_int16 (h.Selected + -1) = h.Selected - 1 :=
          to_int16_of_in _ (by unfold in_int16; omega)
        simp only [c, e, if_false]; norm_num; omega
    refine ⟨hs, ?_, ?_, inc_selection_callbacks h (-1)⟩
    · simp only [hs]; omega
    · simp only [hs]; omega

/-- Witness of C8: `GUI_KEY_DOWN` on eight entries with no selection. -/
theorem keypress_moves_selection_witness :
    (1 ≤ dropdown_eight.Count ∧ in_int16 dropdown_eight.Count ∧
      -1 ≤ dropdown_eight.Selected ∧ dropdown_eight.Selected < dropdown_eight.Count) ∧
    ∃ r, gui_dropdown_callback 0 dropdown_eight GUI_WC_t.KeyPress (key_press GUI_KEY_DOWN)
        = some r ∧ r.h.Selected = min (dropdown_eight.Selected + 1) (dropdown_eight.Count - 1) :=
  ⟨by decide,
   match (keypress_moves_selection dropdown_eight 0 (key_press GUI_KEY_DOWN)
      (by decide) (by decide) (by decide) (by decide)).1 rfl with
   | ⟨r, h1, h2, _⟩ => ⟨r, h1, h2⟩⟩

/-- C9: closing an opened dropdown (`open_close(h, 0)`) keeps the selection and,
with `entries_per_page ≥ 1` (the page size `open_close` reads after restoring
the height) and `0 ≤ Selected < Count`, leaves
`visiblestartindex ≤ Selected < visiblestartindex + entries_per_page`, with
`visiblestartindex = Selected` when `Selected + entries_per_page < Count` and
`max(0, Count - entries_per_page)` otherwise; with `Selected = -1` it leaves
`visiblestartindex = 0`.  When the opened height is four times the saved
height, as `open_close(h, 1)` leaves it, the page size is the same before and
after closing. -/
theorem close_keeps_selection_visible (h : gui_dropdown_t) (ho : is_opened h = true)
    (hrange : in_int16 h.Count) :
    (open_close h 0).2 = 1 ∧
    is_opened (open_close h 0).1 = false ∧
    (open_close h 0).1.Selected = h.Selected ∧
    (1 ≤ entries_per_page (open_close h 0).1 → 0 ≤ h.Selected → h.Selected < h.Count →
      (open_close h 0).1.visiblestartindex ≤ h.Selected ∧
      h.Selected < (open_close h 0).1.visiblestartindex + entries_per_page (open_close h 0).1 ∧
      (h.Selected + entries_per_page (open_close h 0).1 < h.Count →
        (open_close h 0).1.visiblestartindex = h.Selected) ∧
      (¬ h.Selected + entries_per_page (open_close h 0).1 < h.Count →
        (open_close h 0).1.visiblestartindex
          = max 0 (h.Count - entries_per_page (open_close h 0).1))) ∧
    (h.Selected = -1 → (open_close h 0).1.visiblestartindex = 0) ∧
    (h.C.height = 4 * h.OldHeight →
      entries_per_page (open_close h 0).1 = entries_per_page h) := by
  obtain ⟨h1, h2, h3, _⟩ := open_close_close_fields h ho
  refine ⟨h1, h2, h3, ?_, ?_, ?_⟩
  · rw [open_close_close_eq h ho]
    simp only [entries_per_page, nr_entries_pp_closed_state]
    have hpr := in_int16_nr_entries_pp (closed_base h)
    have hv : (closed_state h).visiblestartindex
        = close_start h (nr_entries_pp (closed_base h)) := rfl
    rw [hv]
    generalize nr_entries_pp (closed_base h) = pp at hpr ⊢
    intro hp1 hs0 hs1
    unfold in_int16 at hrange hpr
    have e : to_int16 (h.Count - pp) = h.Count - pp :=
      to_int16_of_in _ (by unfold in_int16; omega)
    unfold close_start
    simp only [e]
    have hne : ¬ h.Selected = -1 := by omega
    simp only [hne, if_false]
    refine ⟨?_, ?_, ?_, ?_⟩
    · split_ifs <;> omega
    · split_ifs <;> omega
    · intro c; split_ifs <;> omega
    · intro c; split_ifs <;> omega
  · intro hs
    rw [open_close_close_eq h ho]
    simp [closed_state, close_start, hs]
  · intro hh
    rw [open_close_close_eq h ho]
    simp only [entries_per_page, nr_entries_pp_closed_state]
    exact nr_entries_pp_opened_eq h ho hh

/-- Witness of C9: eight entries, four per page, entry 6 selected. -/
theorem close_keeps_selection_visible_witness :
    (is_opened dropdown_eight_opened = true ∧ in_int16 dropdown_eight_opened.Count) ∧
    (open_close dropdown_eight_opened 0).1.Selected = dropdown_eight_opened.Selected ∧
    (open_close dropdown_eight_opened 0).1.visiblestartindex = 4 :=
  ⟨by decide,
   (close_keeps_selection_visible dropdown_eight_opened (by decide) (by decide)).2.2.1,
   (((close_keeps_selection_visible dropdown_eight_opened (by decide) (by decide)).2.2.2.1
      (by decide) (by decide) (by decide)).2.2.2 (by decide)).trans (by decide)⟩

/-- C10 as stated fails on the code at two inputs (strip `0 ≤ RelY ≤ 14`, item
height 20, opening down).  (1) On the opened empty dropdown with
`Selected = 0`, a click at `RelY = 20` has the index `0 + (20 - 14) / 20 = 0`,
not below `Count = 0`, yet `Selected` becomes `-1`.  (2) On the opened
dropdown with five entries and `visiblestartindex = 1`, a click at
`RelY = -6` has the index `1 + (-6 - 14) / 20 = 0 < Count`, yet `Selected`
stays `-1`. -/
theorem click_outside_strip_counterexample :
    (is_opened dropdown_empty_opened = true ∧
      ¬ in_strip dropdown_empty_opened (touch_at 20).touch.RelY0 ∧
      dropdown_empty_opened.Count = 0 ∧ dropdown_empty_opened.Selected = 0 ∧
      clicked_index_spec dropdown_empty_opened { size := 16 } (touch_at 20).touch.RelY0 = 0 ∧
      (process_click dropdown_empty_opened (touch_at 20).touch).map (fun r => r.Selected)
        = some (-1)) ∧
    (is_opened dropdown_five_opened = true ∧
      ¬ in_strip dropdown_five_opened (touch_at (-6)).touch.RelY0 ∧
      dropdown_five_opened.Count = 5 ∧ dropdown_five_opened.Selected = -1 ∧
      clicked_index_spec dropdown_five_opened { size := 16 } (touch_at (-6)).touch.RelY0 = 0 ∧
      (process_click dropdown_five_opened (touch_at (-6)).touch).map (fun r => r.Selected)
        = some (-1)) := by
  decide

set_option linter.unusedVariables false in
/-- C10, amended: on an opened dropdown with a font of positive item height, a
`Click` whose relative Y lies outside the selected-row strip closes the
dropdown; the clicked index is `visiblestartindex` plus the quotient
`(RelY - strip_height) / item_height` (opening down) or `RelY / item_height`
(opening up) converted to `uint16_t` (the quotient itself whenever it is
between 0 and 65535); if that index is `< Count`, `Selected` becomes that
index, otherwise `Selected` is unchanged provided it was negative or below
`Count`. -/
theorem click_outside_strip (h : gui_dropdown_t) (tY : Int) (param : gui_widget_param_t)
    (f : GUI_FONT_t) (ho : is_opened h = true) (hf : h.C.font = some f)
    (hih : 0 < item_height f) (hout : ¬ in_strip h param.touch.RelY0)
    (hc : in_int16 h.Count) (hv : in_int16 h.visiblestartindex) :
    ∃ r, gui_dropdown_callback tY h GUI_WC_t.Click param = some r ∧
      process_click h param.touch = some r.h ∧
      is_opened r.h = false ∧
      (clicked_index h f param.touch.RelY0 < h.Count →
        r.h.Selected = clicked_index h f param.touch.RelY0) ∧
      (¬ clicked_index h f param.touch.RelY0 < h.Count →
        (h.Selected < 0 ∨ h.Selected < h.Count) → r.h.Selected = h.Selected) ∧
      (0 ≤ clicked_quotient h f param.touch.RelY0 →
        clicked_quotient h f param.touch.RelY0 < 65536 →
        clicked_index h f param.touch.RelY0 = clicked_index_spec h f param.touch.RelY0) := by
  have hp := process_click_outside h param.touch f ho hf hout
  refine ⟨⟨(open_close (check_values
        (if clicked_index h f param.touch.RelY0 < h.Count then
          { (set_selection h (to_int16 (clicked_index h f param.touch.RelY0))) with
            C := guii_widget_invalidate
              (set_selection h (to_int16 (clicked_index h f param.touch.RelY0))).C }
         else h)) 0).1, tY, false, false, 0, 1⟩,
    by simp only [gui_dropdown_callback, ho, Bool.not_true, Bool.false_eq_true,
      if_false, hp, Option.map_some'], hp, ?_⟩
  simp only []
  generalize hh1 : (if clicked_index h f param.touch.RelY0 < h.Count then
          { (set_selection h (to_int16 (clicked_index h f param.touch.RelY0))) with
            C := guii_widget_invalidate
              (set_selection h (to_int16 (clicked_index h f param.touch.RelY0))).C }
         else h) = h1
  have ho1 : is_opened h1 = true := by
    rw [← hh1]; split_ifs
    · simpa [is_opened] using ho
    · exact ho
  have ho2 : is_opened (check_values h1) = true := by rw [is_opened_check_values]; exact ho1
  obtain ⟨_, hcl, hsel, _, _, _⟩ := open_close_close_fields _ ho2
  rw [hsel, check_values_selected]
  refine ⟨hcl, ?_, ?_, ?_⟩
  · intro hlt
    have hge : h.visiblestartindex ≤ clicked_index h f param.touch.RelY0 := by
      unfold clicked_index to_uint16; omega
    have e : to_int16 (clicked_index h f param.touch.RelY0) = clicked_index h f param.touch.RelY0 := by
      apply to_int16_of_in; unfold in_int16 at *; omega
    rw [← hh1]
    simp only [hlt, if_true, e]
    unfold checked_selected
    simp only [set_selection_selected, set_selection_count]
    split_ifs <;> omega
  · intro hge hs
    rw [← hh1]
    simp only [hge, if_false]
    unfold checked_selected
    split_ifs <;> omega
  · intro h0 h1
    unfold clicked_index clicked_index_spec to_uint16
    omega

/-- Witness of C10, amended: five entries, start index 1, click at
`RelY = 40`: index `1 + (40 - 14) / 20 = 2` is selected. -/
theorem click_outside_strip_witness :
    (is_opened dropdown_five_opened = true ∧
      dropdown_five_opened.C.font = some { size := 16 } ∧
      0 < item_height { size := 16 } ∧
      ¬ in_strip dropdown_five_opened (touch_at 40).touch.RelY0 ∧
      in_int16 dropdown_five_opened.Count ∧ in_int16 dropdown_five_opened.visiblestartindex) ∧
    ∃ r, gui_dropdown_callback 0 dropdown_five_opened GUI_WC_t.Click (touch_at 40) = some r ∧
      is_opened r.h = false ∧ r.h.Selected = 2 :=
  ⟨by decide,
   match click_outside_strip dropdown_five_opened 0 (touch_at 40) { size := 16 }
      (by decide) (by decide) (by decide) (by decide) (by decide) (by decide) with
   | ⟨r, h1, _, h3, h4, _⟩ => ⟨r, h1, h3, (h4 (by decide)).trans (by decide)⟩⟩

/-- C11: on an opened dropdown, a `Click` whose relative Y lies within the
selected-row strip closes the dropdown, leaves `Selected` (and `Count` and the
entries) unchanged and issues no `SelectionChanged` notification. -/
theorem click_in_strip_closes (h : gui_dropdown_t) (tY : Int) (param : gui_widget_param_t)
    (ho : is_opened h = true) (hin : in_strip h param.touch.RelY0) :
    ∃ r, gui_dropdown_callback tY h GUI_WC_t.Click param = some r ∧
      process_click h param.touch = some r.h ∧
      is_opened r.h = false ∧ r.h.Selected = h.Selected ∧
      r.h.C.callbacks = h.C.callbacks ∧ r.h.Count = h.Count ∧ r.h.Root = h.Root := by
  have hp : process_click h param.touch = some (open_close h 0).1 := by
    unfold in_strip at hin
    unfold process_click
    simp only [ho, Bool.not_true, Bool.false_eq_true, if_false, hin, and_self, if_true]
  obtain ⟨_, h2, h3, h4, h5, h6⟩ := open_close_close_fields h ho
  exact ⟨⟨(open_close h 0).1, tY, false, false, 0, 1⟩,
    by simp only [gui_dropdown_callback, ho, Bool.not_true, Bool.false_eq_true, if_false, hp,
      Option.map_some'], hp, h2, h3, h5, h4, h6⟩

/-- Witness of C11: click at `RelY = 7` on the strip `0 ≤ RelY ≤ 14`. -/
theorem click_in_strip_closes_witness :
    (is_opened dropdown_five_opened = true ∧
      in_strip dropdown_five_opened (touch_at 7).touch.RelY0) ∧
    ∃ r, gui_dropdown_callback 0 dropdown_five_opened GUI_WC_t.Click (touch_at 7) = some r ∧
      is_opened r.h = false ∧ r.h.Selected = dropdown_five_opened.Selected :=
  ⟨by decide,
   match click_in_strip_closes dropdown_five_opened 0 (touch_at 7) (by decide) (by decide) with
   | ⟨r, h1, _, h3, h4, _⟩ => ⟨r, h1, h3, h4⟩⟩

/-- C12: on a closed dropdown with `y = Y` and `height = H`, a `Click` sets the
opened flag, saves `OldY = Y` and `OldHeight = H`, sets the height to `4 * H`
and `y` to `Y` when the open direction is down and to `Y - 3 * H` when it is
up; `x` and `width` are unchanged. -/
theorem click_opens (h : gui_dropdown_t) (tY : Int) (param : gui_widget_param_t)
    (hc : is_opened h = false) :
    ∃ r, gui_dropdown_callback tY h GUI_WC_t.Click param = some r ∧
      r.h = (open_close h 1).1 ∧ r.ret = 1 ∧
      is_opened r.h = true ∧ r.h.OldY = h.C.y ∧ r.h.OldHeight = h.C.height ∧
      r.h.C.height = 4 * h.C.height ∧
      (is_dir_up h = false → r.h.C.y = h.C.y) ∧
      (is_dir_up h = true → r.h.C.y = h.C.y - 3 * h.C.height) ∧
      r.h.C.x = h.C.x ∧ r.h.C.width = h.C.width ∧ is_dir_up r.h = is_dir_up h := by
  refine ⟨⟨(open_close h 1).1, tY, false, false, 0, 1⟩, ?_, rfl, rfl, ?_⟩
  · simp [gui_dropdown_callback, hc]
  · show is_opened (open_close h 1).1 = true ∧ _
    rw [open_close_open_eq h hc]
    refine ⟨by simp [is_opened], rfl, rfl, rfl, ?_, ?_, rfl, rfl, by simp [is_dir_up]⟩
    · intro hd; simp [hd]
    · intro hd; simp [hd]

/-- Witness of C12 on the closed dropdown `dropdown_eight` (height 28). -/
theorem click_opens_witness :
    is_opened dropdown_eight = false ∧
    ∃ r, gui_dropdown_callback 0 dropdown_eight GUI_WC_t.Click (touch_at 5) = some r ∧
      is_opened r.h = true ∧ r.h.C.height = 4 * dropdown_eight.C.height :=
  ⟨by decide,
   match click_opens dropdown_eight 0 (touch_at 5) (by decide) with
   | ⟨r, h1, _, _, h4, _, _, h7, _⟩ => ⟨r, h1, h4, h7⟩⟩

/-- C13: the `FocusOut` command leaves the dropdown closed with `Selected`
unchanged.  On an opened dropdown it clears the opened flag, restores `y` and
`height` from `OldY` / `OldHeight` and sets `visiblestartindex` from the
selection it found (`close_start`: 0 for no selection, else the selection, or
`Count - entries_per_page` clamped at 0 when the selection is on the last
page); on a closed dropdown the widget is returned as it was. -/
theorem focus_out_closes (h : gui_dropdown_t) (tY : Int) (param : gui_widget_param_t) :
    ∃ r, gui_dropdown_callback tY h GUI_WC_t.FocusOut param = some r ∧
      is_opened r.h = false ∧ r.h.Selected = h.Selected ∧
      (is_opened h = true →
        r.h.Flags = flag_clear h.Flags GUI_FLAG_DROPDOWN_OPENED ∧
        r.h.C.y = h.OldY ∧ r.h.C.height = h.OldHeight ∧
        r.h.visiblestartindex = close_start h (entries_per_page r.h) ∧
        r.h.Count = h.Count ∧ r.h.Root = h.Root ∧ r.h.C.callbacks = h.C.callbacks) ∧
      (is_opened h = false → r.h = h) := by
  refine ⟨⟨(open_close h 0).1, tY, false, false, 0, 1⟩, by simp [gui_dropdown_callback], ?_⟩
  simp only []
  cases ho : is_opened h
  · have e : open_close h 0 = (h, 0) := by
      have ho2 := ho
      simp only [is_opened, flag_test_opened] at ho2
      simp [open_close, is_opened, ho2]
    rw [e]
    simp [ho]
  · obtain ⟨_, h2, h3, h4, h5, h6⟩ := open_close_close_fields h ho
    refine ⟨h2, h3, ?_, by simp⟩
    intro _
    refine ⟨?_, ?_, ?_, ?_, h4, h6, h5⟩
    · rw [open_close_close_eq h ho]; rfl
    · rw [open_close_close_eq h ho]; rfl
    · rw [open_close_close_eq h ho]; rfl
    · rw [open_close_close_eq h ho]; rfl

/-- Witness of C13 on the opened dropdown `dropdown_eight_opened`. -/
theorem focus_out_closes_witness :
    is_opened dropdown_eight_opened = true ∧
    ∃ r, gui_dropdown_callback 0 dropdown_eight_opened GUI_WC_t.FocusOut (touch_at 0) = some r ∧
      is_opened r.h = false ∧ r.h.Selected = dropdown_eight_opened.Selected :=
  ⟨by decide,
   match focus_out_closes dropdown_eight_opened 0 (touch_at 0) with
   | ⟨r, h1, h2, h3, _⟩ => ⟨r, h1, h2, h3⟩⟩

/-- C14: on a dropdown (entry list of `Count` entries) with
`0 ≤ Selected < Count`, `gui_dropdown_deletestring(h, Selected)` returns 1,
decreases `Count` by one, removes the selected entry and sets `Selected` to
`-1`, issuing one `SelectionChanged` notification. -/
theorem delete_selected_clears_selection (h : gui_dropdown_t)
    (hl : h.Count = h.Root.length) (hr : in_int16 h.Count)
    (h0 : 0 ≤ h.Selected) (h1 : h.Selected < h.Count) :
    (gui_dropdown_deletestring h h.Selected).2 = 1 ∧
    (gui_dropdown_deletestring h h.Selected).1.Count = h.Count - 1 ∧
    (gui_dropdown_deletestring h h.Selected).1.Selected = -1 ∧
    (gui_dropdown_deletestring h h.Selected).1.Root = h.Root.eraseIdx h.Selected.toNat ∧
    (gui_dropdown_deletestring h h.Selected).1.C.callbacks
      = h.C.callbacks ++ [GUI_WC_t.SelectionChanged] := by
  unfold in_int16 at hr
  have e : to_int16 (h.Count - 1) = h.Count - 1 :=
    to_int16_of_in _ (by unfold in_int16; omega)
  have hne : ¬ (-1 : Int) = h.Selected := by omega
  unfold gui_dropdown_deletestring
  rw [delete_item_some h h.Selected _ (get_item_of_lt h h.Selected hl h0 h1)]
  simp only [if_true, e]
  refine ⟨trivial, ?_, ?_, ?_, ?_⟩
  · simp [check_values_count]
  · simp [check_values_selected, checked_selected]
  · simp only [check_values_root]
    unfold set_selection
    split_ifs <;> rfl
  · simp only [guii_widget_invalidate, check_values_callbacks, set_selection_callbacks]
    simp [checked_selected, hne]

/-- Witness of C14: entry 6 of eight selected and deleted. -/
theorem delete_selected_clears_selection_witness :
    ((gui_dropdown_setselection dropdown_eight 6).1.Count
        = (gui_dropdown_setselection dropdown_eight 6).1.Root.length ∧
      in_int16 (gui_dropdown_setselection dropdown_eight 6).1.Count ∧
      (gui_dropdown_setselection dropdown_eight 6).1.Selected = 6) ∧
    (gui_dropdown_deletestring (gui_dropdown_setselection dropdown_eight 6).1
      (gui_dropdown_setselection dropdown_eight 6).1.Selected).1.Selected = -1 :=
  ⟨by decide,
   (delete_selected_clears_selection (gui_dropdown_setselection dropdown_eight 6).1
      (by decide) (by decide) (by decide) (by decide)).2.2.1⟩

/-- C15: on a dropdown (entry list of `Count` entries) with `Selected = -1`
and `visiblestartindex = 0`, deleting the entry at any `index < Count` returns
1, decreases `Count` by exactly one, removes exactly that entry from the list
(the others keep their order) and leaves `Selected = -1` and
`visiblestartindex = 0`, with no notification. -/
theorem delete_unselected_keeps_view (h : gui_dropdown_t) (index : Int)
    (hl : h.Count = h.Root.length) (hr : in_int16 h.Count)
    (hs : h.Selected = -1) (hv : h.visiblestartindex = 0)
    (h0 : 0 ≤ index) (h1 : index < h.Count) :
    (gui_dropdown_deletestring h index).2 = 1 ∧
    (gui_dropdown_deletestring h index).1.Count = h.Count - 1 ∧
    (gui_dropdown_deletestring h index).1.Root = h.Root.eraseIdx index.toNat ∧
    (gui_dropdown_deletestring h index).1.Selected = -1 ∧
    (gui_dropdown_deletestring h index).1.visiblestartindex = 0 ∧
    (gui_dropdown_deletestring h index).1.C.callbacks = h.C.callbacks := by
  unfold in_int16 at hr
  have e : to_int16 (h.Count - 1) = h.Count - 1 :=
    to_int16_of_in _ (by unfold in_int16; omega)
  have hne : ¬ h.Selected = index := by omega
  unfold gui_dropdown_deletestring
  rw [delete_item_some h index _ (get_item_of_lt h index hl h0 h1)]
  simp only [hne, if_false, e]
  refine ⟨trivial, ?_, ?_, ?_, ?_, ?_⟩
  · simp [check_values_count]
  · simp [check_values_root]
  · simp [check_values_selected, checked_selected, hs]
  · simp [check_values_visible, checked_visible, hv]
  · simp [guii_widget_invalidate, check_values_callbacks, checked_selected, hs]

/-- Witness of C15: deleting index 0 of 3 gives `Count = 2`. -/
theorem delete_unselected_keeps_view_witness :
    ((add_strings dropdown_small [100, 101, 102]).Count = 3 ∧
      (add_strings dropdown_small [100, 101, 102]).Selected = -1 ∧
      (add_strings dropdown_small [100, 101, 102]).visiblestartindex = 0) ∧
    (gui_dropdown_deletestring (add_strings dropdown_small [100, 101, 102]) 0).1.Count = 2 ∧
    (gui_dropdown_deletestring (add_strings dropdown_small [100, 101, 102]) 0).1.Root
      = [101, 102] ∧
    (gui_dropdown_deletestring (add_strings dropdown_small [100, 101, 102]) 0).1.Selected = -1 ∧
    (gui_dropdown_deletestring (add_strings dropdown_small [100, 101, 102]) 0).1.visiblestartindex
      = 0 :=
  ⟨by decide,
   ((delete_unselected_keeps_view (add_strings dropdown_small [100, 101, 102]) 0
      (by decide) (by decide) (by decide) (by decide) (by decide) (by decide)).2.1).trans
      (by decide),
   ((delete_unselected_keeps_view (add_strings dropdown_small [100, 101, 102]) 0
      (by decide) (by decide) (by decide) (by decide) (by decide) (by decide)).2.2.1).trans
      (by decide),
   (delete_unselected_keeps_view (add_strings dropdown_small [100, 101, 102]) 0
      (by decide) (by decide) (by decide) (by decide) (by decide) (by decide)).2.2.2.1,
   (delete_unselected_keeps_view (add_strings dropdown_small [100, 101, 102]) 0
      (by decide) (by decide) (by decide) (by decide) (by decide) (by decide)).2.2.2.2.1⟩

/-- C16: for every index `≥ Count`, `gui_dropdown_deletestring(h, index)`
returns 0 and leaves the whole dropdown state unchanged; on an empty dropdown
(`Count = 0`) `gui_dropdown_deletefirststring` and
`gui_dropdown_deletelaststring` return 0 and change nothing. -/
theorem delete_out_of_range_is_noop (h : gui_dropdown_t) :
    (∀ index : Int, index ≥ h.Count → gui_dropdown_deletestring h index = (h, 0)) ∧
    (h.Count = 0 → gui_dropdown_deletefirststring h = (h, 0)) ∧
    (h.Count = 0 → gui_dropdown_deletelaststring h = (h, 0)) := by
  refine ⟨?_, ?_, ?_⟩
  · intro index hi
    exact delete_item_none h index (get_item_of_ge h index hi)
  · intro hc
    exact delete_item_none h 0 (get_item_of_ge h 0 (by omega))
  · intro hc
    exact delete_item_none h _ (get_item_of_ge h _ (by rw [hc]; decide))

/-- Witness of C16: index 3 of three entries, and the empty `dropdown_small`. -/
theorem delete_out_of_range_is_noop_witness :
    ((3 : Int) ≥ (add_strings dropdown_small [100, 101, 102]).Count ∧ dropdown_small.Count = 0) ∧
    gui_dropdown_deletestring (add_strings dropdown_small [100, 101, 102]) 3
      = (add_strings dropdown_small [100, 101, 102], 0) ∧
    gui_dropdown_deletefirststring dropdown_small = (dropdown_small, 0) ∧
    gui_dropdown_deletelaststring dropdown_small = (dropdown_small, 0) :=
  ⟨by decide,
   (delete_out_of_range_is_noop (add_strings dropdown_small [100, 101, 102])).1 3 (by decide),
   (delete_out_of_range_is_noop dropdown_small).2.1 (by decide),
   (delete_out_of_range_is_noop dropdown_small).2.2 (by decide)⟩

/-- C17 as stated fails on the code: on `dropdown_slider_stale` (slider-auto
mode, three entries on a page of two, slider-on flag clear)
`gui_dropdown_addstring` with a failing allocation returns 0 and leaves the
slider-on flag clear although `Count > entries_per_page`. -/
theorem slider_auto_counterexample :
    flag_test dropdown_slider_stale.Flags GUI_FLAG_DROPDOWN_SLIDER_AUTO = true ∧
    (gui_dropdown_addstring dropdown_slider_stale 103 false).2 = 0 ∧
    (gui_dropdown_addstring dropdown_slider_stale 103 false).1.Count = 3 ∧
    entries_per_page (gui_dropdown_addstring dropdown_slider_stale 103 false).1 = 2 ∧
    flag_test (gui_dropdown_addstring dropdown_slider_stale 103 false).1.Flags
      GUI_FLAG_DROPDOWN_SLIDER_ON = false ∧
    ¬ slider_consistent (gui_dropdown_addstring dropdown_slider_stale 103 false).1 := by
  decide

/-- C17, amended: for every dropdown in slider-auto mode, after
`gui_dropdown_addstring` with a successful allocation, after a successful
`gui_dropdown_deletestring`, after `gui_dropdown_scroll` and after
`gui_dropdown_setselection`, the slider-on flag is set if and only if
`Count > entries_per_page`. -/
theorem slider_auto_follows_count (h : gui_dropdown_t)
    (ha : flag_test h.Flags GUI_FLAG_DROPDOWN_SLIDER_AUTO = true) :
    (∀ text, slider_consistent (gui_dropdown_addstring h text true).1) ∧
    (∀ index, (gui_dropdown_deletestring h index).2 = 1 →
      slider_consistent (gui_dropdown_deletestring h index).1) ∧
    (∀ step, slider_consistent (gui_dropdown_scroll h step).1) ∧
    (∀ s, slider_consistent (gui_dropdown_setselection h s).1) := by
  refine ⟨?_, ?_, ?_, ?_⟩
  · intro text
    rw [addstring_ok_eq, slider_consistent_invalidate]
    exact (slider_consistent_check_values
      { h with Root := h.Root ++ [text], Count := to_int16 (h.Count + 1) } ha).1
  · intro index hr
    obtain ⟨x, hx, he⟩ := delete_item_result h index hr
    unfold gui_dropdown_deletestring
    rw [he, slider_consistent_invalidate]
    exact (slider_consistent_check_values x (by rw [hx]; exact ha)).1
  · intro step
    rcases scroll_result h step with e | e
    · rw [e]
      exact (slider_consistent_check_values
        { h with visiblestartindex := to_int16 (h.visiblestartindex + step) } ha).1
    · rw [e, slider_consistent_invalidate]
      exact (slider_consistent_check_values
        { h with visiblestartindex := to_int16 (h.visiblestartindex + step) } ha).1
  · intro s
    unfold gui_dropdown_setselection
    simp only []
    rw [slider_consistent_invalidate]
    exact (slider_consistent_check_values (set_selection h s) (by simpa using ha)).1

/-- Witness of C17, amended, on `dropdown_slider_stale`: a scroll by 0 sets the
slider-on flag. -/
theorem slider_auto_follows_count_witness :
    flag_test dropdown_slider_stale.Flags GUI_FLAG_DROPDOWN_SLIDER_AUTO = true ∧
    slider_consistent (gui_dropdown_scroll dropdown_slider_stale 0).1 ∧
    slider_consistent (gui_dropdown_addstring dropdown_slider_stale 103 true).1 :=
  ⟨by decide,
   (slider_auto_follows_count dropdown_slider_stale (by decide)).2.2.1 0,
   (slider_auto_follows_count dropdown_slider_stale (by decide)).1 103⟩

/-- C18: `gui_dropdown_setslidervisibility(h, visible)` on a dropdown in
slider-auto mode returns 0 and changes nothing; on a dropdown in manual mode
the slider-on flag is afterwards set if and only if `visible` is non-zero, the
opened, slider-auto and open-up flags are as before, and so are the entries,
`Count`, `Selected` and `visiblestartindex`. -/
theorem slider_visibility_manual_only (h : gui_dropdown_t) (visible : Nat) :
    (flag_test h.Flags GUI_FLAG_DROPDOWN_SLIDER_AUTO = true →
      gui_dropdown_setslidervisibility h visible = (h, 0)) ∧
    (flag_test h.Flags GUI_FLAG_DROPDOWN_SLIDER_AUTO = false →
      (flag_test (gui_dropdown_setslidervisibility h visible).1.Flags
          GUI_FLAG_DROPDOWN_SLIDER_ON = true ↔ visible ≠ 0) ∧
      flag_test (gui_dropdown_setslidervisibility h visible).1.Flags GUI_FLAG_DROPDOWN_OPENED
        = flag_test h.Flags GUI_FLAG_DROPDOWN_OPENED ∧
      flag_test (gui_dropdown_setslidervisibility h visible).1.Flags
          GUI_FLAG_DROPDOWN_SLIDER_AUTO = false ∧
      flag_test (gui_dropdown_setslidervisibility h visible).1.Flags GUI_FLAG_DROPDOWN_OPEN_UP
        = flag_test h.Flags GUI_FLAG_DROPDOWN_OPEN_UP ∧
      (gui_dropdown_setslidervisibility h visible).1.Root = h.Root ∧
      (gui_dropdown_setslidervisibility h visible).1.Count = h.Count ∧
      (gui_dropdown_setslidervisibility h visible).1.Selected = h.Selected ∧
      (gui_dropdown_setslidervisibility h visible).1.visiblestartindex
        = h.visiblestartindex) := by
  constructor
  · intro ha
    simp only [flag_test_slider_auto] at ha
    simp [gui_dropdown_setslidervisibility, ha]
  · intro ha
    simp only [flag_test_slider_auto] at ha
    unfold gui_dropdown_setslidervisibility
    by_cases hv : visible = 0 <;> cases hon : flag_bit h.Flags 1 <;>
      simp [ha, hv, hon]

/-- Witness of C18: the automatic-mode dropdown `dropdown_eight`, and the same
dropdown switched to manual mode. -/
theorem slider_visibility_manual_only_witness :
    (flag_test dropdown_eight.Flags GUI_FLAG_DROPDOWN_SLIDER_AUTO = true ∧
      flag_test (gui_dropdown_setsliderauto dropdown_eight 0).1.Flags
        GUI_FLAG_DROPDOWN_SLIDER_AUTO = false) ∧
    gui_dropdown_setslidervisibility dropdown_eight 0 = (dropdown_eight, 0) ∧
    (flag_test (gui_dropdown_setslidervisibility
        (gui_dropdown_setsliderauto dropdown_eight 0).1 0).1.Flags
      GUI_FLAG_DROPDOWN_SLIDER_ON = true ↔ (0 : Nat) ≠ 0) :=
  ⟨by decide,
   (slider_visibility_manual_only dropdown_eight 0).1 (by decide),
   ((slider_visibility_manual_only (gui_dropdown_setsliderauto dropdown_eight 0).1 0).2
      (by decide)).1⟩

/-- C19: on a dropdown with `Count ≥ 0`, `gui_dropdown_getselection` after
`gui_dropdown_setselection(h, s)` returns `s` for every `s` with
`-1 ≤ s < Count`, and `Count - 1` for every `s ≥ Count`. -/
theorem setselection_then_get (h : gui_dropdown_t) (s : Int)
    (hc : 0 ≤ h.Count) (hr : in_int16 h.Count) :
    (gui_dropdown_setselection h s).2 = 1 ∧
    (-1 ≤ s → s < h.Count →
      gui_dropdown_getselection (gui_dropdown_setselection h s).1 = s) ∧
    (s ≥ h.Count →
      gui_dropdown_getselection (gui_dropdown_setselection h s).1 = h.Count - 1) := by
  unfold in_int16 at hr
  have e : to_int16 (h.Count - 1) = h.Count - 1 :=
    to_int16_of_in _ (by unfold in_int16; omega)
  have hs : gui_dropdown_getselection (gui_dropdown_setselection h s).1
      = checked_selected (set_selection h s) := by
    unfold gui_dropdown_getselection gui_dropdown_setselection
    simp only [check_values_selected]
  rw [hs]
  unfold checked_selected
  simp only [set_selection_selected, set_selection_count, e]
  refine ⟨rfl, ?_, ?_⟩
  · intro h1 h2; split_ifs <;> omega
  · intro h1; split_ifs <;> omega

/-- Witness of C19 on eight entries: selection 6 is read back as 6, selection
12 as 7. -/
theorem setselection_then_get_witness :
    (0 ≤ dropdown_eight.Count ∧ in_int16 dropdown_eight.Count ∧ dropdown_eight.Count = 8) ∧
    gui_dropdown_getselection (gui_dropdown_setselection dropdown_eight 6).1 = 6 ∧
    gui_dropdown_getselection (gui_dropdown_setselection dropdown_eight 12).1 = 7 :=
  ⟨by decide,
   (setselection_then_get dropdown_eight 6 (by decide) (by decide)).2.1 (by decide) (by decide),
   ((setselection_then_get dropdown_eight 12 (by decide) (by decide)).2.2 (by decide)).trans
      (by decide)⟩

/-- C20 as stated fails on the code: on a dropdown holding 32767 entries a
successful `gui_dropdown_addstring` returns 1 and appends the entry, but the
`int16_t` counter wraps: `Count` becomes `-32768`, not `32768`. -/
theorem addstring_counterexample :
    dropdown_full.Count = dropdown_full.Root.length ∧
    (dropdown_full.Count = 32767 ∧ dropdown_full.Selected = -1 ∧
      (gui_dropdown_addstring dropdown_full 100 true).2 = 1 ∧
      (gui_dropdown_addstring dropdown_full 100 true).1.Count = -32768 ∧
      (gui_dropdown_addstring dropdown_full 100 true).1.Count ≠ dropdown_full.Count + 1) := by
  constructor
  · have hr : dropdown_full.Root = List.replicate 32767 100 := rfl
    have hc : dropdown_full.Count = 32767 := rfl
    rw [hc, hr, List.length_replicate]
    rfl
  · decide

/-- C20, amended: `gui_dropdown_addstring` returns 0 and leaves the dropdown
unchanged when the entry allocation fails; when it succeeds it returns 1 and
places the new text as the last entry (the existing entries and their order
unchanged), and, when `Count` is below 32767 (the counter does not overflow),
it increases `Count` by exactly one and leaves `Selected` unchanged whenever
`Selected` was `-1` or `< Count`. -/
theorem addstring_appends (h : gui_dropdown_t) (text : Nat) :
    gui_dropdown_addstring h text false = (h, 0) ∧
    (gui_dropdown_addstring h text true).2 = 1 ∧
    (gui_dropdown_addstring h text true).1.Root = h.Root ++ [text] ∧
    (in_int16 h.Count → h.Count < 32767 →
      (gui_dropdown_addstring h text true).1.Count = h.Count + 1 ∧
      (h.Selected = -1 ∨ h.Selected < h.Count →
        (gui_dropdown_addstring h text true).1.Selected = h.Selected ∧
        (gui_dropdown_addstring h text true).1.C.callbacks = h.C.callbacks)) := by
  refine ⟨by simp [gui_dropdown_addstring], ?_⟩
  rw [addstring_ok_eq]
  refine ⟨rfl, by simp [check_values_root], ?_⟩
  intro hr hlt
  unfold in_int16 at hr
  have e : to_int16 (h.Count + 1) = h.Count + 1 :=
    to_int16_of_in _ (by unfold in_int16; omega)
  simp only [e]
  refine ⟨by simp [check_values_count], ?_⟩
  intro hs
  have hsel : checked_selected
      { h with Root := h.Root ++ [text], Count := h.Count + 1 } = h.Selected := by
    unfold checked_selected
    simp only []
    split_ifs <;> omega
  constructor
  · simp only [check_values_selected, hsel]
  · simp [guii_widget_invalidate, check_values_callbacks, hsel]

/-- Witness of C20, amended: a fourth entry added to three. -/
theorem addstring_appends_witness :
    (in_int16 (add_strings dropdown_small [100, 101, 102]).Count ∧
      (add_strings dropdown_small [100, 101, 102]).Count < 32767) ∧
    (gui_dropdown_addstring (add_strings dropdown_small [100, 101, 102]) 103 true).1.Root
      = [100, 101, 102, 103] ∧
    (gui_dropdown_addstring (add_strings dropdown_small [100, 101, 102]) 103 true).1.Count = 4 :=
  ⟨by decide,
   ((addstring_appends (add_strings dropdown_small [100, 101, 102]) 103).2.2.1).trans
      (by decide),
   (((addstring_appends (add_strings dropdown_small [100, 101, 102]) 103).2.2.2
      (by decide) (by decide)).1).trans (by decide)⟩

/-- C21 (the code departs from it): `gui_dropdown_setstring` is to return 1
when `index < Count`.  On three entries, `gui_dropdown_setstring(h, 1, 555)`
replaces the text of entry 1 and returns 0; the function returns 0 for every
dropdown, index and text. -/
theorem setstring_returns_zero :
    (add_strings dropdown_small [100, 101, 102]).Count = 3 ∧
    (gui_dropdown_setstring (add_strings dropdown_small [100, 101, 102]) 1 555).1.Root
      = [100, 555, 102] ∧
    (gui_dropdown_setstring (add_strings dropdown_small [100, 101, 102]) 1 555).2 = 0 ∧
    ∀ (h : gui_dropdown_t) (index : Int) (text : Nat),
      (gui_dropdown_setstring h index text).2 = 0 := by
  refine ⟨by decide, by decide, by decide, ?_⟩
  intro h index text
  unfold gui_dropdown_setstring
  cases get_item h index <;> rfl

/-- C22 (the code departs from it): after `gui_dropdown_setopendirection` the
open-up flag is to be set exactly when the direction is up.  On the closed
dropdown `dropdown_three_up`, which opens up, requesting `DOWN` returns 1 and
leaves the open-up flag set, and the next open still moves `y` up by three
heights. -/
theorem setopendirection_down_keeps_up :
    is_opened dropdown_three_up = false ∧ is_dir_up dropdown_three_up = true ∧
    (gui_dropdown_setopendirection dropdown_three_up
      gui_dropdown_opendir_t.GUI_DROPDOWN_OPENDIR_DOWN).2 = 1 ∧
    is_dir_up (gui_dropdown_setopendirection dropdown_three_up
      gui_dropdown_opendir_t.GUI_DROPDOWN_OPENDIR_DOWN).1 = true ∧
    (open_close (gui_dropdown_setopendirection dropdown_three_up
      gui_dropdown_opendir_t.GUI_DROPDOWN_OPENDIR_DOWN).1 1).1.C.y
      = dropdown_three_up.C.y - 3 * dropdown_three_up.C.height := by
  decide

/-- C23 (the code departs from it): `gui_dropdown_setopendirection` is to
change no flag but the open-direction bit.  On the closed dropdown
`dropdown_three_up` (flags slider-on, slider-auto and open-up), requesting
`DOWN` leaves the flag byte equal to the open-up bit alone: slider-auto and
slider-on are cleared. -/
theorem setopendirection_down_wipes_flags :
    dropdown_three_up.Flags = 14 ∧
    flag_test dropdown_three_up.Flags GUI_FLAG_DROPDOWN_SLIDER_AUTO = true ∧
    flag_test dropdown_three_up.Flags GUI_FLAG_DROPDOWN_SLIDER_ON = true ∧
    (gui_dropdown_setopendirection dropdown_three_up
      gui_dropdown_opendir_t.GUI_DROPDOWN_OPENDIR_DOWN).1.Flags = 8 ∧
    flag_test (gui_dropdown_setopendirection dropdown_three_up
      gui_dropdown_opendir_t.GUI_DROPDOWN_OPENDIR_DOWN).1.Flags
      GUI_FLAG_DROPDOWN_SLIDER_AUTO = false ∧
    flag_test (gui_dropdown_setopendirection dropdown_three_up
      gui_dropdown_opendir_t.GUI_DROPDOWN_OPENDIR_DOWN).1.Flags
      GUI_FLAG_DROPDOWN_SLIDER_ON = false := by
  decide

/-- C24: `gui_dropdown_scroll(h, step)` returns 1 if and only if
`visiblestartindex` after the call differs from its value before the call and
returns 0 otherwise; `Count` and the entry list are unchanged, and `Selected`
is unchanged when it is `-1` or `< Count`. -/
theorem scroll_reports_change (h : gui_dropdown_t) (step : Int) :
    ((gui_dropdown_scroll h step).2 = 1 ↔
      (gui_dropdown_scroll h step).1.visiblestartindex ≠ h.visiblestartindex) ∧
    ((gui_dropdown_scroll h step).2 = 0 ↔
      (gui_dropdown_scroll h step).1.visiblestartindex = h.visiblestartindex) ∧
    (gui_dropdown_scroll h step).1.Count = h.Count ∧
    (gui_dropdown_scroll h step).1.Root = h.Root ∧
    (h.Selected = -1 ∨ h.Selected < h.Count →
      (gui_dropdown_scroll h step).1.Selected = h.Selected ∧
      (gui_dropdown_scroll h step).1.C.callbacks = h.C.callbacks) := by
  have hcs : h.Selected = -1 ∨ h.Selected < h.Count →
      checked_selected { h with visiblestartindex := to_int16 (h.visiblestartindex + step) }
        = h.Selected := by
    intro hs
    unfold checked_selected
    simp only []
    split_ifs <;> omega
  unfold gui_dropdown_scroll
  simp only []
  split_ifs with c
  · have c2 : ¬ (check_values
        { h with visiblestartindex := to_int16 (h.visiblestartindex + step) }).visiblestartindex
          = h.visiblestartindex := fun e => c e.symm
    refine ⟨⟨fun _ => c2, fun _ => rfl⟩, ⟨fun e => by simp at e, fun e => absurd e c2⟩,
      check_values_count _, check_values_root _, ?_⟩
    intro hs
    refine ⟨(check_values_selected _).trans (hcs hs), ?_⟩
    show (check_values _).C.callbacks = _
    rw [check_values_callbacks, hcs hs]
    simp
  · have c2 : (check_values
        { h with visiblestartindex := to_int16 (h.visiblestartindex + step) }).visiblestartindex
          = h.visiblestartindex := by
      have := not_not.mp c
      exact this.symm
    refine ⟨⟨fun e => by simp at e, fun e => absurd c2 e⟩, ⟨fun _ => c2, fun _ => rfl⟩,
      check_values_count _, check_values_root _, ?_⟩
    intro hs
    refine ⟨(check_values_selected _).trans (hcs hs), ?_⟩
    rw [check_values_callbacks, hcs hs]
    simp

/-- Witness of C24: eight entries on a page of four; a scroll by 10 changes the
start index and returns 1, a scroll by 0 returns 0. -/
theorem scroll_reports_change_witness :
    (dropdown_eight.Selected = -1 ∨ dropdown_eight.Selected < dropdown_eight.Count) ∧
    (gui_dropdown_scroll dropdown_eight 10).2 = 1 ∧
    (gui_dropdown_scroll dropdown_eight 0).2 = 0 ∧
    (gui_dropdown_scroll dropdown_eight 10).1.Selected = dropdown_eight.Selected :=
  ⟨by decide,
   (scroll_reports_change dropdown_eight 10).1.2 (by decide),
   (scroll_reports_change dropdown_eight 0).2.1.2 (by decide),
   ((scroll_reports_change dropdown_eight 10).2.2.2.2 (by decide)).1⟩

/-- C25 (the code departs from it): `gui_graph_attachdata` is to return 0 when
the arena cannot supply a list node.  It returns 1 whatever the allocations
do: with both failing (both lists unchanged), and with the first succeeding
and the second failing, where graph 1 lists series 0 while series 0 does not
list graph 1. -/
theorem attachdata_always_returns_one :
    (∀ (a : Bool) (w : graph_world) (h d : Nat) (alloc1 alloc2 : Bool),
      (gui_graph_attachdata a w h d alloc1 alloc2).2 = 1) ∧
    ((gui_graph_attachdata true world_plain 1 0 false false).1.graphs 1).Root = [] ∧
    ((gui_graph_attachdata true world_plain 1 0 false false).1.data 0).Root = [] ∧
    (gui_graph_attachdata true world_plain 1 0 false false).2 = 1 ∧
    ((gui_graph_attachdata true world_plain 1 0 true false).1.graphs 1).Root = [0] ∧
    ((gui_graph_attachdata true world_plain 1 0 true false).1.data 0).Root = [] ∧
    (gui_graph_attachdata true world_plain 1 0 true false).2 = 1 := by
  refine ⟨?_, ?_, ?_, rfl, ?_, ?_, rfl⟩
  · intro a w h d alloc1 alloc2; rfl
  · simp [gui_graph_attachdata, gui_linkedlist_multi_add_gen, world_plain, graph_preinit,
      gui_graph_callback, graph_reset]
  · simp [gui_graph_attachdata, gui_linkedlist_multi_add_gen, world_plain, series_yt4]
  · simp [gui_graph_attachdata, gui_linkedlist_multi_add_gen, world_plain, graph_preinit,
      gui_graph_callback, graph_reset]
  · simp [gui_graph_attachdata, gui_linkedlist_multi_add_gen, world_plain, series_yt4]

/-- C26 as stated fails on the code: the byte count of the sample buffer is a
`size_t` product and wraps.  With a 32-bit `size_t`, an `XY` series of length
`0x40000001` requests `0x40000001 * 2 * 2 mod 2^32 = 4` bytes: on successful
allocations the series has `Length = 0x40000001` and a buffer of 2 samples,
not of `2 * Length`. -/
theorem data_create_counterexample :
    (1073741825 * 2 * SIZEOF_SAMPLE) % 2 ^ 32 = 4 ∧
    (gui_graph_data_create 32 GUI_GRAPH_TYPE_t.GUI_GRAPH_TYPE_XY 1073741825
        (some series_yt4) (some (fun _ => 0))).map
      (fun d => (d.Type_, d.Length, d.Data.length, decide (buffer_ok d)))
      = some (GUI_GRAPH_TYPE_t.GUI_GRAPH_TYPE_XY, 1073741825, 2, false) := by
  decide

/-- C26, amended: `gui_graph_data_create(type, length)` returns `NULL` if and
only if the allocation of the descriptor or of the sample buffer fails; on
success the series has the given type and length, and, when the byte count
`length * 2` (`YT`) or `length * 2 * 2` (`XY`) does not overflow `size_t`, a
buffer of `length` samples for `YT` and of `2 * length` for `XY`. -/
theorem data_create_result (size_bits : Nat) (type : GUI_GRAPH_TYPE_t) (length : Nat)
    (block : Option GUI_GRAPH_DATA_t) (buffer : Option (Nat → Int)) :
    (gui_graph_data_create size_bits type length block buffer = none
      ↔ block = none ∨ buffer = none) ∧
    (∀ d, gui_graph_data_create size_bits type length block buffer = some d →
      d.Type_ = type ∧ d.Length = length ∧
      (type = GUI_GRAPH_TYPE_t.GUI_GRAPH_TYPE_YT → length * SIZEOF_SAMPLE < 2 ^ size_bits →
        d.Data.length = length ∧ buffer_ok d) ∧
      (type = GUI_GRAPH_TYPE_t.GUI_GRAPH_TYPE_XY → length * 2 * SIZEOF_SAMPLE < 2 ^ size_bits →
        d.Data.length = 2 * length ∧ buffer_ok d)) := by
  unfold gui_graph_data_create
  cases block with
  | none => simp
  | some b =>
    cases buffer with
    | none => simp
    | some c =>
      simp only [false_or, reduceCtorEq, or_self, iff_false, not_false_eq_true, true_and,
        Option.some.injEq]
      intro d hd
      subst hd
      refine ⟨rfl, rfl, ?_, ?_⟩
      · intro ht hlt
        subst ht
        simp only [SIZEOF_SAMPLE] at hlt
        simp only [if_true, SIZEOF_SAMPLE, Nat.mod_eq_of_lt hlt, List.length_map,
          List.length_range, buffer_ok]
        omega
      · intro ht hlt
        subst ht
        simp only [SIZEOF_SAMPLE] at hlt
        simp only [reduceCtorEq, if_false, SIZEOF_SAMPLE, Nat.mod_eq_of_lt hlt, List.length_map,
          List.length_range, buffer_ok]
        omega

/-- Witness of C26, amended: an `XY` series of capacity 3 on successful
allocations, with a 32-bit `size_t`. -/
theorem data_create_result_witness :
    3 * 2 * SIZEOF_SAMPLE < 2 ^ 32 ∧
    ∃ d, gui_graph_data_create 32 GUI_GRAPH_TYPE_t.GUI_GRAPH_TYPE_XY 3
        (some series_yt4) (some (fun _ => 0)) = some d ∧
      d.Type_ = GUI_GRAPH_TYPE_t.GUI_GRAPH_TYPE_XY ∧ d.Length = 3 ∧ d.Data.length = 2 * 3 :=
  ⟨by decide, _, rfl,
   ((data_create_result 32 GUI_GRAPH_TYPE_t.GUI_GRAPH_TYPE_XY 3 (some series_yt4)
      (some (fun _ => 0))).2 _ rfl).1,
   ((data_create_result 32 GUI_GRAPH_TYPE_t.GUI_GRAPH_TYPE_XY 3 (some series_yt4)
      (some (fun _ => 0))).2 _ rfl).2.1,
   (((data_create_result 32 GUI_GRAPH_TYPE_t.GUI_GRAPH_TYPE_XY 3 (some series_yt4)
      (some (fun _ => 0))).2 _ rfl).2.2.2 rfl (by decide)).1⟩

/-- C27 (the code departs from it): a zoom factor above 1 is to leave a
positive, strictly smaller visible range.  On the window `[-10, 10]` of a new
graph, zoom 2 at the focus `(0, 0)` leaves the X window `[-10, -10]` of range
0, and zoom 10 at the centre leaves `[80, 325]`, of range 245 instead of
below 20. -/
theorem zoom_in_fails :
    (graph_preinit 0 0 200 150).VisibleMinX = -10 ∧
    (graph_preinit 0 0 200 150).VisibleMaxX = 10 ∧
    (gui_graph_zoom (graph_preinit 0 0 200 150) 2 0 0).1.VisibleMinX = -10 ∧
    (gui_graph_zoom (graph_preinit 0 0 200 150) 2 0 0).1.VisibleMaxX = -10 ∧
    (gui_graph_zoom (graph_preinit 0 0 200 150) 10 (1 / 2) (1 / 2)).1.VisibleMinX = 80 ∧
    (gui_graph_zoom (graph_preinit 0 0 200 150) 10 (1 / 2) (1 / 2)).1.VisibleMaxX = 325 := by
  simp [gui_graph_zoom, graph_zoom, graph_preinit, gui_graph_callback, graph_reset]
  norm_num

/-- C28: after `PreInit` the visible window equals the hard bounds,
`[-10, 10]` on both axes; from every graph state `gui_graph_zoomreset` and the
`DblClick` command set the visible window to the hard bounds and leave the
hard bounds unchanged; the reset is idempotent, and after any sequence of
zooms and `TouchMove` commands it gives the window it would have given
before. -/
theorem reset_restores_window (tX tY : Nat → Int) (g : GUI_GRAPH_t)
    (param : gui_widget_param_t) (l : List graph_gesture) :
    (window_reset (gui_graph_callback tX tY g GUI_WC_t.PreInit param).g ∧
      (gui_graph_callback tX tY g GUI_WC_t.PreInit param).g.MinX = -10 ∧
      (gui_graph_callback tX tY g GUI_WC_t.PreInit param).g.MaxX = 10 ∧
      (gui_graph_callback tX tY g GUI_WC_t.PreInit param).g.MinY = -10 ∧
      (gui_graph_callback tX tY g GUI_WC_t.PreInit param).g.MaxY = 10) ∧
    (window_reset (gui_graph_zoomreset g).1 ∧ same_hard_bounds (gui_graph_zoomreset g).1 g) ∧
    (window_reset (gui_graph_callback tX tY g GUI_WC_t.DblClick param).g ∧
      same_hard_bounds (gui_graph_callback tX tY g GUI_WC_t.DblClick param).g g) ∧
    (gui_graph_zoomreset (gui_graph_zoomreset g).1).1 = (gui_graph_zoomreset g).1 ∧
    (window_reset
        (gui_graph_zoomreset (apply_gestures ⟨g, tX, tY, false, 0, 1⟩ l).g).1 ∧
      same_hard_bounds
        (gui_graph_zoomreset (apply_gestures ⟨g, tX, tY, false, 0, 1⟩ l).g).1 g) := by
  refine ⟨?_, ?_, ?_, ?_, ?_⟩
  · refine ⟨⟨rfl, rfl, rfl, rfl⟩, rfl, rfl, rfl, rfl⟩
  · rw [zoomreset_eq]; exact ⟨⟨rfl, rfl, rfl, rfl⟩, ⟨rfl, rfl, rfl, rfl⟩⟩
  · rw [dblclick_eq]; exact ⟨⟨rfl, rfl, rfl, rfl⟩, ⟨rfl, rfl, rfl, rfl⟩⟩
  · simp [zoomreset_eq, graph_reset, guii_widget_invalidate]
  · have hb := apply_gestures_hard_bounds l ⟨g, tX, tY, false, 0, 1⟩
    rw [zoomreset_eq]
    exact ⟨⟨rfl, rfl, rfl, rfl⟩, same_hard_bounds_trans ⟨rfl, rfl, rfl, rfl⟩ hb⟩

/-- C29 as stated fails on the code: the step, the difference and each new
bound are rounded to single precision, so the two bounds of an axis are not
moved by the same amount.  On a new graph of 200 by 150 pixels (plot height
140, window `[-10, 10]`, size 20) a single-finger `TouchMove` from `(0, 0)` to
`(0, 15)` leaves `VisibleMinY = -16477623 * 2^-21` and
`VisibleMaxY = 12732708 * 2^-20`, whose exact difference is
`41943039 * 2^-21 = 19.9999995`, not `20 = 41943040 * 2^-21`; neither bound is
the old one plus `15 * 20 / 140`, which no single precision value equals.
(`f32_scaled` is the value in units of `2^-149`.) -/
theorem touch_move_rounding_counterexample :
    (touch_f32 0 15).touch.Count = 1 ∧
    guii_widget_getheight (graph_preinit_f32 0 0 200 150).C
      - (graph_preinit_f32 0 0 200 150).Border.TOP
      - (graph_preinit_f32 0 0 200 150).Border.BOTTOM = 140 ∧
    (graph_preinit_f32 0 0 200 150).VisibleMinY = f32_of_int (-10) ∧
    (graph_preinit_f32 0 0 200 150).VisibleMaxY = f32_of_int 10 ∧
    f32_scaled (graph_preinit_f32 0 0 200 150).VisibleMaxY
      - f32_scaled (graph_preinit_f32 0 0 200 150).VisibleMinY = 41943040 * 2 ^ 128 ∧
    (gui_graph_callback_f32 (fun _ => 0) (fun _ => 0) (graph_preinit_f32 0 0 200 150)
      GUI_WC_t.TouchMove (touch_f32 0 15)).g.VisibleMinY = f32.finite true 16477623 (-21) ∧
    (gui_graph_callback_f32 (fun _ => 0) (fun _ => 0) (graph_preinit_f32 0 0 200 150)
      GUI_WC_t.TouchMove (touch_f32 0 15)).g.VisibleMaxY = f32.finite false 12732708 (-20) ∧
    f32_scaled (gui_graph_callback_f32 (fun _ => 0) (fun _ => 0) (graph_preinit_f32 0 0 200 150)
        GUI_WC_t.TouchMove (touch_f32 0 15)).g.VisibleMaxY
      - f32_scaled (gui_graph_callback_f32 (fun _ => 0) (fun _ => 0)
        (graph_preinit_f32 0 0 200 150) GUI_WC_t.TouchMove (touch_f32 0 15)).g.VisibleMinY
      = 41943039 * 2 ^ 128 := by
  decide

/-- C29, amended: on a graph with non-zero plot-area width and height, finite
visible bounds and finite non-zero visible ranges (as computed in single
precision), a single-finger `TouchMove` from the stored point `(tX, tY)` to
`(x, y)` stores `VisibleMinX - dX`, `VisibleMaxX - dX`, `VisibleMinY + dY`,
`VisibleMaxY + dY`, each rounded to single precision, where
`dX = (float)(x - tX) / ((float)(width - left - right) / (VisibleMaxX - VisibleMinX))`
and
`dY = (float)(y - tY) / ((float)(height - top - bottom) / (VisibleMaxY - VisibleMinY))`
are themselves rounded at each operation (`pan_delta`); a zero delta leaves
each of the four bounds equal (`==`) to its old value.  The size of the window
is kept only up to these roundings. -/
theorem touch_move_pans_rounded (tX tY : Nat → Int) (g : GUI_GRAPH_f32_t)
    (param : graph_param_f32_t) (h1 : param.touch.Count = 1)
    (hw : guii_widget_getwidth g.C - g.Border.LEFT - g.Border.RIGHT ≠ 0)
    (hh : guii_widget_getheight g.C - g.Border.TOP - g.Border.BOTTOM ≠ 0)
    (hminx : f32_finite g.VisibleMinX) (hmaxx : f32_finite g.VisibleMaxX)
    (hminy : f32_finite g.VisibleMinY) (hmaxy : f32_finite g.VisibleMaxY)
    (hrx : f32_finite (f32_sub g.VisibleMaxX g.VisibleMinX))
    (hry : f32_finite (f32_sub g.VisibleMaxY g.VisibleMinY))
    (hx : f32_nonzero (f32_sub g.VisibleMaxX g.VisibleMinX))
    (hy : f32_nonzero (f32_sub g.VisibleMaxY g.VisibleMinY)) :
    (gui_graph_callback_f32 tX tY g GUI_WC_t.TouchMove param).g.VisibleMinX
      = f32_sub g.VisibleMinX
          (pan_delta (guii_widget_getwidth g.C - g.Border.LEFT - g.Border.RIGHT)
            (f32_sub g.VisibleMaxX g.VisibleMinX) (param.touch.RelX.getD 0 0 - tX 0)) ∧
    (gui_graph_callback_f32 tX tY g GUI_WC_t.TouchMove param).g.VisibleMaxX
      = f32_sub g.VisibleMaxX
          (pan_delta (guii_widget_getwidth g.C - g.Border.LEFT - g.Border.RIGHT)
            (f32_sub g.VisibleMaxX g.VisibleMinX) (param.touch.RelX.getD 0 0 - tX 0)) ∧
    (gui_graph_callback_f32 tX tY g GUI_WC_t.TouchMove param).g.VisibleMinY
      = f32_add g.VisibleMinY
          (pan_delta (guii_widget_getheight g.C - g.Border.TOP - g.Border.BOTTOM)
            (f32_sub g.VisibleMaxY g.VisibleMinY) (param.touch.RelY.getD 0 0 - tY 0)) ∧
    (gui_graph_callback_f32 tX tY g GUI_WC_t.TouchMove param).g.VisibleMaxY
      = f32_add g.VisibleMaxY
          (pan_delta (guii_widget_getheight g.C - g.Border.TOP - g.Border.BOTTOM)
            (f32_sub g.VisibleMaxY g.VisibleMinY) (param.touch.RelY.getD 0 0 - tY 0)) ∧
    (param.touch.RelX.getD 0 0 = tX 0 → param.touch.RelY.getD 0 0 = tY 0 →
      f32_eq (gui_graph_callback_f32 tX tY g GUI_WC_t.TouchMove param).g.VisibleMinX
        g.VisibleMinX = true ∧
      f32_eq (gui_graph_callback_f32 tX tY g GUI_WC_t.TouchMove param).g.VisibleMaxX
        g.VisibleMaxX = true ∧
      f32_eq (gui_graph_callback_f32 tX tY g GUI_WC_t.TouchMove param).g.VisibleMinY
        g.VisibleMinY = true ∧
      f32_eq (gui_graph_callback_f32 tX tY g GUI_WC_t.TouchMove param).g.VisibleMaxY
        g.VisibleMaxY = true) := by
  have f1 : (gui_graph_callback_f32 tX tY g GUI_WC_t.TouchMove param).g.VisibleMinX
      = f32_sub g.VisibleMinX
          (pan_delta (guii_widget_getwidth g.C - g.Border.LEFT - g.Border.RIGHT)
            (f32_sub g.VisibleMaxX g.VisibleMinX) (param.touch.RelX.getD 0 0 - tX 0)) := by
    simp only [gui_graph_callback_f32, h1, if_true, pan_delta]
  have f2 : (gui_graph_callback_f32 tX tY g GUI_WC_t.TouchMove param).g.VisibleMaxX
      = f32_sub g.VisibleMaxX
          (pan_delta (guii_widget_getwidth g.C - g.Border.LEFT - g.Border.RIGHT)
            (f32_sub g.VisibleMaxX g.VisibleMinX) (param.touch.RelX.getD 0 0 - tX 0)) := by
    simp only [gui_graph_callback_f32, h1, if_true, pan_delta]
  have f3 : (gui_graph_callback_f32 tX tY g GUI_WC_t.TouchMove param).g.VisibleMinY
      = f32_add g.VisibleMinY
          (pan_delta (guii_widget_getheight g.C - g.Border.TOP - g.Border.BOTTOM)
            (f32_sub g.VisibleMaxY g.VisibleMinY) (param.touch.RelY.getD 0 0 - tY 0)) := by
    simp only [gui_graph_callback_f32, h1, if_true, pan_delta]
  have f4 : (gui_graph_callback_f32 tX tY g GUI_WC_t.TouchMove param).g.VisibleMaxY
      = f32_add g.VisibleMaxY
          (pan_delta (guii_widget_getheight g.C - g.Border.TOP - g.Border.BOTTOM)
            (f32_sub g.VisibleMaxY g.VisibleMinY) (param.touch.RelY.getD 0 0 - tY 0)) := by
    simp only [gui_graph_callback_f32, h1, if_true, pan_delta]
  refine ⟨f1, f2, f3, f4, ?_⟩
  intro ex ey
  obtain ⟨u, hu⟩ := pan_delta_zero _ _ hw hrx hx
  obtain ⟨v, hv⟩ := pan_delta_zero _ _ hh hry hy
  rw [f1, f2, f3, f4, ex, ey, sub_self, sub_self, hu, hv]
  exact ⟨(f32_sub_zero_eq _ u hminx).1, (f32_sub_zero_eq _ u hmaxx).1,
    (f32_add_zero_eq _ v hminy).1, (f32_add_zero_eq _ v hmaxy).1⟩

/-- Witness of C29: a new graph of 200 by 150 pixels, touch moved from `(0, 0)`
to `(0, 0)`. -/
theorem touch_move_pans_rounded_witness :
    ((touch_f32 0 0).touch.Count = 1 ∧
      f32_nonzero (f32_sub (graph_preinit_f32 0 0 200 150).VisibleMaxX
        (graph_preinit_f32 0 0 200 150).VisibleMinX)) ∧
    f32_eq (gui_graph_callback_f32 (fun _ => 0) (fun _ => 0) (graph_preinit_f32 0 0 200 150)
        GUI_WC_t.TouchMove (touch_f32 0 0)).g.VisibleMinX
      (graph_preinit_f32 0 0 200 150).VisibleMinX = true :=
  ⟨by decide,
   ((touch_move_pans_rounded (fun _ => 0) (fun _ => 0) (graph_preinit_f32 0 0 200 150)
      (touch_f32 0 0) (by decide) (by decide) (by decide) (by decide) (by decide) (by decide)
      (by decide) (by decide) (by decide) (by decide) (by decide)).2.2.2.2 rfl rfl).1⟩

/-- C30 (the code departs from it): the bound
`0 ≤ visiblestartindex ≤ max(0, Count - entries_per_page)` is to hold in every
reachable state.  On the new, empty dropdown `dropdown_small` (two entries per
page) `gui_dropdown_scroll(h, 5)` returns 1 and leaves `visiblestartindex = 5`;
a `TouchStart` at `RelY = 50` followed by a `TouchMove` to `RelY = 0` leaves
`visiblestartindex = -2`. -/
theorem reachable_start_out_of_bounds :
    visible_ok dropdown_small ∧ dropdown_small.Count = 0 ∧
    entries_per_page dropdown_small = 2 ∧
    (gui_dropdown_scroll dropdown_small 5).2 = 1 ∧
    (gui_dropdown_scroll dropdown_small 5).1.visiblestartindex = 5 ∧
    ¬ visible_ok (gui_dropdown_scroll dropdown_small 5).1 ∧
    dropdown_small_dragged.map (fun r => r.h.visiblestartindex) = some (-2) ∧
    dropdown_small_dragged.map (fun r => decide (visible_ok r.h)) = some false := by
  decide

/-- C31 (the code departs from it): `Selected` is to be `-1` or an index
`0 ≤ Selected < Count` in every reachable state, so that the `Draw` walk to the
selected entry stays within the list.  On the new, empty dropdown
`dropdown_small` a `KeyPress` of `GUI_KEY_UP`, and likewise `IncSelection`
with step `-1`, leaves `Selected = 0` with `Count = 0`, and the `Draw` walk then
reads `item->Text` through the null pointer;
`gui_dropdown_setselection(h, -5)` leaves `Selected = -5`. -/
theorem keypress_up_on_empty_selects_no_entry :
    dropdown_small.Count = 0 ∧ dropdown_small.Selected = -1 ∧ dropdown_small.Root = [] ∧
    selected_in_range dropdown_small ∧
    (gui_dropdown_callback 0 dropdown_small GUI_WC_t.KeyPress (key_press GUI_KEY_UP)).map
      (fun r => (r.h.Selected, r.h.Count, r.h.Root)) = some (0, 0, []) ∧
    (gui_dropdown_callback 0 dropdown_small GUI_WC_t.KeyPress (key_press GUI_KEY_UP)).map
      (fun r => decide (selected_in_range r.h)) = some false ∧
    (gui_dropdown_callback 0 dropdown_small GUI_WC_t.KeyPress (key_press GUI_KEY_UP)).map
      (fun r => draw_selected_item r.h) = some (some none) ∧
    (gui_dropdown_callback 0 dropdown_small GUI_WC_t.IncSelection (inc_param (-1))).map
      (fun r => (r.h.Selected, r.h.Count, draw_selected_item r.h)) = some (0, 0, some none) ∧
    (gui_dropdown_setselection dropdown_small (-5)).1.Selected = -5 ∧
    ¬ selected_in_range (gui_dropdown_setselection dropdown_small (-5)).1 := by
  decide

/-- C32: on an opened dropdown with a font and
`0 ≤ visiblestartindex ≤ Count - entries_per_page` (hence
`Count ≥ entries_per_page`; the difference fits `int16_t`), a `TouchMove` whose
Y differs from the stored touch Y by more than the item height leaves
`visiblestartindex = min(old + 1, Count - entries_per_page)` when the stored Y
minus the new Y is positive and `max(old - 1, 0)` when it is negative, stores
the new Y, returns 1 and leaves the dropdown opened; a `TouchMove` within one
item height changes neither the widget nor the stored Y. -/
theorem touch_move_slides_opened (h : gui_dropdown_t) (tY : Int) (param : gui_widget_param_t)
    (f : GUI_FONT_t) (ho : is_opened h = true) (hf : h.C.font = some f)
    (hlo : 0 ≤ h.visiblestartindex)
    (hhi : h.visiblestartindex ≤ h.Count - entries_per_page h)
    (hpage : in_int16 (h.Count - entries_per_page h)) :
    (GUI_ABS (tY - param.touch.RelY0) > item_height f → tY - param.touch.RelY0 > 0 →
      (gui_dropdown_callback tY h GUI_WC_t.TouchMove param).map
          (fun r => (r.h.visiblestartindex, r.tY, r.ret, is_opened r.h))
        = some (min (h.visiblestartindex + 1) (h.Count - entries_per_page h),
            param.touch.RelY0, 1, true)) ∧
    (GUI_ABS (tY - param.touch.RelY0) > item_height f → tY - param.touch.RelY0 < 0 →
      (gui_dropdown_callback tY h GUI_WC_t.TouchMove param).map
          (fun r => (r.h.visiblestartindex, r.tY, r.ret, is_opened r.h))
        = some (max (h.visiblestartindex - 1) 0, param.touch.RelY0, 1, true)) ∧
    (GUI_ABS (tY - param.touch.RelY0) ≤ item_height f →
      gui_dropdown_callback tY h GUI_WC_t.TouchMove param
        = some { h := h, tY := tY, touch_handled := false, key_handled := false,
                 result_u8 := 0, ret := 1 }) := by
  unfold entries_per_page at *
  have hs := slide_one_visible h hlo hhi hpage
  have o1 : is_opened (slide h 1) = true := by
    simp only [is_opened, (slide_frame h 1).2.2.2.1] at ho ⊢
    exact ho
  have o2 : is_opened (slide h (-1)) = true := by
    simp only [is_opened, (slide_frame h (-1)).2.2.2.1] at ho ⊢
    exact ho
  rw [touch_move_eq h tY param f hf]
  refine ⟨?_, ?_, ?_⟩
  · intro ha hd
    simp only [ha, hd, if_true, Option.map_some', hs.1, o1]
  · intro ha hd
    have hd2 : ¬ tY - param.touch.RelY0 > 0 := by omega
    simp only [ha, hd2, if_true, if_false, Option.map_some', hs.2, o2]
  · intro ha
    have ha2 : ¬ GUI_ABS (tY - param.touch.RelY0) > item_height f := by omega
    simp only [ha2, if_false]

/-- Witness of C32: eight entries on a page of four, opened, start 0; a drag
from `RelY = 50` to `RelY = 0` (item height 20) gives start 1 and stores 0. -/
theorem touch_move_slides_opened_witness :
    (is_opened dropdown_eight_opened = true ∧ dropdown_eight_opened.visiblestartindex = 0 ∧
      dropdown_eight_opened.Count = 8 ∧ entries_per_page dropdown_eight_opened = 4) ∧
    (gui_dropdown_callback 50 dropdown_eight_opened GUI_WC_t.TouchMove (touch_at 0)).map
        (fun r => (r.h.visiblestartindex, r.tY, r.ret, is_opened r.h)) = some (1, 0, 1, true) :=
  ⟨by decide,
   ((touch_move_slides_opened dropdown_eight_opened 50 (touch_at 0) { size := 16 }
      (by decide) (by decide) (by decide) (by decide) (by decide)).1
      (by decide) (by decide)).trans (by decide)⟩

/-- C33 as stated fails on the code: the `TouchMove` case does not test the
opened flag.  On the closed dropdown `dropdown_eight` (eight entries, four per
page, start 0) a `TouchStart` at `RelY = 50` followed by a `TouchMove` to
`RelY = 0` leaves the dropdown closed with `visiblestartindex = 1`. -/
theorem closed_drag_counterexample :
    is_opened dropdown_eight = false ∧ dropdown_eight.visiblestartindex = 0 ∧
    dropdown_eight.Count = 8 ∧ entries_per_page dropdown_eight = 4 ∧
    dropdown_eight_dragged.map (fun r => (is_opened r.h, r.h.visiblestartindex))
      = some (false, 1) := by
  decide

/-- C33, amended: for every closed dropdown, a `TouchMove` leaves the widget
(and `visiblestartindex`) unchanged when there is no font or when the Y differs
from the stored touch Y by at most the item height; a drag by more than the
item height slides the closed dropdown as it does an opened one: from
`0 ≤ visiblestartindex ≤ Count - entries_per_page` (the difference fitting
`int16_t`) the start index becomes `min(old + 1, Count - entries_per_page)`
when the stored Y minus the new Y is positive and `max(old - 1, 0)` otherwise,
and the dropdown stays closed. -/
theorem touch_move_closed (h : gui_dropdown_t) (tY : Int) (param : gui_widget_param_t)
    (hc : is_opened h = false) :
    (h.C.font = none →
      gui_dropdown_callback tY h GUI_WC_t.TouchMove param
        = some { h := h, tY := tY, touch_handled := false, key_handled := false,
                 result_u8 := 0, ret := 1 }) ∧
    (∀ f, h.C.font = some f → GUI_ABS (tY - param.touch.RelY0) ≤ item_height f →
      gui_dropdown_callback tY h GUI_WC_t.TouchMove param
        = some { h := h, tY := tY, touch_handled := false, key_handled := false,
                 result_u8 := 0, ret := 1 }) ∧
    (∀ f, h.C.font = some f → GUI_ABS (tY - param.touch.RelY0) > item_height f →
      0 ≤ h.visiblestartindex → h.visiblestartindex ≤ h.Count - entries_per_page h →
      in_int16 (h.Count - entries_per_page h) →
      (gui_dropdown_callback tY h GUI_WC_t.TouchMove param).map
          (fun r => (is_opened r.h, r.h.visiblestartindex))
        = some (false,
            if tY - param.touch.RelY0 > 0 then
              min (h.visiblestartindex + 1) (h.Count - entries_per_page h)
            else max (h.visiblestartindex - 1) 0)) := by
  refine ⟨fun hf => touch_move_no_font h tY param hf, ?_, ?_⟩
  · intro f hf ha
    have ha2 : ¬ GUI_ABS (tY - param.touch.RelY0) > item_height f := by omega
    rw [touch_move_eq h tY param f hf]
    simp only [ha2, if_false]
  · intro f hf ha hlo hhi hpage
    unfold entries_per_page at *
    have hs := slide_one_visible h hlo hhi hpage
    rw [touch_move_eq h tY param f hf]
    simp only [ha, if_true, Option.map_some']
    by_cases hd : tY - param.touch.RelY0 > 0
    · simp only [hd, if_true, hs.1, is_opened, (slide_frame h 1).2.2.2.1]
      simp only [is_opened] at hc
      rw [hc]
    · simp only [hd, if_false, hs.2, is_opened, (slide_frame h (-1)).2.2.2.1]
      simp only [is_opened] at hc
      rw [hc]

/-- Witness of C33, amended: the closed dropdown `dropdown_eight`, dragged from
`RelY = 50` to `RelY = 0`, stays closed and starts at entry 1. -/
theorem touch_move_closed_witness :
    (is_opened dropdown_eight = false ∧ dropdown_eight.visiblestartindex = 0) ∧
    (gui_dropdown_callback 50 dropdown_eight GUI_WC_t.TouchMove (touch_at 0)).map
        (fun r => (is_opened r.h, r.h.visiblestartindex)) = some (false, 1) :=
  ⟨by decide,
   ((touch_move_closed dropdown_eight 50 (touch_at 0) (by decide)).2.2 { size := 16 }
      (by decide) (by decide) (by decide) (by decide) (by decide)).trans (by decide)⟩

/-- C34: for the dropdown reached by opening a closed one whose box was
`(y, height)`, the saved box is `OldY = y`, `OldHeight = height`, the
expanded box has height `4 * OldHeight`, and `get_opened_positions` applied to
the expanded box returns the strip `y1 = OldY`, `height1 = OldHeight` and a
list part of height `3 * OldHeight` that starts where the strip ends when
opening down and ends where the strip starts when opening up; no row belongs
to both the strip `[OldY, OldY + OldHeight)` and the list part. -/
theorem opened_positions_strip (h : gui_dropdown_t) (hc : is_opened h = false) :
    is_opened (open_close h 1).1 = true ∧
    (open_close h 1).1.OldY = h.C.y ∧ (open_close h 1).1.OldHeight = h.C.height ∧
    (open_close h 1).1.C.height = 4 * (open_close h 1).1.OldHeight ∧
    (get_opened_positions (open_close h 1).1 (open_close h 1).1.C.y
        (open_close h 1).1.C.height).y1 = (open_close h 1).1.OldY ∧
    (get_opened_positions (open_close h 1).1 (open_close h 1).1.C.y
        (open_close h 1).1.C.height).height1 = (open_close h 1).1.OldHeight ∧
    (get_opened_positions (open_close h 1).1 (open_close h 1).1.C.y
        (open_close h 1).1.C.height).height = 3 * (open_close h 1).1.OldHeight ∧
    (is_dir_up (open_close h 1).1 = false →
      (get_opened_positions (open_close h 1).1 (open_close h 1).1.C.y
          (open_close h 1).1.C.height).y
        = (open_close h 1).1.OldY + (open_close h 1).1.OldHeight) ∧
    (is_dir_up (open_close h 1).1 = true →
      (get_opened_positions (open_close h 1).1 (open_close h 1).1.C.y
          (open_close h 1).1.C.height).y
        + (get_opened_positions (open_close h 1).1 (open_close h 1).1.C.y
          (open_close h 1).1.C.height).height
        = (open_close h 1).1.OldY) ∧
    (∀ t : Int,
      ¬ (((open_close h 1).1.OldY ≤ t ∧
          t < (open_close h 1).1.OldY + (open_close h 1).1.OldHeight) ∧
        ((get_opened_positions (open_close h 1).1 (open_close h 1).1.C.y
            (open_close h 1).1.C.height).y ≤ t ∧
          t < (get_opened_positions (open_close h 1).1 (open_close h 1).1.C.y
              (open_close h 1).1.C.height).y
            + (get_opened_positions (open_close h 1).1 (open_close h 1).1.C.y
              (open_close h 1).1.C.height).height))) := by
  have hp := opened_positions_eq h hc
  have hu := is_dir_up_open h hc
  have ho : is_opened (open_close h 1).1 = true := by
    rw [open_close_open_eq h hc]; simp [is_opened]
  have hy : (open_close h 1).1.OldY = h.C.y := by rw [open_close_open_eq h hc]
  have hh : (open_close h 1).1.OldHeight = h.C.height := by rw [open_close_open_eq h hc]
  have h4 : (open_close h 1).1.C.height = 4 * h.C.height := by rw [open_close_open_eq h hc]
  rw [hp, hu, hy, hh, h4]
  cases c : is_dir_up h
  · simp only [Bool.false_eq_true, if_false]
    refine ⟨ho, trivial, trivial, trivial, trivial, trivial, trivial, fun _ => trivial,
      fun e => by simp at e, ?_⟩
    intro t; omega
  · simp only [if_true]
    refine ⟨ho, trivial, trivial, trivial, trivial, trivial, trivial, fun e => by simp at e,
      fun _ => by ring, ?_⟩
    intro t; omega

/-- Witness of C34: the dropdown `dropdown_three_up` (box `y = 0`, height 14,
opening up), opened: the strip is at `y1 = 0` with height 14 and the list part
spans `[-42, 0)`. -/
theorem opened_positions_strip_witness :
    is_opened dropdown_three_up = false ∧ is_dir_up dropdown_three_up = true ∧
    get_opened_positions (open_close dropdown_three_up 1).1
        (open_close dropdown_three_up 1).1.C.y (open_close dropdown_three_up 1).1.C.height
      = { y := -42, height := 42, y1 := 0, height1 := 14 } ∧
    (get_opened_positions (open_close dropdown_three_up 1).1
        (open_close dropdown_three_up 1).1.C.y (open_close dropdown_three_up 1).1.C.height).y1
      = (open_close dropdown_three_up 1).1.OldY :=
  ⟨by decide, by decide, by decide,
   (opened_positions_strip dropdown_three_up (by decide)).2.2.2.2.1⟩

/-- C35 as stated fails on the code: the product `3 * H` and the quotient
do not fit 16 bits for a tall widget with a small font.  On the closed
dropdown `dropdown_tall` (height 10923, font of item height 1) the floor of
`3 * 10923 / 1` is 32769, and `nr_entries_pp` returns `-32767`. -/
theorem entries_pp_counterexample :
    is_opened dropdown_tall = false ∧ dropdown_tall.C.height = 10923 ∧
    dropdown_tall.C.font = some { size := 1 } ∧ item_height { size := 1 } = 1 ∧
    Int.fdiv (3 * dropdown_tall.C.height) (item_height { size := 1 }) = 32769 ∧
    nr_entries_pp dropdown_tall = -32767 := by
  decide

/-- C35, amended: for every closed dropdown with a font of item height `≥ 1`
and a height `H` with `0 ≤ H` and `4 * H ≤ 32767` (the expanded height fits 16
bits), `nr_entries_pp` returns the same value in the closed state (height `H`)
and in the opened state reached by opening it (height `4 * H`), namely the
floor of `3 * H / item_height`; with no font it returns 0 in both states. -/
theorem entries_pp_open_closed (h : gui_dropdown_t) (hc : is_opened h = false) :
    (h.C.font = none → nr_entries_pp h = 0 ∧ nr_entries_pp (open_close h 1).1 = 0) ∧
    (∀ f, h.C.font = some f → 1 ≤ item_height f → 0 ≤ h.C.height → 4 * h.C.height ≤ 32767 →
      (open_close h 1).1.C.height = 4 * h.C.height ∧
      nr_entries_pp (open_close h 1).1 = nr_entries_pp h ∧
      nr_entries_pp h = Int.fdiv (3 * h.C.height) (item_height f)) := by
  have ho : is_opened (open_close h 1).1 = true := by
    rw [open_close_open_eq h hc]; simp [is_opened]
  have hfont : (open_close h 1).1.C.font = h.C.font := by rw [open_close_open_eq h hc]
  have h4 : (open_close h 1).1.C.height = 4 * h.C.height := by rw [open_close_open_eq h hc]
  have e : Int.tdiv (4 * h.C.height) 4 = h.C.height :=
    Int.mul_tdiv_cancel_left _ (by decide)
  constructor
  · intro hf
    unfold nr_entries_pp
    rw [hfont]
    simp only [hf, and_self]
  · intro f hf hi hH hfit
    have hq : Int.tdiv (h.C.height * 3) (item_height f)
        = Int.fdiv (3 * h.C.height) (item_height f) := by
      rw [Int.fdiv_eq_ediv _ (by omega), Int.tdiv_eq_ediv (by omega) (by omega), Int.mul_comm]
    have h0 : 0 ≤ Int.fdiv (3 * h.C.height) (item_height f) := by
      rw [Int.fdiv_eq_ediv _ (by omega)]
      exact Int.ediv_nonneg (by omega) (by omega)
    have h1 : Int.fdiv (3 * h.C.height) (item_height f) ≤ 3 * h.C.height := by
      rw [Int.fdiv_eq_ediv _ (by omega)]
      exact Int.ediv_le_self _ (by omega)
    have hw : to_int16 (Int.fdiv (3 * h.C.height) (item_height f))
        = Int.fdiv (3 * h.C.height) (item_height f) :=
      to_int16_of_in _ (by unfold in_int16; omega)
    have hclosed : nr_entries_pp h = Int.fdiv (3 * h.C.height) (item_height f) := by
      rw [← hw]
      unfold nr_entries_pp
      simp only [hf, hc, guii_widget_getheight, HEIGHT_CONST, Bool.not_false, if_true]
      rw [← hq]
      norm_num
    have hopened : nr_entries_pp (open_close h 1).1
        = Int.fdiv (3 * h.C.height) (item_height f) := by
      rw [← hw]
      unfold nr_entries_pp
      rw [hfont, ho]
      simp only [hf, guii_widget_getheight, h4, HEIGHT_CONST, e, Bool.not_true,
        Bool.false_eq_true, if_false]
      rw [← hq]
      congr 2
      ring
    exact ⟨h4, hopened.trans hclosed.symm, hclosed⟩

/-- Witness of C35, amended: `dropdown_eight` (height 28, item height 20) has
four entries per page, closed and opened. -/
theorem entries_pp_open_closed_witness :
    (is_opened dropdown_eight = false ∧ dropdown_eight.C.font = some { size := 16 } ∧
      1 ≤ item_height { size := 16 } ∧ 0 ≤ dropdown_eight.C.height ∧
      4 * dropdown_eight.C.height ≤ 32767) ∧
    nr_entries_pp (open_close dropdown_eight 1).1 = nr_entries_pp dropdown_eight ∧
    nr_entries_pp dropdown_eight = 4 :=
  ⟨by decide,
   ((entries_pp_open_closed dropdown_eight (by decide)).2 { size := 16 }
      (by decide) (by decide) (by decide) (by decide)).2.1,
   (((entries_pp_open_closed dropdown_eight (by decide)).2 { size := 16 }
      (by decide) (by decide) (by decide) (by decide)).2.2).trans (by decide)⟩

/-- C37 as stated fails on the code: on three entries with no selection,
`gui_dropdown_setselection(h, 5)` issues two `SelectionChanged` notifications
(one for the stored 5, one for the clamp to 2); with `Selected = 2` before the
call, `gui_dropdown_setselection(h, 5)` leaves `Selected = 2` and still issues
two notifications. -/
theorem setselection_counterexample :
    (add_strings dropdown_small [100, 101, 102]).Count = 3 ∧
    (add_strings dropdown_small [100, 101, 102]).Selected = -1 ∧
    (add_strings dropdown_small [100, 101, 102]).C.callbacks = [] ∧
    (gui_dropdown_setselection (add_strings dropdown_small [100, 101, 102]) 5).1.C.callbacks
      = [GUI_WC_t.SelectionChanged, GUI_WC_t.SelectionChanged] ∧
    (gui_dropdown_setselection (add_strings dropdown_small [100, 101, 102]) 2).1.Selected = 2 ∧
    (gui_dropdown_setselection (add_strings dropdown_small [100, 101, 102]) 2).1.C.callbacks
      = [GUI_WC_t.SelectionChanged] ∧
    (gui_dropdown_setselection
      (gui_dropdown_setselection (add_strings dropdown_small [100, 101, 102]) 2).1 5).1.Selected
      = 2 ∧
    (gui_dropdown_setselection
      (gui_dropdown_setselection (add_strings dropdown_small [100, 101, 102]) 2).1 5).1.C.callbacks
      = [GUI_WC_t.SelectionChanged, GUI_WC_t.SelectionChanged,
          GUI_WC_t.SelectionChanged] := by
  decide

/-- C37, amended: on a dropdown with `0 ≤ Count`,
`gui_dropdown_setselection(h, s)` issues one `SelectionChanged` notification
when `s` differs from `Selected`, and one more when `s ≥ 0` and `s ≥ Count`
(the clamp to `Count - 1`), hence at most two; for `s < 0` or `s < Count` it
leaves `Selected = s` and issues at most one notification, exactly when the
`Selected` value after the call differs from the value before the call. -/
theorem setselection_notifications (h : gui_dropdown_t) (s : Int)
    (hc : 0 ≤ h.Count) (hr : in_int16 h.Count) :
    (gui_dropdown_setselection h s).1.C.callbacks
      = h.C.callbacks
        ++ (if s ≠ h.Selected then [GUI_WC_t.SelectionChanged] else [])
        ++ (if s ≥ 0 ∧ s ≥ h.Count then [GUI_WC_t.SelectionChanged] else []) ∧
    (s < 0 ∨ s < h.Count →
      (gui_dropdown_setselection h s).1.Selected = s ∧
      (gui_dropdown_setselection h s).1.C.callbacks
        = h.C.callbacks
          ++ (if (gui_dropdown_setselection h s).1.Selected ≠ h.Selected then
                [GUI_WC_t.SelectionChanged] else [])) := by
  unfold in_int16 at hr
  have e : to_int16 (h.Count - 1) = h.Count - 1 :=
    to_int16_of_in _ (by unfold in_int16; omega)
  have hsel : (gui_dropdown_setselection h s).1.Selected
      = checked_selected (set_selection h s) := by
    unfold gui_dropdown_setselection
    simp only [check_values_selected]
  have hcb : (gui_dropdown_setselection h s).1.C.callbacks
      = (check_values (set_selection h s)).C.callbacks := by
    unfold gui_dropdown_setselection
    simp only [guii_widget_invalidate]
  have hcs : checked_selected (set_selection h s)
      = if s ≥ 0 ∧ s ≥ h.Count then h.Count - 1 else s := by
    unfold checked_selected
    simp only [set_selection_selected, set_selection_count, e]
  rw [hsel, hcb, check_values_callbacks, set_selection_callbacks, hcs]
  simp only [set_selection_selected]
  constructor
  · by_cases c : s ≥ 0 ∧ s ≥ h.Count
    · have c2 : ¬ h.Count - 1 = s := by omega
      simp only [c, and_self, if_true, ne_eq, c2, not_false_eq_true]
    · simp only [c, if_false, ne_eq, not_true_eq_false, List.append_nil]
  · intro hs
    have c : ¬ (s ≥ 0 ∧ s ≥ h.Count) := by omega
    simp only [c, if_false, ne_eq, not_true_eq_false, List.append_nil, and_self]

/-- Witness of C37, amended: on eight entries with no selection, selecting 6
issues one notification and selecting 12 issues two. -/
theorem setselection_notifications_witness :
    (0 ≤ dropdown_eight.Count ∧ in_int16 dropdown_eight.Count ∧ dropdown_eight.Selected = -1) ∧
    (gui_dropdown_setselection dropdown_eight 6).1.C.callbacks = [GUI_WC_t.SelectionChanged] ∧
    (gui_dropdown_setselection dropdown_eight 12).1.C.callbacks
      = [GUI_WC_t.SelectionChanged, GUI_WC_t.SelectionChanged] :=
  ⟨by decide,
   (((setselection_notifications dropdown_eight 6 (by decide) (by decide)).2
      (by decide)).2).trans (by decide),
   ((setselection_notifications dropdown_eight 12 (by decide) (by decide)).1).trans
      (by decide)⟩

/-- C38: each of `gui_graph_setminx`, `gui_graph_setmaxx`, `gui_graph_setminy`
and `gui_graph_setmaxy` returns 1, stores the value in the named hard bound,
and leaves the other three hard bounds and the visible window
`VisibleMinX/MaxX/MinY/MaxY` as they were (of the whole graph only the named
bound and the dirty flag change); a following `gui_graph_zoomreset` brings the
new bound into the visible window. -/
theorem set_bound_frame (g : GUI_GRAPH_t) (v : ℚ) :
    ((gui_graph_setminx g v) = ({ g with MinX := v, C := guii_widget_invalidate g.C }, 1) ∧
      (gui_graph_setminx g v).1.MinX = v ∧
      (gui_graph_setminx g v).1.MaxX = g.MaxX ∧ (gui_graph_setminx g v).1.MinY = g.MinY ∧
      (gui_graph_setminx g v).1.MaxY = g.MaxY ∧ same_window (gui_graph_setminx g v).1 g ∧
      (gui_graph_zoomreset (gui_graph_setminx g v).1).1.VisibleMinX = v) ∧
    ((gui_graph_setmaxx g v) = ({ g with MaxX := v, C := guii_widget_invalidate g.C }, 1) ∧
      (gui_graph_setmaxx g v).1.MaxX = v ∧
      (gui_graph_setmaxx g v).1.MinX = g.MinX ∧ (gui_graph_setmaxx g v).1.MinY = g.MinY ∧
      (gui_graph_setmaxx g v).1.MaxY = g.MaxY ∧ same_window (gui_graph_setmaxx g v).1 g ∧
      (gui_graph_zoomreset (gui_graph_setmaxx g v).1).1.VisibleMaxX = v) ∧
    ((gui_graph_setminy g v) = ({ g with MinY := v, C := guii_widget_invalidate g.C }, 1) ∧
      (gui_graph_setminy g v).1.MinY = v ∧
      (gui_graph_setminy g v).1.MinX = g.MinX ∧ (gui_graph_setminy g v).1.MaxX = g.MaxX ∧
      (gui_graph_setminy g v).1.MaxY = g.MaxY ∧ same_window (gui_graph_setminy g v).1 g ∧
      (gui_graph_zoomreset (gui_graph_setminy g v).1).1.VisibleMinY = v) ∧
    ((gui_graph_setmaxy g v) = ({ g with MaxY := v, C := guii_widget_invalidate g.C }, 1) ∧
      (gui_graph_setmaxy g v).1.MaxY = v ∧
      (gui_graph_setmaxy g v).1.MinX = g.MinX ∧ (gui_graph_setmaxy g v).1.MaxX = g.MaxX ∧
      (gui_graph_setmaxy g v).1.MinY = g.MinY ∧ same_window (gui_graph_setmaxy g v).1 g ∧
      (gui_graph_zoomreset (gui_graph_setmaxy g v).1).1.VisibleMaxY = v) := by
  unfold gui_graph_setminx gui_graph_setmaxx gui_graph_setminy gui_graph_setmaxy
    gui_graph_zoomreset same_window
  simp [setparam_eq, CFG_MIN_X, CFG_MAX_X, CFG_MIN_Y, CFG_MAX_Y, CFG_ZOOM_RESET, graph_reset]

/-- C39: `check_values` is idempotent: on every dropdown whose
`visiblestartindex` is an `int16_t` value, applying `check_values` twice
gives the same `Selected`, `visiblestartindex` and flags as applying it once,
the second application issues no `SelectionChanged` notification, and the two
states are equal in every field. -/
theorem check_values_idempotent (h : gui_dropdown_t) (hv : in_int16 h.visiblestartindex) :
    (check_values (check_values h)).Selected = (check_values h).Selected ∧
    (check_values (check_values h)).visiblestartindex = (check_values h).visiblestartindex ∧
    (check_values (check_values h)).Flags = (check_values h).Flags ∧
    (check_values (check_values h)).C.callbacks = (check_values h).C.callbacks ∧
    check_values (check_values h) = check_values h := by
  have hsel : checked_selected (check_values h) = checked_selected h := by
    rw [check_values_eq h]
    exact checked_selected_idem h _ _ _
  have hvis : checked_visible (check_values h) = checked_visible h :=
    checked_visible_idem h (check_values h) hv (check_values_count h)
      (nr_entries_pp_check_values h) (check_values_visible h)
  have hfl : checked_flags (check_values h) = checked_flags h :=
    checked_flags_idem h (check_values h) (check_values_count h)
      (nr_entries_pp_check_values h) (check_values_flags h)
  have hall : check_values (check_values h) = check_values h := by
    rw [check_values_eq (check_values h), hsel, hvis, hfl]
    have hs2 : (check_values h).Selected = checked_selected h := check_values_selected h
    simp only [hs2, ne_eq, not_true_eq_false, if_false]
    rw [check_values_eq h]
  exact ⟨by rw [hall], by rw [hall], by rw [hall], by rw [hall], hall⟩

/-- Witness of C39: three entries on a page of two with `Selected = 5` and
`visiblestartindex = 7`; one application gives `Selected = 2`,
`visiblestartindex = 1` and one notification, a second changes nothing. -/
theorem check_values_idempotent_witness :
    in_int16 dropdown_three_stale.visiblestartindex ∧
    (check_values dropdown_three_stale).Selected = 2 ∧
    (check_values dropdown_three_stale).visiblestartindex = 1 ∧
    (check_values dropdown_three_stale).C.callbacks = [GUI_WC_t.SelectionChanged] ∧
    (check_values (check_values dropdown_three_stale)).C.callbacks
      = (check_values dropdown_three_stale).C.callbacks ∧
    check_values (check_values dropdown_three_stale) = check_values dropdown_three_stale :=
  ⟨by decide, by decide, by decide, by decide,
   (check_values_idempotent dropdown_three_stale (by decide)).2.2.2.1,
   (check_values_idempotent dropdown_three_stale (by decide)).2.2.2.2⟩

end EasyGUI
